import Mathlib

/-!
# Care Foundation backend: wallet ledger and coupon lifecycle

A shallow embedding of `src/models/Wallet.js`, of the wallet endpoints of
`src/controllers/walletController.js`, of the catalog `src/config/couponPackages.js` and
of the coupon handlers of `src/controllers/couponController.js` (value helper, purchase,
assignment, settlement, rejection and redemption).

Conventions of the embedding:

* Amounts are exact rationals (`ℚ`), and a single `+=` or `-=` is the exact sum or
  difference. JavaScript Numbers are doubles: where the rounding of a chain of
  operations matters, the wallet methods are also given with that rounding
  (`Wallet.addTransaction64`, `Wallet.redeemCoupon64`, section "Wallet arithmetic in
  doubles"). `NaN` and the infinities are outside the model.
* Object ids are strings (the code only compares their `toString()`).
* `new Date()` is an explicit `now : Nat` argument (milliseconds since the epoch).
* The time zone of the server and the Unicode case mappings of its JavaScript engine are
  a parameter of the handlers that use them, the class `Host`; general theorems hold for
  every host, examples are run on `exampleHost`.
* A Mongoose document is a record; a method that mutates `this` and returns
  `this.save()` becomes a function returning the outcome of the save together with
  the document after the mutation. A `throw` keeps the document as it was at that
  point.
* Schema enums are inductive types, so only the `min: 0` validator of
  `currentBalance` is left for `save` to check.
* The models `Coupon` and `Partner` are not among the sources: their documents and the
  coupon methods are modelled from the specification, and a `save` of theirs succeeds.
-/

namespace CareFoundation

/-! ## Data model (`src/models/Wallet.js`, lines 3-113) -/

/-- Enum of `transactions.type`. -/
inductive TransactionType
  | topup
  | coupon_received
  | coupon_redeemed
  | settlement
  | adjustment
  deriving DecidableEq, Repr

/-- Enum of `transactions.status`. -/
inductive TransactionStatus
  | pending
  | completed
  | failed
  | cancelled
  deriving DecidableEq, Repr

/-- Enum of `coupons.status`. -/
inductive CouponEntryStatus
  | pending
  | redeemed
  | expired
  | cancelled
  deriving DecidableEq, Repr

/-- An element of `transactions`, as handed to `addTransaction`. -/
structure Transaction where
  type : TransactionType
  amount : ℚ
  coupon : Option String
  description : Option String
  transactionId : Option String
  processedBy : Option String
  status : Option TransactionStatus
  deriving DecidableEq, Repr

/-- An element of `coupons`: the per-coupon tracking entry. -/
structure CouponEntry where
  coupon : String
  receivedAt : Nat
  redeemedAt : Option Nat
  redeemedAmount : Option ℚ
  status : CouponEntryStatus
  deriving DecidableEq, Repr

/-- The `lastSettlement` sub-document. -/
structure LastSettlement where
  date : Nat
  amount : ℚ
  transactionId : Option String
  deriving DecidableEq, Repr

/-- A wallet document. `vendorType`, `status`, `settings` and the timestamps are never
read or written by the code modelled here and are left out. -/
structure Wallet where
  vendor : String
  currentBalance : ℚ
  totalReceived : ℚ
  totalRedeemed : ℚ
  totalSettled : ℚ
  transactions : List Transaction
  coupons : List CouponEntry
  lastSettlement : Option LastSettlement
  deriving DecidableEq, Repr

/-- The document `Wallet.create` makes for a vendor: schema defaults everywhere. -/
def Wallet.create (vendor : String) : Wallet :=
  { vendor := vendor, currentBalance := 0, totalReceived := 0, totalRedeemed := 0,
    totalSettled := 0, transactions := [], coupons := [], lastSettlement := none }

/-- The validation `save()` runs: `currentBalance` has `min: 0` (line 26); every other
validator of the schema is an enum or a `required` that the types already enforce. -/
def Wallet.save (w : Wallet) : Except String Unit :=
  if w.currentBalance < 0 then .error "Wallet validation failed" else .ok ()

/-! ## Wallet methods (`src/models/Wallet.js`, lines 120-177) -/

/-- Method `addTransaction` (lines 121-137), on exact amounts; `Wallet.addTransaction64`
is the method with the rounding of doubles. -/
def Wallet.addTransaction (w : Wallet) (transactionData : Transaction) :
    Except String Unit × Wallet :=
  let w1 := { w with transactions := w.transactions ++ [transactionData] }
  let w2 :=
    if transactionData.type = .topup ∨ transactionData.type = .coupon_received then
      { w1 with
        currentBalance := w1.currentBalance + transactionData.amount
        totalReceived := w1.totalReceived + transactionData.amount }
    else if transactionData.type = .coupon_redeemed ∨ transactionData.type = .settlement then
      let w3 := { w1 with currentBalance := w1.currentBalance - transactionData.amount }
      if transactionData.type = .coupon_redeemed then
        { w3 with totalRedeemed := w3.totalRedeemed + transactionData.amount }
      else
        { w3 with totalSettled := w3.totalSettled + transactionData.amount }
    else w1
  (w2.save, w2)

/-- Method `addCoupon` (lines 140-148); the default `amount = 0` is applied by the
caller passing `0`. The method does no arithmetic, so it is the same in doubles. -/
def Wallet.addCoupon (w : Wallet) (couponId : String) (amount : ℚ) (now : Nat) :
    Except String Unit × Wallet :=
  let w1 := { w with
    coupons := w.coupons ++
      [{ coupon := couponId, receivedAt := now, redeemedAt := none,
         redeemedAmount := some amount, status := .pending }] }
  (w1.save, w1)

/-- The predicate of the `find` at line 152. -/
def isPendingFor (couponId : String) (c : CouponEntry) : Bool :=
  c.coupon == couponId && c.status == .pending

/-- In-place update of the element `Array.prototype.find` returns: the first element
satisfying `p` is replaced by its image, the others stay. -/
def updateFirst {α : Type} (p : α → Bool) (f : α → α) : List α → List α
  | [] => []
  | x :: xs => if p x then f x :: xs else x :: updateFirst p f xs

/-- The assignments of lines 157-160 on the entry found. -/
def markRedeemed (amount : ℚ) (now : Nat) (c : CouponEntry) : CouponEntry :=
  { c with redeemedAt := some now, redeemedAmount := some amount, status := .redeemed }

/-- Method `redeemCoupon` (lines 151-177), on exact amounts; `Wallet.redeemCoupon64` is
the method with the rounding of doubles. -/
def Wallet.redeemCoupon (w : Wallet) (couponId : String) (amount : ℚ) (now : Nat) :
    Except String Unit × Wallet :=
  match w.coupons.find? (isPendingFor couponId) with
  | none => (.error "Coupon not found or already redeemed", w)
  | some couponEntry =>
    let previousAmount := couponEntry.redeemedAmount.getD 0
    let w1 := { w with
      coupons := updateFirst (isPendingFor couponId) (markRedeemed amount now) w.coupons
      totalRedeemed := w.totalRedeemed + amount }
    let w2 :=
      if previousAmount > 0 then { w1 with currentBalance := w1.currentBalance - amount }
      else w1
    (w2.save, w2)

/-- The bookkeeping identity of the wallet. -/
def Wallet.balanced (w : Wallet) : Prop :=
  w.currentBalance = w.totalReceived - w.totalRedeemed - w.totalSettled

instance (w : Wallet) : Decidable w.balanced := by
  unfold Wallet.balanced; infer_instance

/-- A sequence of `addTransaction` calls on one document. -/
def addTransactions (w : Wallet) (ts : List Transaction) : Wallet :=
  ts.foldl (fun acc t => (acc.addTransaction t).2) w

/-- A call of one of the three wallet methods. -/
inductive WalletOp
  | addTransaction (transactionData : Transaction)
  | addCoupon (couponId : String) (amount : ℚ) (now : Nat)
  | redeemCoupon (couponId : String) (amount : ℚ) (now : Nat)
  deriving DecidableEq, Repr

/-- Performs one method call on the document. -/
def WalletOp.apply (w : Wallet) : WalletOp → Except String Unit × Wallet
  | .addTransaction t => w.addTransaction t
  | .addCoupon c a now => w.addCoupon c a now
  | .redeemCoupon c a now => w.redeemCoupon c a now

/-- A sequence of method calls on one document. -/
def runOps (w : Wallet) (ops : List WalletOp) : Wallet :=
  ops.foldl (fun acc op => (op.apply acc).2) w

/-- Sum of the amounts of the logged transactions whose type satisfies `p`. -/
def logSum (p : TransactionType → Bool) (ts : List Transaction) : ℚ :=
  ((ts.filter (fun t => p t.type)).map (fun t => t.amount)).sum

/-- Sum of `redeemedAmount` over the tracking entries with status `redeemed`. -/
def redeemedEntriesSum (cs : List CouponEntry) : ℚ :=
  ((cs.filter (fun c => c.status == .redeemed)).map (fun c => c.redeemedAmount.getD 0)).sum

/-- The totals as read off the log and the tracking list. -/
def Wallet.projected (w : Wallet) : Prop :=
  w.totalReceived =
      logSum (fun ty => ty == .topup || ty == .coupon_received) w.transactions ∧
    w.totalSettled = logSum (fun ty => ty == .settlement) w.transactions ∧
    w.totalRedeemed =
      logSum (fun ty => ty == .coupon_redeemed) w.transactions + redeemedEntriesSum w.coupons

/-! ## Wallet endpoints (`src/controllers/walletController.js`) -/

/-- What a handler sends: HTTP status, the `success` flag and the message. -/
structure Response where
  status : Nat
  success : Bool
  message : String
  deriving DecidableEq, Repr

/-- Handler `settleWallet` (lines 183-230). `found` is the result of
`Wallet.findOne`, `userId` is `req.user.id`. Returns the response and the wallet as
stored after the request: a rejected `save` leaves the store as it was. -/
def settleWallet (found : Option Wallet) (amount : ℚ) (transactionId : Option String)
    (userId : String) (now : Nat) : Response × Option Wallet :=
  match found with
  | none => ({ status := 404, success := false, message := "Wallet not found" }, none)
  | some wallet =>
    if wallet.currentBalance < amount then
      ({ status := 400, success := false, message := "Insufficient balance" }, some wallet)
    else
      let transactionData : Transaction :=
        { type := .settlement, amount := amount, coupon := none,
          description := some "Payment settlement", transactionId := transactionId,
          processedBy := some userId, status := some .completed }
      match wallet.addTransaction transactionData with
      | (.error e, _) => ({ status := 500, success := false, message := e }, some wallet)
      | (.ok _, w1) =>
        let w2 := { w1 with
          lastSettlement := some { date := now, amount := amount, transactionId := transactionId } }
        match w2.save with
        | .error e => ({ status := 500, success := false, message := e }, some w1)
        | .ok _ =>
          ({ status := 200, success := true, message := "Payment settled successfully" }, some w2)

/-! ## Coupon value and redemption (`src/controllers/couponController.js`) -/

/-- A JavaScript value as far as `value.amount` can hold one (the field is tested with
`typeof`). -/
inductive JsValue
  | undefined
  | null
  | bool (b : Bool)
  | number (n : ℚ)
  | string (s : String)
  deriving DecidableEq, Repr

/-- JavaScript truthiness. -/
def JsValue.truthy : JsValue → Bool
  | .undefined => false
  | .null => false
  | .bool b => b
  | .number n => decide (n ≠ 0)
  | .string s => decide (s ≠ "")

/-- The number held when `typeof v === 'number'`. -/
def JsValue.asNumber : JsValue → Option ℚ
  | .number n => some n
  | _ => none

/-- The `value` sub-document of a coupon: `amount` is a number or a description,
`percentage` an optional number, `isPercentage` a flag (absent counts as `false`). -/
structure CouponValue where
  amount : JsValue
  currency : Option String
  percentage : Option ℚ
  isPercentage : Bool
  deriving DecidableEq, Repr

/-- The fields of a coupon document that the wallet-related code reads. -/
structure Coupon where
  id : String
  code : String
  value : Option CouponValue
  deriving DecidableEq, Repr

/-- Truthiness of `value.isPercentage || value.percentage` (lines 21 and 763). -/
def CouponValue.isPercentageBased (value : CouponValue) : Bool :=
  value.isPercentage || (match value.percentage with
    | some p => decide (p ≠ 0)
    | none => false)

/-- Helper `getCouponMonetaryValue` (lines 13-32). -/
def getCouponMonetaryValue (coupon : Option Coupon) : ℚ :=
  match coupon with
  | none => 0
  | some c =>
    match c.value with
    | none => 0
    | some value =>
      if value.isPercentageBased then 0
      else
        if value.amount.truthy then
          match value.amount.asNumber with
          | some n => n
          | none => 0
        else 0

/-- The redemption amount of handler `redeemCoupon` (lines 757-770). `purchaseAmount`
is `req.body.purchaseAmount` when it is a number. An absent `value` makes line 763
throw; a percentage flag without a `percentage` number makes the product `NaN`,
rendered as `none`. -/
def computeRedemptionAmount (coupon : Coupon) (purchaseAmount : Option ℚ) :
    Except String (Option ℚ) :=
  let redemptionAmount := getCouponMonetaryValue (some coupon)
  match coupon.value with
  | none => .error "Cannot read properties of undefined"
  | some value =>
    if value.isPercentageBased then
      let purchaseAmount := purchaseAmount.getD 0
      if purchaseAmount > 0 then
        .ok (value.percentage.map (fun p => (purchaseAmount * p) / 100))
      else .ok (some 0)
    else .ok (some redemptionAmount)

/-- The wallet update of handler `redeemCoupon` (lines 792-811) for the wallet found
for the partner. Returns the outcome (an error reaches the `catch` of the handler) and
the wallet as stored afterwards. -/
def redeemCouponWalletUpdate (wallet : Wallet) (coupon : Coupon) (redemptionAmount : ℚ)
    (userId : String) (now : Nat) : Except String Unit × Wallet :=
  match wallet.coupons.find? (fun c => c.coupon == coupon.id) with
  | none => (.ok (), wallet)
  | some couponEntry =>
    if couponEntry.status = .pending then
      match wallet.redeemCoupon coupon.id redemptionAmount now with
      | (.error e, _) => (.error e, wallet)
      | (.ok _, w1) =>
        match w1.addTransaction
            { type := .coupon_redeemed, amount := redemptionAmount, coupon := some coupon.id,
              description := some ("Coupon " ++ coupon.code ++ " redeemed"),
              transactionId := none, processedBy := some userId,
              status := some .completed } with
        | (.error e, _) => (.error e, w1)
        | (.ok _, w2) => (.ok (), w2)
    else (.ok (), wallet)

/-- The intake of a coupon into a wallet, as `addCouponToWallet` does it
(lines 1265-1281): a tracking entry, and a `coupon_received` credit when the value is
positive. Returns the outcome and the wallet as stored afterwards. -/
def addCouponToWalletUpdate (wallet : Wallet) (coupon : Coupon) (userId : String)
    (now : Nat) : Except String Unit × Wallet :=
  let couponValue := getCouponMonetaryValue (some coupon)
  match wallet.addCoupon coupon.id couponValue now with
  | (.error e, _) => (.error e, wallet)
  | (.ok _, w1) =>
    if couponValue > 0 then
      match w1.addTransaction
          { type := .coupon_received, amount := couponValue, coupon := some coupon.id,
            description := some ("Coupon " ++ coupon.code ++ " added to wallet"),
            transactionId := none, processedBy := some userId,
            status := some .completed } with
      | (.error e, _) => (.error e, w1)
      | (.ok _, w2) => (.ok (), w2)
    else (.ok (), w1)

/-- The coupon `buildCouponPayloadFromPackage` makes from catalog package `HEALTH_500`
(`value: { amount: 500, currency: 'INR' }`), with the given id and code. -/
def health500Coupon (id code : String) : Coupon :=
  { id := id, code := code,
    value := some { amount := .number 500, currency := some "INR", percentage := none,
                    isPercentage := false } }

/-- Transaction with only a type and an amount, for examples. -/
def plainTransaction (ty : TransactionType) (a : ℚ) : Transaction :=
  { type := ty, amount := a, coupon := none, description := none, transactionId := none,
    processedBy := none, status := none }

/-- Example wallet: one pending tracking entry for coupon `c1` taken in at value 0
(a percentage coupon), nothing else. -/
def percentageIntakeWallet : Wallet :=
  { vendor := "v1", currentBalance := 0, totalReceived := 0, totalRedeemed := 0,
    totalSettled := 0, transactions := [],
    coupons := [{ coupon := "c1", receivedAt := 1, redeemedAt := none,
                  redeemedAmount := some 0, status := .pending }],
    lastSettlement := none }

/-- Example wallet: one pending tracking entry for coupon `c1` taken in at value 100 and
credited by a `coupon_received` transaction. -/
def fixedIntakeWallet : Wallet :=
  { vendor := "v1", currentBalance := 100, totalReceived := 100, totalRedeemed := 0,
    totalSettled := 0,
    transactions := [{ type := .coupon_received, amount := 100, coupon := some "c1",
                       description := none, transactionId := none, processedBy := none,
                       status := some .completed }],
    coupons := [{ coupon := "c1", receivedAt := 1, redeemedAt := none,
                  redeemedAmount := some 100, status := .pending }],
    lastSettlement := none }

/-- Example coupon: a `HEALTH_500` coupon. -/
def health500 : Coupon := health500Coupon "c500" "HEAL500A"

/-- Example wallet: a new wallet topped up with 500 that then took in `health500`
through `addCouponToWallet` (tracking entry at 500 and a `coupon_received` credit of
500). -/
def healthWallet : Wallet :=
  (addCouponToWalletUpdate
    ((Wallet.create "v1").addTransaction (plainTransaction .topup 500)).2 health500 "admin" 1).2

/-- Example coupon: a 10 percent coupon that also carries a numeric amount. -/
def percentAndAmountCoupon : Coupon :=
  { id := "c10", code := "PCT10",
    value := some { amount := .number 250, currency := some "INR", percentage := some 10,
                    isPercentage := false } }

/-- Example coupon: a free-item coupon whose amount is a description. -/
def freeItemCoupon : Coupon :=
  { id := "c11", code := "FREE1",
    value := some { amount := .string "One free meal", currency := none,
                    percentage := none, isPercentage := false } }

/-! ## Coupon documents

The model file `models/Coupon.js` is not among the sources. The document type and the
three methods the handlers call are modelled from the specification (section 3 and
section 4.2); the handlers are translated from `src/controllers/couponController.js`. -/

/-- Modelled from the spec: the stages of a coupon (section 3, `Stage`); the schema of
`models/Coupon.js` is missing. -/
inductive Stage
  | CREATED
  | ASSIGNED
  | REDEEMED_PENDING_SETTLEMENT
  | SETTLED
  | REJECTED
  | CANCELLED
  deriving DecidableEq, Repr

/-- Modelled from the spec: an entry of `stageHistory`, `{stage, changedAt, changedBy,
notes}`; the schema of `models/Coupon.js` is missing. -/
structure StageChange where
  stage : Stage
  changedAt : Nat
  changedBy : String
  notes : String
  deriving DecidableEq, Repr

/-- An entry of `redemptions`: the `redemptionData` of handler `redeemCoupon`
(lines 773-780) without the free-form `location`. -/
structure Redemption where
  redeemedBy : String
  redeemedAt : Nat
  amount : ℚ
  partner : Option String
  notes : String
  deriving DecidableEq, Repr

/-- The `settlement` sub-document written by handler `settleCoupon` (lines 543-548). -/
structure Settlement where
  payableAmount : ℚ
  approvedBy : String
  referenceNo : String
  paidOn : Nat
  deriving DecidableEq, Repr

/-- The `beneficiary` sub-document written by the handlers. -/
structure Beneficiary where
  name : Option String
  phone : Option String
  email : Option String
  deriving DecidableEq, Repr

/-- Modelled from the spec: a coupon document (section 3, `Coupon`), with the fields the
handlers read and write; the schema of `models/Coupon.js` is missing. `startDate`,
`endDate`, `isActive` are the `validity` sub-document, `maxUses`, `usedCount`,
`isUnlimited` the `usage` sub-document, `maxRedemptionsPerDay` belongs to
`fraudPrevention` and `transactionId` to `paymentReferences`. -/
structure CouponDoc extends Coupon where
  issuer : String
  partner : Option String
  status : String
  startDate : Nat
  endDate : Nat
  isActive : Bool
  maxUses : Nat
  usedCount : Nat
  isUnlimited : Bool
  maxRedemptionsPerDay : Nat
  stage : Stage
  stageHistory : List StageChange
  redemptions : List Redemption
  settlement : Option Settlement
  settledAt : Option Nat
  beneficiary : Option Beneficiary
  beneficiaryName : Option String
  beneficiaryPhone : Option String
  assignedAt : Option Nat
  assignedBy : Option String
  rejectionReason : Option String
  transactionId : String
  packageId : Option String
  deriving DecidableEq, Repr

/-- Modelled from the spec: method `isRedeemable` of the missing `models/Coupon.js`
(section 4.2): true iff `status == 'active'`, `validity.isActive`, `now >= startDate`,
`now <= endDate`, and `isUnlimited` or `usedCount < maxUses`. -/
def CouponDoc.isRedeemable (c : CouponDoc) (now : Nat) : Bool :=
  c.status == "active" && c.isActive && decide (c.startDate ≤ now) &&
    decide (now ≤ c.endDate) && (c.isUnlimited || decide (c.usedCount < c.maxUses))

/-- Modelled from the spec: method `recordStageChange` of the missing `models/Coupon.js`
(section 4.2): appends to `stageHistory` and sets `stage`, without checking the
transition. -/
def CouponDoc.recordStageChange (c : CouponDoc) (newStage : Stage) (actorId notes : String)
    (now : Nat) : CouponDoc :=
  { c with
    stageHistory := c.stageHistory ++
      [{ stage := newStage, changedAt := now, changedBy := actorId, notes := notes }]
    stage := newStage }

/-- Modelled from the spec: method `redeem` of the missing `models/Coupon.js`
(section 4.2): appends to `redemptions`, increments `usedCount` by one and moves the stage
to `REDEEMED_PENDING_SETTLEMENT` (always, by this design), recording the transition in
`stageHistory` as every transition does. -/
def CouponDoc.redeem (c : CouponDoc) (redemptionData : Redemption) : CouponDoc :=
  let c1 := { c with
    redemptions := c.redemptions ++ [redemptionData]
    usedCount := c.usedCount + 1 }
  c1.recordStageChange .REDEEMED_PENDING_SETTLEMENT redemptionData.redeemedBy
    redemptionData.notes redemptionData.redeemedAt

/-! ## Coupon lifecycle handlers (`src/controllers/couponController.js`) -/

/-- The authenticated caller, `req.user`. -/
structure User where
  id : String
  role : String
  email : String
  deriving DecidableEq, Repr

/-- A request field tested for truthiness before use: present and not the empty
string. -/
def nonEmpty (s : Option String) : Option String :=
  match s with
  | some x => if x = "" then none else some x
  | none => none

/-- What the server contributes to the handlers beyond the request and the stored
documents: the time zone of its clock (`Date.prototype.setHours` works in local time) and
the Unicode case mappings of its JavaScript engine. Nothing is assumed of the three
functions. -/
class Host where
  /-- The instant of midnight, in the time zone of the server, of the day of `t`:
  `getTime()` after `setHours(0, 0, 0, 0)`. -/
  localMidnight : Nat → ℤ
  /-- The result of `String.prototype.toUpperCase`. -/
  toUpperCase : String → String
  /-- The result of `String.prototype.toLowerCase`. -/
  toLowerCase : String → String

/-- The characters `String.prototype.trim` strips: `WhiteSpace` (tab, vertical tab, form
feed, zero width no-break space and the space separators of Unicode) and
`LineTerminator` (line feed, carriage return, line and paragraph separator). -/
def isJsWhiteSpace (c : Char) : Bool :=
  c.toNat ∈ [0x09, 0x0A, 0x0B, 0x0C, 0x0D, 0x20, 0xA0, 0x1680, 0x2028, 0x2029, 0x202F,
    0x205F, 0x3000, 0xFEFF] || (0x2000 ≤ c.toNat && c.toNat ≤ 0x200A)

/-- `String.prototype.trim`: the string without its leading and trailing white space. -/
def jsTrim (s : String) : String :=
  String.mk ((s.data.dropWhile isJsWhiteSpace).reverse.dropWhile isJsWhiteSpace).reverse

/-- `String.prototype.toLowerCase`, the mapping of the host. -/
def jsToLowerCase [Host] (s : String) : String := Host.toLowerCase s

/-- The body of an assign request. -/
structure AssignBody where
  beneficiaryName : Option String
  beneficiaryPhone : Option String
  beneficiaryEmail : Option String
  partnerId : Option String
  deriving DecidableEq, Repr

/-- The assignments of handler `assignCoupon` before the stage change
(lines 480-499). -/
def applyAssignment [Host] (coupon : CouponDoc) (user : User) (body : AssignBody) (now : Nat) :
    CouponDoc :=
  let c0 := { coupon with beneficiary := some (coupon.beneficiary.getD ⟨none, none, none⟩) }
  let c1 :=
    match nonEmpty body.beneficiaryName with
    | some n =>
      { c0 with
        beneficiary :=
          c0.beneficiary.map (fun (b : Beneficiary) => { b with name := some (jsTrim n) })
        beneficiaryName := some (jsTrim n) }
    | none => c0
  let c2 :=
    match nonEmpty body.beneficiaryPhone with
    | some p =>
      { c1 with
        beneficiary :=
          c1.beneficiary.map (fun (b : Beneficiary) => { b with phone := some (jsTrim p) })
        beneficiaryPhone := some (jsTrim p) }
    | none => c1
  let c3 :=
    match nonEmpty body.beneficiaryEmail with
    | some e =>
      { c2 with
        beneficiary :=
          c2.beneficiary.map
            (fun (b : Beneficiary) => { b with email := some (jsTrim (jsToLowerCase e)) }) }
    | none => c2
  let c4 :=
    match nonEmpty body.partnerId with
    | some p => { c3 with partner := some p }
    | none => c3
  { c4 with assignedAt := some now, assignedBy := some user.id }

/-- Handler `assignCoupon` (lines 453-516). `found` is the result of `Coupon.findById`;
the result is the response and the coupon as stored after the request. The validators
of the missing schema are not modelled, so `coupon.save()` succeeds. -/
def assignCoupon [Host] (found : Option CouponDoc) (user : User) (body : AssignBody) (now : Nat) :
    Response × Option CouponDoc :=
  match found with
  | none => ({ status := 404, success := false, message := "Coupon not found" }, none)
  | some coupon =>
    if ¬ (coupon.stage = .CREATED ∨ coupon.stage = .ASSIGNED) then
      ({ status := 400, success := false,
         message := "Coupon cannot be assigned in its current stage" }, some coupon)
    else if user.role ≠ "admin" ∧ coupon.issuer ≠ user.id then
      ({ status := 403, success := false,
         message := "You can only assign your own coupons" }, some coupon)
    else
      let c1 := applyAssignment coupon user body now
      let c2 := c1.recordStageChange .ASSIGNED user.id "Assigned to beneficiary" now
      ({ status := 200, success := true, message := "Coupon assigned to beneficiary" },
        some c2)

/-- The body of a settle request; `amount` is present when the request carries a number
(neither `undefined` nor `null`). -/
structure SettleBody where
  amount : Option ℚ
  referenceNo : Option String
  notes : Option String
  deriving DecidableEq, Repr

/-- The assignments of handler `settleCoupon` on a coupon that may be settled
(lines 540-550). -/
def applySettlement (coupon : CouponDoc) (user : User) (body : SettleBody) (now : Nat) :
    CouponDoc :=
  let latestRedemption := coupon.redemptions.getLast?
  let payableAmount :=
    match body.amount with
    | some a => a
    | none =>
      match latestRedemption with
      | some r => r.amount
      | none => 0
  let c1 := { coupon with
    settlement := some
      { payableAmount := payableAmount, approvedBy := user.id,
        referenceNo := (nonEmpty body.referenceNo).getD "", paidOn := now }
    settledAt := some now }
  c1.recordStageChange .SETTLED user.id ((nonEmpty body.notes).getD "Settlement approved") now

/-- Handler `settleCoupon` (lines 521-565). -/
def settleCoupon (found : Option CouponDoc) (user : User) (body : SettleBody) (now : Nat) :
    Response × Option CouponDoc :=
  match found with
  | none => ({ status := 404, success := false, message := "Coupon not found" }, none)
  | some coupon =>
    if coupon.stage ≠ .REDEEMED_PENDING_SETTLEMENT then
      ({ status := 400, success := false,
         message := "Only redeemed coupons can be settled" }, some coupon)
    else
      ({ status := 200, success := true, message := "Coupon settled successfully" },
        some (applySettlement coupon user body now))

/-- The body of a reject request; `markAs` defaults to `'REJECTED'`. -/
structure RejectBody where
  reason : Option String
  markAs : Option String
  deriving DecidableEq, Repr

/-- The assignments of handler `rejectCoupon` on a coupon that may be rejected
(lines 589-592). -/
def applyRejection (coupon : CouponDoc) (user : User) (body : RejectBody) (now : Nat) :
    CouponDoc :=
  let markAs := body.markAs.getD "REJECTED"
  let targetStage : Stage := if markAs = "CANCELLED" then .CANCELLED else .REJECTED
  let c1 := { coupon with
    rejectionReason := some ((nonEmpty body.reason).getD "Rejected by partner/admin") }
  let c2 := c1.recordStageChange targetStage user.id
    ((nonEmpty body.reason).getD "Coupon rejected") now
  { c2 with status := "cancelled" }

/-- Handler `rejectCoupon` (lines 570-608). -/
def rejectCoupon (found : Option CouponDoc) (user : User) (body : RejectBody) (now : Nat) :
    Response × Option CouponDoc :=
  match found with
  | none => ({ status := 404, success := false, message := "Coupon not found" }, none)
  | some coupon =>
    if coupon.stage = .SETTLED then
      ({ status := 400, success := false,
         message := "Settled coupons cannot be rejected" }, some coupon)
    else
      ({ status := 200, success := true, message := "Coupon rejected" },
        some (applyRejection coupon user body now))

/-! ## Coupon packages and purchase
(`src/config/couponPackages.js`, `src/controllers/couponController.js`) -/

/-- An entry of the catalog `couponPackages`. -/
structure CouponPackage where
  id : String
  title : String
  description : String
  category : String
  type : String
  amount : ℚ
  currency : String
  validityDays : Nat
  maxUses : Nat
  isUnlimited : Bool
  maxRedemptionsPerDay : Nat
  partnerCategories : List String
  codePrefix : String
  recommendedPartners : List String
  deriving DecidableEq, Repr

/-- The catalog entry `FOOD_100` (`couponPackages.js`, lines 2-17). -/
def food100Package : CouponPackage :=
  { id := "FOOD_100", title := "Food Coupon – ₹100",
    description :=
      "Redeem a ₹100 food voucher at any partner restaurant or food server. Valid for one meal.",
    category := "food", type := "discount", amount := 100, currency := "INR",
    validityDays := 30, maxUses := 1, isUnlimited := false, maxRedemptionsPerDay := 1,
    partnerCategories := ["food", "food_server", "restaurant"], codePrefix := "FOOD",
    recommendedPartners := ["food"] }

/-- The catalog entry `HEALTH_500` (`couponPackages.js`, lines 18-33). -/
def health500Package : CouponPackage :=
  { id := "HEALTH_500", title := "Health Checkup – ₹500",
    description :=
      "Cover diagnostics and consultation up to ₹500 at verified health partners.",
    category := "medical", type := "discount", amount := 500, currency := "INR",
    validityDays := 60, maxUses := 1, isUnlimited := false, maxRedemptionsPerDay := 1,
    partnerCategories := ["medical", "pathology_lab", "hospital"], codePrefix := "HEAL",
    recommendedPartners := ["medical"] }

/-- The catalog `couponPackages` (`couponPackages.js`, lines 1-34). -/
def couponPackages : List CouponPackage := [food100Package, health500Package]

/-- Function `getCouponPackageById` (`couponPackages.js`, lines 36-39). -/
def getCouponPackageById (id : Option String) : Option CouponPackage :=
  match nonEmpty id with
  | none => none
  | some i => couponPackages.find? (fun pkg => pkg.id == i)

/-- Constant `MS_PER_DAY` (line 34). -/
def MS_PER_DAY : Nat := 24 * 60 * 60 * 1000

/-- JavaScript `x || d` on a number. -/
def orDefault (x d : Nat) : Nat := if x = 0 then d else x

/-- JavaScript `x || d` on a string. -/
def orDefaultString (x d : String) : String := if x = "" then d else x

/-- The two operations of the missing model `Coupon` that a purchase uses, taken as
parameters: `generateUniqueCode` (given the code prefix and the coupons stored so far)
and the id the store gives a new document. -/
structure CouponModel where
  generateUniqueCode : String → List CouponDoc → String
  newId : List CouponDoc → String

/-- Function `buildCouponPayloadFromPackage` (lines 36-142). `store` holds the coupons
persisted so far, `transactionId` is `paymentReferences?.transactionId`; the QR code and
the descriptive fields copied from the package are left out, and the fields the payload
does not set have their empty values. -/
def buildCouponPayloadFromPackage [Host] (m : CouponModel) (store : List CouponDoc)
    (pkg : CouponPackage) (donorId : String) (partnerId : Option String)
    (beneficiary : Beneficiary) (assignBeneficiary : Bool) (transactionId : Option String)
    (sequenceIndex : Nat) (now : Nat) : CouponDoc :=
  let validityDays := max 1 (orDefault pkg.validityDays 30)
  let expiresAt := now + validityDays * MS_PER_DAY
  let codePrefix := orDefaultString pkg.codePrefix ((orDefaultString pkg.id "CPKG").take 4)
  let code := m.generateUniqueCode codePrefix store
  let baseTxnId :=
    (nonEmpty transactionId).getD ("COUPON-" ++ orDefaultString pkg.id "CUSTOM")
  let transactionId := baseTxnId ++ "-" ++ code ++ "-" ++ toString (sequenceIndex + 1)
  let name := (nonEmpty beneficiary.name).map jsTrim
  let phone := (nonEmpty beneficiary.phone).map jsTrim
  let email := (nonEmpty beneficiary.email).map (fun e => jsTrim (jsToLowerCase e))
  let hasKeys := name.isSome || phone.isSome || email.isSome
  { id := "", code := code,
    value := some { amount := .number pkg.amount,
                    currency := some (orDefaultString pkg.currency "INR"),
                    percentage := none, isPercentage := false },
    issuer := donorId, partner := nonEmpty partnerId, status := "active",
    startDate := now, endDate := expiresAt, isActive := true,
    maxUses := orDefault pkg.maxUses 1, usedCount := 0, isUnlimited := pkg.isUnlimited,
    maxRedemptionsPerDay := orDefault pkg.maxRedemptionsPerDay 1,
    stage := .CREATED, stageHistory := [], redemptions := [], settlement := none,
    settledAt := none,
    beneficiary := if hasKeys then some { name := name, phone := phone, email := email }
                   else none,
    beneficiaryName := name, beneficiaryPhone := phone,
    assignedAt := if assignBeneficiary && hasKeys then some now else none,
    assignedBy := if assignBeneficiary && hasKeys then some donorId else none,
    rejectionReason := none, transactionId := transactionId, packageId := some pkg.id }

/-- A decimal digit, `0` to `9`. -/
def isDecimalDigit (c : Char) : Bool := 48 ≤ c.toNat && c.toNat ≤ 57

/-- The number a run of decimal digits writes. -/
def digitsValue (cs : List Char) : Nat :=
  cs.foldl (fun acc c => 10 * acc + (c.toNat - 48)) 0

/-- The digits `parseInt` reads in radix 10: the longest run of decimal digits at the
start of the text; `none` (`NaN`) when the text does not start with a digit. -/
def parseUnsigned (cs : List Char) : Option ℤ :=
  match cs.takeWhile isDecimalDigit with
  | [] => none
  | d :: ds => some (digitsValue (d :: ds) : ℤ)

/-- `parseInt(text, 10)`: leading white space is skipped, a sign is read, then the
longest run of decimal digits; whatever follows is ignored and `none` is `NaN`. The
result is the integer read; the Number `parseInt` returns is that integer rounded to a
double (`-0` for `-0`, an infinity beyond the doubles), which is zero or not and compares
with 1 and 50 as the integer does. -/
def parseInt10 (s : String) : Option ℤ :=
  match s.data.dropWhile isJsWhiteSpace with
  | '-' :: rest => (parseUnsigned rest).map (fun n => -n)
  | '+' :: rest => parseUnsigned rest
  | rest => parseUnsigned rest

/-- The character of a decimal digit. -/
def digitChar (d : Nat) : Char := Char.ofNat (48 + d)

/-- The decimal digits of a natural number, most significant first. -/
def decimalDigits (n : Nat) : List Char :=
  if n = 0 then ['0'] else (Nat.digits 10 n).reverse.map digitChar

/-- The text of an integer in decimal digits, with a minus sign when negative: what
`String` gives for a Number holding the integer `n` when its magnitude is below 1e21,
and the text of the string of these digits. -/
def decimalText (n : ℤ) : String :=
  String.mk (if n < 0 then '-' :: decimalDigits n.natAbs else decimalDigits n.natAbs)

/-- The `quantity` field of a purchase request: absent, or present with the text
`parseInt` reads from it, which is `String(quantity)`. A Number of magnitude 1e21 or
more, or below 1e-6 and not zero, has a text in exponent notation (`1e+21`, `5e-7`);
every other Number has a text in decimal digits, with a fraction when it is not an
integer. -/
inductive QuantityInput
  | missing
  | text (s : String)
  deriving DecidableEq, Repr

/-- The body of a purchase request; `transactionId` is
`paymentReferences.transactionId`. -/
structure PurchaseBody where
  packageId : Option String
  quantity : QuantityInput
  partnerId : Option String
  beneficiaryName : Option String
  beneficiaryPhone : Option String
  beneficiaryEmail : Option String
  assignBeneficiary : Bool
  transactionId : Option String
  deriving DecidableEq, Repr

/-- `parseInt(quantity, 10)` after the default `quantity = 1` of the destructuring
(line 383); `none` is `NaN`. -/
def parseIntQuantity : QuantityInput → Option ℤ
  | .missing => some 1
  | .text s => parseInt10 s

/-- The `parsedQuantity` of line 400:
`Math.min(Math.max(parseInt(quantity, 10) || 1, 1), 50)`. -/
def parsedQuantity (q : QuantityInput) : Nat :=
  let parsed : ℤ :=
    match parseIntQuantity q with
    | some n => if n = 0 then 1 else n
    | none => 1
  (min (max parsed 1) 50).toNat

/-- What a purchase leaves behind: the response, the coupons stored and the list
`createdCoupons`. -/
structure PurchaseResult where
  response : Response
  store : List CouponDoc
  created : List CouponDoc

/-- One round of the loop of lines 419-431: build the payload, persist it, remember it.
The state is the store and `createdCoupons`. -/
def purchaseStep [Host] (m : CouponModel) (pkg : CouponPackage) (donorId : String)
    (partnerId : Option String) (beneficiary : Beneficiary) (assignBeneficiary : Bool)
    (transactionId : Option String) (now : Nat)
    (state : List CouponDoc × List CouponDoc) (i : Nat) : List CouponDoc × List CouponDoc :=
  let payload := buildCouponPayloadFromPackage m state.1 pkg donorId partnerId beneficiary
    assignBeneficiary transactionId i now
  let coupon := { payload with id := m.newId state.1 }
  (state.1 ++ [coupon], state.2 ++ [coupon])

/-- Handler `purchaseCoupons` (lines 379-448), every `Coupon.create` succeeding. `user`
is `req.user`. -/
def purchaseCoupons [Host] (m : CouponModel) (store : List CouponDoc) (user : Option User)
    (body : PurchaseBody) (now : Nat) : PurchaseResult :=
  match getCouponPackageById body.packageId with
  | none =>
    { response := { status := 400, success := false,
                    message := "Invalid coupon package selected" },
      store := store, created := [] }
  | some couponPackage =>
    let parsedQuantity := parsedQuantity body.quantity
    match (user.map (fun u => u.id)).bind (fun i => nonEmpty (some i)) with
    | none =>
      { response := { status := 401, success := false,
                      message := "Authentication required to purchase coupons" },
        store := store, created := [] }
    | some donorId =>
      let beneficiary : Beneficiary :=
        { name := body.beneficiaryName.map jsTrim,
          phone := body.beneficiaryPhone.map jsTrim,
          email := (nonEmpty body.beneficiaryEmail).map (fun e => jsTrim (jsToLowerCase e)) }
      let shouldAssignBeneficiary :=
        body.assignBeneficiary &&
          ((nonEmpty beneficiary.name).isSome || (nonEmpty beneficiary.phone).isSome ||
            (nonEmpty beneficiary.email).isSome)
      let final := (List.range parsedQuantity).foldl
        (purchaseStep m couponPackage donorId body.partnerId beneficiary
          shouldAssignBeneficiary body.transactionId now) (store, [])
      { response := { status := 201, success := true,
                      message := toString final.2.length ++ " coupon(s) created successfully" },
        store := final.1, created := final.2 }

/-! ## Redemption handler (`src/controllers/couponController.js`, lines 708-837) -/

/-- The fields of a partner document that handler `redeemCoupon` reads and writes
(`_id`, `email`, `user`, `analytics.totalRedemptions`, `analytics.totalRevenue`); the
model file `models/Partner.js` is not among the sources. -/
structure Partner where
  id : String
  email : String
  user : Option String
  totalRedemptions : Nat
  totalRevenue : ℚ
  deriving DecidableEq, Repr

/-- The body of a redeem request; `purchaseAmount` is present when it is a number. -/
structure RedeemBody where
  partnerId : Option String
  notes : Option String
  purchaseAmount : Option ℚ
  deriving DecidableEq, Repr

/-- What a redeem request leaves behind: the response, the coupon as stored, and the
partner and wallet collections. -/
structure RedeemResult where
  response : Response
  coupon : Option CouponDoc
  partners : List Partner
  wallets : List Wallet
  deriving DecidableEq, Repr

/-- Midnight of the day of `t`, what `setHours(0, 0, 0, 0)` leaves (lines 743 and 746):
midnight in the time zone of the host. -/
def startOfDay [Host] (t : Nat) : ℤ := Host.localMidnight t

/-- The count `todayRedemptions` of lines 742-748. -/
def todayRedemptions [Host] (coupon : CouponDoc) (now : Nat) : Nat :=
  (coupon.redemptions.filter
    (fun r => startOfDay r.redeemedAt == startOfDay now)).length

/-- The partner check of lines 731-739: `true` when the request is refused with 403. -/
def partnerCheckFails (coupon : CouponDoc) (partners : List Partner) (user : User) : Bool :=
  if user.role = "partner" then
    match partners.find? (fun p => p.email == user.email) with
    | none => true
    | some partner =>
      match coupon.partner.bind (fun pid => partners.find? (fun p => p.id == pid)) with
      | some couponPartner => couponPartner.id != partner.id
      | none => false
  else false

/-- The partner a redemption is booked on, `partnerId || coupon.partner` (lines 777 and
786), as an id; `coupon.partner` is the populated partner document. -/
def finalPartnerId (coupon : CouponDoc) (partners : List Partner) (body : RedeemBody) :
    Option String :=
  match nonEmpty body.partnerId with
  | some p => some p
  | none =>
    (coupon.partner.bind (fun pid => partners.find? (fun p => p.id == pid))).map
      (fun p => p.id)

/-- The `redemptionData` of lines 773-780. -/
def redemptionData (coupon : CouponDoc) (partners : List Partner) (user : User)
    (body : RedeemBody) (now : Nat) (redemptionAmount : ℚ) : Redemption :=
  { redeemedBy := user.id, redeemedAt := now, amount := redemptionAmount,
    partner := finalPartnerId coupon partners body, notes := (nonEmpty body.notes).getD "" }

/-- The error response of the `catch` of handler `redeemCoupon` (lines 830-836). -/
def redeemFailure (message : String) : Response :=
  { status := 400, success := false, message := message }

/-- Handler `redeemCoupon` (lines 708-837). `found` is the result of `Coupon.findById`,
`partners` and `wallets` are the collections searched by `Partner.findOne`,
`Partner.findById`, the `populate` of `coupon.partner` and `Wallet.findOne`. A
redemption amount that is not a number is refused when the redemption is saved;
`coupon.save()` and `partner.save()` succeed otherwise. -/
def redeemCoupon [Host] (found : Option CouponDoc) (partners : List Partner)
    (wallets : List Wallet) (user : User) (body : RedeemBody) (now : Nat) : RedeemResult :=
  match found with
  | none =>
    { response := { status := 404, success := false, message := "Coupon not found" },
      coupon := none, partners := partners, wallets := wallets }
  | some coupon =>
    if ¬ coupon.isRedeemable now then
      { response := { status := 400, success := false,
                      message := "Coupon is not valid or has expired" },
        coupon := some coupon, partners := partners, wallets := wallets }
    else if partnerCheckFails coupon partners user then
      { response := { status := 403, success := false,
                      message := "You are not authorized to redeem this coupon" },
        coupon := some coupon, partners := partners, wallets := wallets }
    else if todayRedemptions coupon now ≥ coupon.maxRedemptionsPerDay then
      { response := { status := 400, success := false,
                      message := "Daily redemption limit reached for this coupon" },
        coupon := some coupon, partners := partners, wallets := wallets }
    else
      match computeRedemptionAmount coupon.toCoupon body.purchaseAmount with
      | .error e =>
        { response := redeemFailure e, coupon := some coupon, partners := partners,
          wallets := wallets }
      | .ok none =>
        { response := redeemFailure "Cast to Number failed", coupon := some coupon,
          partners := partners, wallets := wallets }
      | .ok (some redemptionAmount) =>
        let finalPartnerId := finalPartnerId coupon partners body
        let redeemed :=
          coupon.redeem (redemptionData coupon partners user body now redemptionAmount)
        let success : Response :=
          { status := 200, success := true, message := "Coupon redeemed successfully" }
        match finalPartnerId.bind (fun pid => partners.find? (fun p => p.id == pid)) with
        | none =>
          { response := success, coupon := some redeemed, partners := partners,
            wallets := wallets }
        | some partner =>
          match nonEmpty partner.user with
          | none =>
            { response := success, coupon := some redeemed, partners := partners,
              wallets := wallets }
          | some vendor =>
            let analytics : Partner := { partner with
              totalRedemptions := partner.totalRedemptions + 1
              totalRevenue := partner.totalRevenue + redemptionAmount }
            let partnersAfter :=
              updateFirst (fun p => p.id == partner.id) (fun _ => analytics) partners
            match wallets.find? (fun w => w.vendor == vendor) with
            | none =>
              { response := success, coupon := some redeemed, partners := partnersAfter,
                wallets := wallets }
            | some wallet =>
              match redeemCouponWalletUpdate wallet coupon.toCoupon redemptionAmount
                  user.id now with
              | (.error e, stored) =>
                { response := redeemFailure e, coupon := some redeemed, partners := partners,
                  wallets := updateFirst (fun w => w.vendor == vendor) (fun _ => stored)
                    wallets }
              | (.ok _, stored) =>
                { response := success, coupon := some redeemed, partners := partnersAfter,
                  wallets := updateFirst (fun w => w.vendor == vendor) (fun _ => stored)
                    wallets }

/-- Example host: a server whose clock is in UTC, with the case mappings of ASCII
letters; the examples hold ASCII text only, on which these are the Unicode mappings. -/
instance exampleHost : Host :=
  { localMidnight := fun t => (t : ℤ) - (t : ℤ) % (MS_PER_DAY : ℤ),
    toUpperCase := fun s => String.mk (s.data.map Char.toUpper),
    toLowerCase := fun s => String.mk (s.data.map Char.toLower) }

/-- Example host: a server in the time zone Asia/Kolkata, five and a half hours ahead of
UTC all year, with the case mappings of `exampleHost`. -/
def kolkataHost : Host :=
  { localMidnight := fun t =>
      (t : ℤ) + 19800000 - ((t : ℤ) + 19800000) % (MS_PER_DAY : ℤ) - 19800000,
    toUpperCase := exampleHost.toUpperCase,
    toLowerCase := exampleHost.toLowerCase }

/-- Example model of the store: `generateUniqueCode` returns a code longer than every
stored code, ids are numbered by the size of the store. -/
def exampleModel : CouponModel :=
  { generateUniqueCode := fun pre st =>
      pre ++ String.mk
        (List.replicate ((st.map (fun c => c.code.length)).foldr max 0 + 1) 'X'),
    newId := fun st => "id" ++ toString st.length }

/-- Example caller: a donor. -/
def donorUser : User := { id := "u1", role := "donor", email := "donor@example.org" }

/-- Example purchase request: five `FOOD_100` coupons. -/
def foodPurchase : PurchaseBody :=
  { packageId := some "FOOD_100", quantity := .text "5", partnerId := none,
    beneficiaryName := none, beneficiaryPhone := none, beneficiaryEmail := none,
    assignBeneficiary := false, transactionId := none }

/-- Example purchase request: `FOOD_100` coupons with `quantity: 1e21`, whose text is
`1e+21`. -/
def hugeQuantityPurchase : PurchaseBody := { foodPurchase with quantity := .text "1e+21" }

/-- Example coupon: the first coupon a purchase of `HEALTH_500` by donor `u1` creates
at time 1000 for partner `p1`, stored under id `c500`. -/
def createdHealthCoupon : CouponDoc :=
  { buildCouponPayloadFromPackage exampleModel [] health500Package "u1" (some "p1")
      ⟨none, none, none⟩ false none 0 1000 with id := "c500" }

/-- Example caller: an admin. -/
def adminUser : User := { id := "a1", role := "admin", email := "admin@example.org" }

/-- The usage bound of a coupon: `usedCount <= maxUses` unless `isUnlimited`. -/
def CouponDoc.usageWithinLimit (c : CouponDoc) : Prop :=
  c.isUnlimited = true ∨ c.usedCount ≤ c.maxUses

/-- The stage graph as the specification draws it:
`CREATED -> ASSIGNED -> REDEEMED_PENDING_SETTLEMENT -> SETTLED`, and from every stage but
`SETTLED` to `REJECTED` and to `CANCELLED`. -/
def specStageEdge : Stage → Stage → Bool
  | .CREATED, .ASSIGNED => true
  | .ASSIGNED, .REDEEMED_PENDING_SETTLEMENT => true
  | .REDEEMED_PENDING_SETTLEMENT, .SETTLED => true
  | s, .REJECTED => s != .SETTLED
  | s, .CANCELLED => s != .SETTLED
  | _, _ => false

/-- Example request: a redemption with an empty body. -/
def plainRedeem : RedeemBody := { partnerId := none, notes := none, purchaseAmount := none }

/-- Example coupon: like `createdHealthCoupon`, but good for two uses. -/
def twoUseCoupon : CouponDoc := { createdHealthCoupon with maxUses := 2 }

/-- Example coupon: `twoUseCoupon` after one redemption by `donorUser` at time 2000 and
its settlement by `adminUser` at time 3000. -/
def settledTwoUseCoupon : CouponDoc :=
  applySettlement
    (twoUseCoupon.redeem (redemptionData twoUseCoupon [] donorUser plainRedeem 2000 500))
    adminUser ⟨none, none, none⟩ 3000

/-! ## Top-up endpoint (`src/controllers/walletController.js`, lines 147-178) -/

/-- Handler `topupWallet` (lines 147-178). `found` is the result of `Wallet.findOne`,
`userId` is `req.user.id`. Returns the response and the wallet as stored after the
request. -/
def topupWallet (found : Option Wallet) (amount : ℚ) (description : Option String)
    (userId : String) : Response × Option Wallet :=
  match found with
  | none => ({ status := 404, success := false, message := "Wallet not found" }, none)
  | some wallet =>
    let transactionData : Transaction :=
      { type := .topup, amount := amount, coupon := none,
        description := some ((nonEmpty description).getD "Admin top-up"),
        transactionId := none, processedBy := some userId, status := some .completed }
    match wallet.addTransaction transactionData with
    | (.error e, _) => ({ status := 500, success := false, message := e }, some wallet)
    | (.ok _, w1) =>
      ({ status := 200, success := true, message := "Wallet topped up successfully" },
        some w1)

/-! ## Coupon lookup, validation and update
(`src/controllers/couponController.js`, lines 613-658, 842-921 and 1040-1076) -/

/-- `String.prototype.toUpperCase`, the mapping of the host. -/
def jsToUpperCase [Host] (s : String) : String := Host.toUpperCase s

/-- What `getCouponByCode` sends: HTTP status, the `status` flag, the message and, on
success, `data.isRedeemable`. -/
structure LookupResponse where
  status : Nat
  success : Bool
  message : String
  isRedeemable : Option Bool
  deriving DecidableEq, Repr

/-- The reason `getCouponByCode` gives for a coupon that is not redeemable
(lines 881-891). -/
def notRedeemableReason (coupon : CouponDoc) (now : Nat) : String :=
  if now < coupon.startDate then "Coupon is not yet active"
  else if now > coupon.endDate then "Coupon has expired"
  else if coupon.status ≠ "active" then "Coupon is " ++ coupon.status
  else if ¬ coupon.isUnlimited ∧ coupon.usedCount ≥ coupon.maxUses then
    "Coupon usage limit reached"
  else "Coupon is not valid"

/-- Handler `getCouponByCode` (lines 842-921). `store` holds the coupons, `isPublic`
gives the `isPublic` flag of a coupon (a field of the missing schema), `code` is the
route parameter and `user` is `req.user`. -/
def getCouponByCode [Host] (store : List CouponDoc) (isPublic : CouponDoc → Bool) (code : String)
    (user : Option User) (now : Nat) : LookupResponse :=
  if code = "" ∨ jsTrim code = "" then
    { status := 400, success := false, message := "Coupon code is required",
      isRedeemable := none }
  else
    match store.find? (fun c => c.code == jsTrim (jsToUpperCase code)) with
    | none =>
      { status := 404, success := false,
        message := "Invalid coupon code. Please check the code and try again.",
        isRedeemable := none }
    | some coupon =>
      let hidden : Bool :=
        match user with
        | none => true
        | some u => decide (u.id ≠ coupon.issuer ∧ u.role ≠ "admin")
      if ¬ isPublic coupon ∧ hidden then
        { status := 403, success := false,
          message := "This coupon is not publicly available", isRedeemable := none }
      else if ¬ coupon.isRedeemable now then
        { status := 400, success := false, message := notRedeemableReason coupon now,
          isRedeemable := none }
      else
        { status := 200, success := true, message := "Coupon is valid",
          isRedeemable := some true }

/-- The `data` object of a successful validation (lines 1060-1066); `remainingUses` is
`none` for `'Unlimited'`. -/
structure ValidateData where
  code : String
  value : Option CouponValue
  validUntil : Nat
  remainingUses : Option ℤ
  deriving DecidableEq, Repr

/-- What `validateCoupon` sends: HTTP status, the `valid` field when present, `data`
(`none` for `null` or absent) and the message. -/
structure ValidateResponse where
  status : Nat
  valid : Option Bool
  data : Option ValidateData
  message : String
  deriving DecidableEq, Repr

/-- Handler `validateCoupon` (lines 1040-1076). `code` is `req.body.code`; without one
`code.toUpperCase()` throws and the `catch` answers 500. -/
def validateCoupon [Host] (store : List CouponDoc) (code : Option String) (now : Nat) :
    ValidateResponse :=
  match code with
  | none =>
    { status := 500, valid := none, data := none, message := "Failed to validate coupon" }
  | some code =>
    match store.find? (fun c => c.code == jsToUpperCase code) with
    | none => { status := 404, valid := some false, data := none,
                message := "Invalid coupon code" }
    | some coupon =>
      let isRedeemable := coupon.isRedeemable now
      { status := 200, valid := some isRedeemable,
        data :=
          if isRedeemable then
            some { code := coupon.code, value := coupon.value, validUntil := coupon.endDate,
                   remainingUses :=
                     if coupon.isUnlimited then none
                     else some ((coupon.maxUses : ℤ) - (coupon.usedCount : ℤ)) }
          else none,
        message := if isRedeemable then "Coupon is valid" else "Coupon is invalid or expired" }

/-- A value of a request body: a scalar, or an object or array (always truthy). -/
inductive RequestValue
  | scalar (v : JsValue)
  | object
  deriving DecidableEq, Repr

/-- JavaScript truthiness of a request value. -/
def RequestValue.truthy : RequestValue → Bool
  | .scalar v => v.truthy
  | .object => true

/-- `req.body[field]`: the value under a key of the body, a list of keys with their
values. -/
def bodyGet (body : List (String × RequestValue)) (field : String) : Option RequestValue :=
  (body.find? (fun kv => kv.1 == field)).map (fun kv => kv.2)

/-- The fields `updateCoupon` guards on a used coupon (line 634). -/
def restrictedFields : List String := ["value", "type", "category"]

/-- The `forEach` of lines 635-637: `if (req.body[field]) delete req.body[field]`. -/
def stripRestricted (body : List (String × RequestValue)) : List (String × RequestValue) :=
  restrictedFields.foldl
    (fun b field =>
      match bodyGet b field with
      | some v => if v.truthy then b.filter (fun kv => kv.1 != field) else b
      | none => b)
    body

/-- Handler `updateCoupon` up to the store call (lines 613-644): the response when the
request is refused, else the body handed to `Coupon.findByIdAndUpdate`. -/
def updateCoupon (found : Option CouponDoc) (user : User)
    (body : List (String × RequestValue)) : Except Response (List (String × RequestValue)) :=
  match found with
  | none => .error { status := 404, success := false, message := "Coupon not found" }
  | some coupon =>
    if coupon.issuer ≠ user.id ∧ user.role ≠ "admin" then
      .error { status := 403, success := false,
               message := "You do not have permission to update this coupon" }
    else if coupon.usedCount > 0 then .ok (stripRestricted body)
    else .ok body

/-- Example partner: partner `p1`, linked to the user `v1` who owns the example wallets. -/
def partnerP1 : Partner :=
  { id := "p1", email := "vendor@example.org", user := some "v1", totalRedemptions := 0,
    totalRevenue := 0 }

/-- Example wallet: the wallet of `v1` after taking in the coupon `c500` at 500 and
nothing else (tracking entry at 500, a `coupon_received` credit of 500). -/
def healthIntakeWallet : Wallet :=
  { vendor := "v1", currentBalance := 500, totalReceived := 500, totalRedeemed := 0,
    totalSettled := 0,
    transactions := [{ type := .coupon_received, amount := 500, coupon := some "c500",
                       description := none, transactionId := none, processedBy := none,
                       status := some .completed }],
    coupons := [{ coupon := "c500", receivedAt := 1, redeemedAt := none,
                  redeemedAmount := some 500, status := .pending }],
    lastSettlement := none }

/-- Example wallet: the wallet of `v1` holding two tracking entries for the coupon `c500`,
an earlier one already redeemed and a later one pending, with a balance of 2000. -/
def reentryWallet : Wallet :=
  { vendor := "v1", currentBalance := 2000, totalReceived := 2500, totalRedeemed := 500,
    totalSettled := 0, transactions := [],
    coupons := [{ coupon := "c500", receivedAt := 1, redeemedAt := some 5,
                  redeemedAmount := some 500, status := .redeemed },
                { coupon := "c500", receivedAt := 7, redeemedAt := none,
                  redeemedAmount := some 500, status := .pending }],
    lastSettlement := none }

/-- Example coupon: `createdHealthCoupon` after one use. -/
def usedHealthCoupon : CouponDoc := { createdHealthCoupon with usedCount := 1 }

/-- Example caller: the partner user `v1`, whose e-mail is the one of `partnerP1`. -/
def partnerUser : User := { id := "v1", role := "partner", email := "vendor@example.org" }

/-- Example coupon: the used-up `usedHealthCoupon` stored under the one-letter code `A`. -/
def shortCodeCoupon : CouponDoc := { usedHealthCoupon with code := "A" }

/-- Example update request: falsy values for the three guarded fields and a new title. -/
def falsyUpdate : List (String × RequestValue) :=
  [("value", .scalar .null), ("type", .scalar (.string "")),
   ("category", .scalar (.number 0)), ("title", .scalar (.string "Renamed"))]

/-- Example update request: a new value object, a new type and a new title. -/
def truthyUpdate : List (String × RequestValue) :=
  [("value", .object), ("type", .scalar (.string "discount")),
   ("title", .scalar (.string "Renamed"))]

/-! ## Wallet arithmetic in doubles

The wallet methods above compute with exact amounts. JavaScript Numbers are IEEE 754
doubles: every `+=` and `-=` rounds its exact result to the nearest double. The
definitions below carry out the same methods with that rounding, on wallets whose number
fields hold doubles. -/

/-- Rounding to the nearest integer, a tie going to the even one. -/
def roundHalfEven (q : ℚ) : ℤ :=
  if q - ⌊q⌋ < 1 / 2 then ⌊q⌋
  else if 1 / 2 < q - ⌊q⌋ then ⌊q⌋ + 1
  else if ⌊q⌋ % 2 = 0 then ⌊q⌋ else ⌊q⌋ + 1

/-- The binary exponent of the last place of the doubles at the magnitude of `q`: 52
places below the leading bit of `q`, and `-1074` throughout the subnormal range. -/
def ulpExponent (q : ℚ) : ℤ := max (Int.log 2 |q| - 52) (-1074)

/-- The double an arithmetic operation with exact result `q` returns: `q` rounded to the
nearest multiple of its last place, ties to even; `none` when the rounded value is
beyond the finite doubles (the operation returns an infinity). -/
def roundDouble (q : ℚ) : Option ℚ :=
  let r : ℚ := roundHalfEven (q / 2 ^ ulpExponent q) * 2 ^ ulpExponent q
  if |r| < 2 ^ (1024 : ℕ) then some r else none

/-- Method `addTransaction` (lines 121-137) in doubles; `none` when a number field
leaves the finite doubles. -/
def Wallet.addTransaction64 (w : Wallet) (transactionData : Transaction) :
    Option (Except String Unit × Wallet) :=
  let w1 := { w with transactions := w.transactions ++ [transactionData] }
  let w2 : Option Wallet :=
    if transactionData.type = .topup ∨ transactionData.type = .coupon_received then
      (roundDouble (w1.currentBalance + transactionData.amount)).bind fun b =>
        (roundDouble (w1.totalReceived + transactionData.amount)).map fun r =>
          { w1 with currentBalance := b, totalReceived := r }
    else if transactionData.type = .coupon_redeemed ∨ transactionData.type = .settlement then
      (roundDouble (w1.currentBalance - transactionData.amount)).bind fun b =>
        if transactionData.type = .coupon_redeemed then
          (roundDouble (w1.totalRedeemed + transactionData.amount)).map fun r =>
            { w1 with currentBalance := b, totalRedeemed := r }
        else
          (roundDouble (w1.totalSettled + transactionData.amount)).map fun r =>
            { w1 with currentBalance := b, totalSettled := r }
    else some w1
  w2.map fun w3 => (w3.save, w3)

/-- Method `redeemCoupon` (lines 151-177) in doubles; `none` when a number field leaves
the finite doubles. -/
def Wallet.redeemCoupon64 (w : Wallet) (couponId : String) (amount : ℚ) (now : Nat) :
    Option (Except String Unit × Wallet) :=
  match w.coupons.find? (isPendingFor couponId) with
  | none => some (.error "Coupon not found or already redeemed", w)
  | some couponEntry =>
    let previousAmount := couponEntry.redeemedAmount.getD 0
    (roundDouble (w.totalRedeemed + amount)).bind fun r =>
      let w1 := { w with
        coupons := updateFirst (isPendingFor couponId) (markRedeemed amount now) w.coupons
        totalRedeemed := r }
      if previousAmount > 0 then
        (roundDouble (w1.currentBalance - amount)).map fun b =>
          ({ w1 with currentBalance := b }.save, { w1 with currentBalance := b })
      else some (w1.save, w1)

/-- The double nearest to 1000.10. -/
def double1000_10 : ℚ := 8796972631510221 / 2 ^ 43

/-- The double nearest to 499.99. -/
def double499_99 : ℚ := 2198979275086889 / 2 ^ 42

/-- Example wallet: a new wallet of `v1` after a top-up of 1000.10. -/
def toppedUpWallet : Wallet :=
  { Wallet.create "v1" with
    currentBalance := double1000_10, totalReceived := double1000_10,
    transactions := [{ type := .topup, amount := double1000_10, coupon := none,
                       description := some "Admin top-up", transactionId := none,
                       processedBy := some "a1", status := some .completed }] }

/-! ## Theorems -/

/-! ### Auxiliary facts -/

theorem isPendingFor_iff (couponId : String) (x : CouponEntry) :
    isPendingFor couponId x = true ↔ x.coupon = couponId ∧ x.status = .pending := by
  simp [isPendingFor]

theorem balanced_addTransaction (w : Wallet) (t : Transaction) (h : w.balanced) :
    (w.addTransaction t).2.balanced := by
  unfold Wallet.balanced at *
  unfold Wallet.addTransaction
  cases ht : t.type <;> simp <;> linarith

theorem balanced_addTransactions (ts : List Transaction) :
    ∀ w : Wallet, w.balanced → (addTransactions w ts).balanced := by
  induction ts with
  | nil => intro w h; exact h
  | cons t ts ih =>
    intro w h
    exact ih _ (balanced_addTransaction w t h)

/-- The entry `find` returns splits the list, and `updateFirst` rewrites exactly it. -/
theorem updateFirst_of_find {α : Type} (p : α → Bool) (f : α → α) :
    ∀ (l : List α) (e : α), l.find? p = some e →
      ∃ pre post, l = pre ++ e :: post ∧ (∀ x ∈ pre, p x = false) ∧ p e = true ∧
        updateFirst p f l = pre ++ f e :: post := by
  intro l
  induction l with
  | nil => intro e h; simp at h
  | cons x xs ih =>
    intro e h
    by_cases hx : p x = true
    · have hxe : x = e := by simpa [List.find?, hx] using h
      subst hxe
      exact ⟨[], xs, rfl, by simp, hx, by simp [updateFirst, hx]⟩
    · have hx2 : p x = false := by simpa using hx
      have h2 : xs.find? p = some e := by simpa [List.find?, hx2] using h
      obtain ⟨pre, post, h1, h3, h4, h5⟩ := ih e h2
      refine ⟨x :: pre, post, by simp [h1], ?_, h4, by simp [updateFirst, hx2, h5]⟩
      intro y hy
      rcases List.mem_cons.1 hy with rfl | hy
      · exact hx2
      · exact h3 y hy

theorem find_isPendingFor_eq_none (w : Wallet) (c : String) :
    w.coupons.find? (isPendingFor c) = none ↔
      ¬ ∃ x ∈ w.coupons, x.coupon = c ∧ x.status = .pending := by
  rw [List.find?_eq_none]
  constructor
  · rintro h ⟨x, hx, hc⟩
    exact h x hx ((isPendingFor_iff c x).2 hc)
  · intro h x hx hp
    exact h ⟨x, hx, (isPendingFor_iff c x).1 hp⟩

theorem logSum_append_singleton (p : TransactionType → Bool) (ts : List Transaction)
    (t : Transaction) :
    logSum p (ts ++ [t]) = logSum p ts + (if p t.type then t.amount else 0) := by
  unfold logSum
  by_cases h : p t.type = true <;> simp [List.filter_append, List.filter_cons, h]

theorem redeemedEntriesSum_append_pending (cs : List CouponEntry) (e : CouponEntry)
    (h : e.status = .pending) : redeemedEntriesSum (cs ++ [e]) = redeemedEntriesSum cs := by
  unfold redeemedEntriesSum
  simp [List.filter_append, List.filter_cons, h]

theorem redeemedEntriesSum_markRedeemed (pre post : List CouponEntry) (e : CouponEntry)
    (a : ℚ) (now : Nat) (h : e.status = .pending) :
    redeemedEntriesSum (pre ++ markRedeemed a now e :: post) =
      redeemedEntriesSum (pre ++ e :: post) + a := by
  unfold redeemedEntriesSum
  simp [List.filter_append, List.filter_cons, h, markRedeemed]
  ring

theorem projected_addTransaction (w : Wallet) (t : Transaction) (h : w.projected) :
    (w.addTransaction t).2.projected := by
  obtain ⟨h1, h2, h3⟩ := h
  unfold Wallet.projected
  unfold Wallet.addTransaction
  cases ht : t.type <;> simp [logSum_append_singleton, ht, h1, h2, h3]
  all_goals ring

theorem projected_addCoupon (w : Wallet) (c : String) (v : ℚ) (now : Nat)
    (h : w.projected) : (w.addCoupon c v now).2.projected := by
  obtain ⟨h1, h2, h3⟩ := h
  unfold Wallet.projected
  simp [Wallet.addCoupon, redeemedEntriesSum_append_pending, h1, h2, h3]

theorem projected_redeemCoupon (w : Wallet) (c : String) (a : ℚ) (now : Nat)
    (h : w.projected) : (w.redeemCoupon c a now).2.projected := by
  obtain ⟨h1, h2, h3⟩ := h
  cases hf : w.coupons.find? (isPendingFor c) with
  | none => simpa [Wallet.redeemCoupon, hf] using (⟨h1, h2, h3⟩ : w.projected)
  | some e =>
    obtain ⟨pre, post, h4, -, h5, h6⟩ :=
      updateFirst_of_find (isPendingFor c) (markRedeemed a now) w.coupons e hf
    have he := ((isPendingFor_iff c e).1 h5).2
    have hsum := redeemedEntriesSum_markRedeemed pre post e a now he
    rw [← h6, ← h4] at hsum
    unfold Wallet.projected
    simp only [Wallet.redeemCoupon, hf]
    split <;> simp [h1, h2, h3, hsum] <;> ring

theorem projected_runOps (ops : List WalletOp) :
    ∀ w : Wallet, w.projected → (runOps w ops).projected := by
  induction ops with
  | nil => intro w h; exact h
  | cons op ops ih =>
    intro w h
    refine ih _ ?_
    cases op with
    | addTransaction t => exact projected_addTransaction w t h
    | addCoupon c v now => exact projected_addCoupon w c v now h
    | redeemCoupon c a now => exact projected_redeemCoupon w c a now h

theorem redeemCoupon_throws_iff_find (w : Wallet) (c : String) (a : ℚ) (now : Nat) :
    (w.redeemCoupon c a now).1 = .error "Coupon not found or already redeemed" ↔
      w.coupons.find? (isPendingFor c) = none := by
  cases hf : w.coupons.find? (isPendingFor c) with
  | none => simp [Wallet.redeemCoupon, hf]
  | some e =>
    simp only [Wallet.redeemCoupon, hf, Wallet.save]
    split <;> split <;> simp

/-- When the first entry for a coupon is pending, it is the first pending entry for it. -/
theorem find_isPendingFor_of_first (l : List CouponEntry) (c : String) (e : CouponEntry)
    (h1 : l.find? (fun x => x.coupon == c) = some e) (h2 : e.status = .pending) :
    l.find? (isPendingFor c) = some e := by
  induction l with
  | nil => simp at h1
  | cons x xs ih =>
    by_cases hx : x.coupon = c
    · have hxe : x = e := by simpa [List.find?_cons, hx] using h1
      subst hxe
      simp [List.find?_cons, isPendingFor, hx, h2]
    · have hb : (x.coupon == c) = false := by simpa using hx
      have h1b : xs.find? (fun y => y.coupon == c) = some e := by
        simpa [List.find?_cons, hb] using h1
      simpa [List.find?_cons, isPendingFor, hb] using ih h1b

/-! ### Wallet methods -/

/-- C1: starting from a wallet whose balance and three totals are all zero, after any
finite sequence of `addTransaction` calls (any types, any amounts) the wallet satisfies
`currentBalance = totalReceived - totalRedeemed - totalSettled`. -/
theorem addTransactions_balance_identity (w : Wallet) (ts : List Transaction)
    (hb : w.currentBalance = 0) (hr : w.totalReceived = 0) (hd : w.totalRedeemed = 0)
    (hs : w.totalSettled = 0) :
    (addTransactions w ts).currentBalance =
      (addTransactions w ts).totalReceived - (addTransactions w ts).totalRedeemed -
        (addTransactions w ts).totalSettled := by
  have h : w.balanced := by simp [Wallet.balanced, hb, hr, hd, hs]
  exact balanced_addTransactions ts w h

theorem addTransactions_balance_identity_witness :
    (Wallet.create "v1").currentBalance = 0 ∧ (Wallet.create "v1").totalReceived = 0 ∧
    (Wallet.create "v1").totalRedeemed = 0 ∧ (Wallet.create "v1").totalSettled = 0 ∧
    (addTransactions (Wallet.create "v1")
        [plainTransaction .topup 100, plainTransaction .coupon_redeemed 30,
         plainTransaction .adjustment 7, plainTransaction .settlement 50]).currentBalance =
      (addTransactions (Wallet.create "v1")
        [plainTransaction .topup 100, plainTransaction .coupon_redeemed 30,
         plainTransaction .adjustment 7, plainTransaction .settlement 50]).totalReceived -
      (addTransactions (Wallet.create "v1")
        [plainTransaction .topup 100, plainTransaction .coupon_redeemed 30,
         plainTransaction .adjustment 7, plainTransaction .settlement 50]).totalRedeemed -
      (addTransactions (Wallet.create "v1")
        [plainTransaction .topup 100, plainTransaction .coupon_redeemed 30,
         plainTransaction .adjustment 7, plainTransaction .settlement 50]).totalSettled :=
  ⟨rfl, rfl, rfl, rfl,
    addTransactions_balance_identity (Wallet.create "v1") _ rfl rfl rfl rfl⟩

/-- C2: `addTransaction e` appends `e` as the last element of `transactions`; for
`topup` and `coupon_received` it adds `e.amount` to `currentBalance` and `totalReceived`;
for `coupon_redeemed` it subtracts `e.amount` from `currentBalance` and adds it to
`totalRedeemed`; for `settlement` it subtracts `e.amount` from `currentBalance` and adds
it to `totalSettled`; in each case the other totals are unchanged. -/
theorem addTransaction_effect (w : Wallet) (e : Transaction) :
    (w.addTransaction e).2.transactions = w.transactions ++ [e] ∧
    (e.type = .topup ∨ e.type = .coupon_received →
      (w.addTransaction e).2.currentBalance = w.currentBalance + e.amount ∧
      (w.addTransaction e).2.totalReceived = w.totalReceived + e.amount ∧
      (w.addTransaction e).2.totalRedeemed = w.totalRedeemed ∧
      (w.addTransaction e).2.totalSettled = w.totalSettled) ∧
    (e.type = .coupon_redeemed →
      (w.addTransaction e).2.currentBalance = w.currentBalance - e.amount ∧
      (w.addTransaction e).2.totalRedeemed = w.totalRedeemed + e.amount ∧
      (w.addTransaction e).2.totalReceived = w.totalReceived ∧
      (w.addTransaction e).2.totalSettled = w.totalSettled) ∧
    (e.type = .settlement →
      (w.addTransaction e).2.currentBalance = w.currentBalance - e.amount ∧
      (w.addTransaction e).2.totalSettled = w.totalSettled + e.amount ∧
      (w.addTransaction e).2.totalReceived = w.totalReceived ∧
      (w.addTransaction e).2.totalRedeemed = w.totalRedeemed) := by
  unfold Wallet.addTransaction
  cases ht : e.type <;> simp

theorem addTransaction_effect_witness :
    ((Wallet.create "v1").addTransaction (plainTransaction .settlement 40)).2.transactions =
      [plainTransaction .settlement 40] ∧
    ((Wallet.create "v1").addTransaction (plainTransaction .settlement 40)).2.currentBalance =
      0 - 40 ∧
    ((Wallet.create "v1").addTransaction (plainTransaction .settlement 40)).2.totalSettled =
      0 + 40 :=
  have h := addTransaction_effect (Wallet.create "v1") (plainTransaction .settlement 40)
  ⟨h.1, (h.2.2.2 rfl).1, (h.2.2.2 rfl).2.1⟩

/-- C3: when the wallet holds a pending tracking entry for coupon `c`, `redeemCoupon c a`
rewrites the first such entry to status `redeemed` with `redeemedAmount = a` (every
other entry unchanged), adds `a` to `totalRedeemed` whatever the entry held, subtracts
`a` from `currentBalance` when the entry's `redeemedAmount` before the call was greater
than zero, and leaves `currentBalance` unchanged otherwise (in particular when it
was 0). -/
theorem redeemCoupon_effect (w : Wallet) (c : String) (a : ℚ) (now : Nat)
    (h : ∃ x ∈ w.coupons, x.coupon = c ∧ x.status = .pending) :
    ∃ pre e post,
      w.coupons = pre ++ e :: post ∧
      (∀ x ∈ pre, ¬ (x.coupon = c ∧ x.status = .pending)) ∧
      e.coupon = c ∧ e.status = .pending ∧
      (w.redeemCoupon c a now).2.coupons =
        pre ++ { e with redeemedAt := some now, redeemedAmount := some a,
                        status := .redeemed } :: post ∧
      (w.redeemCoupon c a now).2.totalRedeemed = w.totalRedeemed + a ∧
      (0 < e.redeemedAmount.getD 0 →
        (w.redeemCoupon c a now).2.currentBalance = w.currentBalance - a) ∧
      (¬ 0 < e.redeemedAmount.getD 0 →
        (w.redeemCoupon c a now).2.currentBalance = w.currentBalance) ∧
      (e.redeemedAmount = some 0 →
        (w.redeemCoupon c a now).2.currentBalance = w.currentBalance) := by
  cases hf : w.coupons.find? (isPendingFor c) with
  | none => exact absurd h ((find_isPendingFor_eq_none w c).1 hf)
  | some e =>
    obtain ⟨pre, post, h1, h2, h3, h4⟩ :=
      updateFirst_of_find (isPendingFor c) (markRedeemed a now) w.coupons e hf
    have he := (isPendingFor_iff c e).1 h3
    refine ⟨pre, e, post, h1, ?_, he.1, he.2, ?_, ?_, ?_, ?_, ?_⟩
    · intro x hx hc
      have := h2 x hx
      rw [(isPendingFor_iff c x).2 hc] at this
      exact Bool.noConfusion this
    · simp only [Wallet.redeemCoupon, hf]
      split <;> simpa [markRedeemed] using h4
    · simp only [Wallet.redeemCoupon, hf]
      split <;> rfl
    · intro hpos
      simp [Wallet.redeemCoupon, hf, hpos]
    · intro hpos
      simp [Wallet.redeemCoupon, hf, hpos]
    · intro hz
      simp [Wallet.redeemCoupon, hf, hz]

theorem redeemCoupon_effect_witness :
    (∃ x ∈ fixedIntakeWallet.coupons, x.coupon = "c1" ∧ x.status = .pending) ∧
    (fixedIntakeWallet.redeemCoupon "c1" 100 5).2.totalRedeemed = 100 ∧
    (fixedIntakeWallet.redeemCoupon "c1" 100 5).2.currentBalance = 0 ∧
    (fixedIntakeWallet.redeemCoupon "c1" 100 5).2.coupons =
      [{ coupon := "c1", receivedAt := 1, redeemedAt := some 5, redeemedAmount := some 100,
         status := .redeemed }] := by
  have h0 : ∃ x ∈ fixedIntakeWallet.coupons, x.coupon = "c1" ∧ x.status = .pending :=
    ⟨_, List.mem_singleton.2 rfl, rfl, rfl⟩
  obtain ⟨pre, e, post, h1, -, -, -, h5, h6, h7, -, -⟩ :=
    redeemCoupon_effect fixedIntakeWallet "c1" 100 5 h0
  have hl : pre = [] ∧ e = CouponEntry.mk "c1" 1 none (some 100) .pending ∧ post = [] := by
    cases pre with
    | nil => simpa [fixedIntakeWallet, eq_comm] using h1
    | cons p ps => simp [fixedIntakeWallet] at h1
  obtain ⟨rfl, rfl, rfl⟩ := hl
  refine ⟨h0, ?_, ?_, ?_⟩
  · rw [h6]; norm_num [fixedIntakeWallet]
  · rw [h7 (by norm_num)]; norm_num [fixedIntakeWallet]
  · simpa using h5

/-- C4 (as stated, refuted): a wallet satisfying
`currentBalance = totalReceived - totalRedeemed - totalSettled` and holding a pending
entry taken in at value 0 no longer satisfies it after a successful
`redeemCoupon` of amount 50. -/
theorem redeemCoupon_breaks_balance_identity :
    percentageIntakeWallet.balanced ∧
    (percentageIntakeWallet.redeemCoupon "c1" 50 2).1 = .ok () ∧
    (percentageIntakeWallet.redeemCoupon "c1" 50 2).2.currentBalance = 0 ∧
    (percentageIntakeWallet.redeemCoupon "c1" 50 2).2.totalRedeemed = 50 ∧
    ¬ (percentageIntakeWallet.redeemCoupon "c1" 50 2).2.balanced := by
  norm_num [percentageIntakeWallet, Wallet.balanced, Wallet.redeemCoupon, isPendingFor,
    updateFirst, markRedeemed, Wallet.save]

/-- C4 (amended): `currentBalance = totalReceived - totalRedeemed - totalSettled` is
preserved by `addTransaction`, by `addCoupon`, and by `redeemCoupon` when the first
pending entry for the coupon held a `redeemedAmount` greater than zero before the call;
when it did not, `redeemCoupon c a` leaves
`currentBalance = totalReceived - totalRedeemed - totalSettled + a`; a `redeemCoupon`
that finds no pending entry changes nothing. -/
theorem balance_identity_preservation (w : Wallet) (hb : w.balanced) :
    (∀ t, (w.addTransaction t).2.balanced) ∧
    (∀ c v now, (w.addCoupon c v now).2.balanced) ∧
    (∀ c a now e, w.coupons.find? (isPendingFor c) = some e → 0 < e.redeemedAmount.getD 0 →
      (w.redeemCoupon c a now).2.balanced) ∧
    (∀ c a now e, w.coupons.find? (isPendingFor c) = some e →
      ¬ 0 < e.redeemedAmount.getD 0 →
      (w.redeemCoupon c a now).2.currentBalance =
        (w.redeemCoupon c a now).2.totalReceived - (w.redeemCoupon c a now).2.totalRedeemed -
          (w.redeemCoupon c a now).2.totalSettled + a) ∧
    (∀ c a now, w.coupons.find? (isPendingFor c) = none →
      (w.redeemCoupon c a now).2.balanced) := by
  refine ⟨fun t => balanced_addTransaction w t hb, ?_, ?_, ?_, ?_⟩
  · intro c v now
    simpa [Wallet.addCoupon, Wallet.balanced] using hb
  · intro c a now e hf hpos
    unfold Wallet.balanced at *
    simp [Wallet.redeemCoupon, hf, hpos, hb]
    ring
  · intro c a now e hf hpos
    unfold Wallet.balanced at *
    simp [Wallet.redeemCoupon, hf, hpos, hb]
    ring
  · intro c a now hf
    simpa [Wallet.redeemCoupon, hf] using hb

theorem balance_identity_preservation_witness :
    fixedIntakeWallet.balanced ∧ (fixedIntakeWallet.redeemCoupon "c1" 100 5).2.balanced :=
  have hb : fixedIntakeWallet.balanced := by norm_num [fixedIntakeWallet, Wallet.balanced]
  ⟨hb, (balance_identity_preservation fixedIntakeWallet hb).2.2.1 "c1" 100 5
    (CouponEntry.mk "c1" 1 none (some 100) .pending) rfl (by norm_num)⟩

/-- C5 (as stated, refuted): from a fresh wallet, `addCoupon c1 0` followed by
`redeemCoupon c1 50` (both calls resolve) gives `totalRedeemed = 50` while the log
is empty, so the logged `coupon_redeemed` amounts sum to 0. -/
theorem totalRedeemed_not_projection_of_log :
    ((Wallet.create "v1").addCoupon "c1" 0 1).1 = .ok () ∧
    (((Wallet.create "v1").addCoupon "c1" 0 1).2.redeemCoupon "c1" 50 2).1 = .ok () ∧
    (runOps (Wallet.create "v1")
      [.addCoupon "c1" 0 1, .redeemCoupon "c1" 50 2]).totalRedeemed = 50 ∧
    (runOps (Wallet.create "v1")
      [.addCoupon "c1" 0 1, .redeemCoupon "c1" 50 2]).transactions = [] ∧
    (runOps (Wallet.create "v1") [.addCoupon "c1" 0 1, .redeemCoupon "c1" 50 2]).totalRedeemed ≠
      logSum (fun ty => ty == .coupon_redeemed)
        (runOps (Wallet.create "v1")
          [.addCoupon "c1" 0 1, .redeemCoupon "c1" 50 2]).transactions := by
  norm_num [runOps, WalletOp.apply, Wallet.create, Wallet.addCoupon, Wallet.redeemCoupon,
    isPendingFor, updateFirst, markRedeemed, Wallet.save, logSum]

/-- C5 (amended): for every wallet reached from a fresh wallet (all totals 0, empty log,
no tracking entries) by any sequence of `addTransaction`, `addCoupon` and `redeemCoupon`
calls, `totalReceived` is the sum of the logged `topup` and `coupon_received` amounts,
`totalSettled` is the sum of the logged `settlement` amounts, and `totalRedeemed` is the
sum of the logged `coupon_redeemed` amounts plus the sum of `redeemedAmount` over the
tracking entries with status `redeemed` (the amounts of the `redeemCoupon` calls that
found an entry). -/
theorem totals_projection (w : Wallet) (ops : List WalletOp)
    (hr : w.totalReceived = 0) (hd : w.totalRedeemed = 0) (hs : w.totalSettled = 0)
    (hl : w.transactions = []) (hc : w.coupons = []) :
    (runOps w ops).totalReceived =
      logSum (fun ty => ty == .topup || ty == .coupon_received) (runOps w ops).transactions ∧
    (runOps w ops).totalSettled =
      logSum (fun ty => ty == .settlement) (runOps w ops).transactions ∧
    (runOps w ops).totalRedeemed =
      logSum (fun ty => ty == .coupon_redeemed) (runOps w ops).transactions +
        redeemedEntriesSum (runOps w ops).coupons := by
  have h : w.projected := by
    simp [Wallet.projected, hr, hd, hs, hl, hc, logSum, redeemedEntriesSum]
  exact projected_runOps ops w h

theorem totals_projection_witness :
    (Wallet.create "v1").totalReceived = 0 ∧ (Wallet.create "v1").totalRedeemed = 0 ∧
    (Wallet.create "v1").totalSettled = 0 ∧ (Wallet.create "v1").transactions = [] ∧
    (Wallet.create "v1").coupons = [] ∧
    (runOps (Wallet.create "v1")
      [.addCoupon "c1" 0 1, .redeemCoupon "c1" 50 2]).totalRedeemed =
      logSum (fun ty => ty == .coupon_redeemed)
        (runOps (Wallet.create "v1")
          [.addCoupon "c1" 0 1, .redeemCoupon "c1" 50 2]).transactions +
      redeemedEntriesSum
        (runOps (Wallet.create "v1") [.addCoupon "c1" 0 1, .redeemCoupon "c1" 50 2]).coupons :=
  ⟨rfl, rfl, rfl, rfl, rfl,
    (totals_projection (Wallet.create "v1") [.addCoupon "c1" 0 1, .redeemCoupon "c1" 50 2]
      rfl rfl rfl rfl rfl).2.2⟩

/-- C8: `redeemCoupon c a` throws `Coupon not found or already redeemed` exactly when
the wallet has no tracking entry for `c` with status `pending`; when it throws, the
document (balance, totals, log, tracking entries) is unchanged; and when the wallet holds
exactly one pending entry for `c`, a second `redeemCoupon c` after a successful first one
throws that error. -/
theorem redeemCoupon_error_iff (w : Wallet) (c : String) (a : ℚ) (now : Nat) :
    ((w.redeemCoupon c a now).1 = .error "Coupon not found or already redeemed" ↔
      ¬ ∃ x ∈ w.coupons, x.coupon = c ∧ x.status = .pending) ∧
    ((w.redeemCoupon c a now).1 = .error "Coupon not found or already redeemed" →
      (w.redeemCoupon c a now).2 = w) ∧
    (∀ a2 now2, w.coupons.countP (isPendingFor c) = 1 →
      (w.redeemCoupon c a now).1 = .ok () →
      ((w.redeemCoupon c a now).2.redeemCoupon c a2 now2).1 =
        .error "Coupon not found or already redeemed") := by
  have key := redeemCoupon_throws_iff_find w c a now
  refine ⟨key.trans (find_isPendingFor_eq_none w c), ?_, ?_⟩
  · intro h
    simp [Wallet.redeemCoupon, key.1 h]
  · intro a2 now2 hcount hok
    cases hf : w.coupons.find? (isPendingFor c) with
    | none => simp [Wallet.redeemCoupon, hf] at hok
    | some e =>
      obtain ⟨pre, post, h1, h2, h3, h4⟩ :=
        updateFirst_of_find (isPendingFor c) (markRedeemed a now) w.coupons e hf
      have hpre : pre.countP (isPendingFor c) = 0 :=
        List.countP_eq_zero.2 (fun x hx => by simp [h2 x hx])
      have hpost : post.countP (isPendingFor c) = 0 := by
        rw [h1, List.countP_append, List.countP_cons, hpre] at hcount
        simp [h3] at hcount
        exact List.countP_eq_zero.2 (fun x hx => by simpa using hcount x hx)
      have hnew : (w.redeemCoupon c a now).2.coupons = pre ++ markRedeemed a now e :: post := by
        simp only [Wallet.redeemCoupon, hf]
        split <;> exact h4
      have hnone : (w.redeemCoupon c a now).2.coupons.find? (isPendingFor c) = none := by
        rw [hnew, List.find?_eq_none]
        intro x hx
        rcases List.mem_append.1 hx with hx | hx
        · simp [h2 x hx]
        · rcases List.mem_cons.1 hx with rfl | hx
          · simp [isPendingFor, markRedeemed]
          · exact List.countP_eq_zero.1 hpost x hx
      exact (redeemCoupon_throws_iff_find _ c a2 now2).2 hnone

theorem redeemCoupon_error_iff_witness :
    fixedIntakeWallet.coupons.countP (isPendingFor "c1") = 1 ∧
    (fixedIntakeWallet.redeemCoupon "c1" 100 5).1 = .ok () ∧
    ((fixedIntakeWallet.redeemCoupon "c1" 100 5).2.redeemCoupon "c1" 100 6).1 =
      .error "Coupon not found or already redeemed" :=
  have h1 : fixedIntakeWallet.coupons.countP (isPendingFor "c1") = 1 := by
    simp [fixedIntakeWallet, isPendingFor]
  have h2 : (fixedIntakeWallet.redeemCoupon "c1" 100 5).1 = .ok () := by
    norm_num [fixedIntakeWallet, Wallet.redeemCoupon, isPendingFor, Wallet.save]
  ⟨h1, h2, (redeemCoupon_error_iff fixedIntakeWallet "c1" 100 5).2.2 100 6 h1 h2⟩

/-- C9: `addCoupon c v` appends exactly one tracking entry
`{coupon: c, redeemedAmount: v, status: 'pending'}` (received now, not redeemed) after
the existing entries, which stay as they were, and leaves `currentBalance`,
`totalReceived`, `totalRedeemed`, `totalSettled` and the transaction log unchanged. -/
theorem addCoupon_frame (w : Wallet) (c : String) (v : ℚ) (now : Nat) :
    (w.addCoupon c v now).2.coupons =
      w.coupons ++ [{ coupon := c, receivedAt := now, redeemedAt := none,
                      redeemedAmount := some v, status := .pending }] ∧
    (w.addCoupon c v now).2.currentBalance = w.currentBalance ∧
    (w.addCoupon c v now).2.totalReceived = w.totalReceived ∧
    (w.addCoupon c v now).2.totalRedeemed = w.totalRedeemed ∧
    (w.addCoupon c v now).2.totalSettled = w.totalSettled ∧
    (w.addCoupon c v now).2.transactions = w.transactions ∧
    (w.addCoupon c v now).2.lastSettlement = w.lastSettlement ∧
    (w.addCoupon c v now).2.vendor = w.vendor :=
  ⟨rfl, rfl, rfl, rfl, rfl, rfl, rfl, rfl⟩

/-! ### Endpoints and redemption flow -/

theorem redeemCouponWalletUpdate_fixed (w : Wallet) (coupon : Coupon) (amount : ℚ)
    (userId : String) (now : Nat) (e : CouponEntry)
    (h1 : w.coupons.find? (fun c => c.coupon == coupon.id) = some e)
    (h2 : e.status = .pending) (h3 : 0 < e.redeemedAmount.getD 0)
    (h4 : 2 * amount ≤ w.currentBalance) (h5 : 0 ≤ amount) :
    (redeemCouponWalletUpdate w coupon amount userId now).1 = .ok () ∧
    (redeemCouponWalletUpdate w coupon amount userId now).2.currentBalance =
      w.currentBalance - 2 * amount ∧
    (redeemCouponWalletUpdate w coupon amount userId now).2.totalRedeemed =
      w.totalRedeemed + 2 * amount := by
  have hf := find_isPendingFor_of_first w.coupons coupon.id e h1 h2
  have hb1 : ¬ (w.currentBalance - amount < 0) := by linarith
  have hb2 : ¬ (w.currentBalance - amount - amount < 0) := by linarith
  simp [redeemCouponWalletUpdate, h1, h2, Wallet.redeemCoupon, hf, h3, Wallet.save,
    Wallet.addTransaction, hb1, hb2]
  constructor <;> ring

/-- On a wallet that holds nothing but the intake credit of the coupon, the second
debit of the redemption flow makes the balance negative: the `coupon_redeemed` save is
rejected and the store keeps the wallet as `Wallet.redeemCoupon` left it. -/
theorem redeemCouponWalletUpdate_intake_only :
    (redeemCouponWalletUpdate fixedIntakeWallet
        { id := "c1", code := "FOOD1", value := none } 100 "u1" 5).1 =
      .error "Wallet validation failed" ∧
    (redeemCouponWalletUpdate fixedIntakeWallet
        { id := "c1", code := "FOOD1", value := none } 100 "u1" 5).2.currentBalance = 0 ∧
    (redeemCouponWalletUpdate fixedIntakeWallet
        { id := "c1", code := "FOOD1", value := none } 100 "u1" 5).2.totalRedeemed = 100 := by
  have h1 : fixedIntakeWallet.redeemCoupon "c1" 100 5 =
      (.ok (), { fixedIntakeWallet with
        currentBalance := 0, totalRedeemed := 100,
        coupons := [CouponEntry.mk "c1" 1 (some 5) (some 100) .redeemed] }) := by
    simp [fixedIntakeWallet, Wallet.redeemCoupon, isPendingFor, updateFirst, markRedeemed,
      Wallet.save]
  have h2 : fixedIntakeWallet.coupons.find? (fun c => c.coupon == "c1") =
      some (CouponEntry.mk "c1" 1 none (some 100) .pending) := rfl
  simp only [redeemCouponWalletUpdate, h2, h1]
  simp [Wallet.addTransaction, Wallet.save, fixedIntakeWallet]

theorem healthWallet_eq :
    healthWallet =
      { vendor := "v1", currentBalance := 1000, totalReceived := 1000, totalRedeemed := 0,
        totalSettled := 0,
        transactions :=
          [plainTransaction .topup 500,
           { type := .coupon_received, amount := 500, coupon := some "c500",
             description := some "Coupon HEAL500A added to wallet", transactionId := none,
             processedBy := some "admin", status := some .completed }],
        coupons := [{ coupon := "c500", receivedAt := 1, redeemedAt := none,
                      redeemedAmount := some 500, status := .pending }],
        lastSettlement := none } := by
  simp [healthWallet, health500, health500Coupon, addCouponToWalletUpdate,
    getCouponMonetaryValue, CouponValue.isPercentageBased, JsValue.truthy, JsValue.asNumber,
    Wallet.create, Wallet.addTransaction, Wallet.addCoupon, plainTransaction, Wallet.save]
  norm_num

/-- C6 (code evaluated at the failing input): for the `HEALTH_500` coupon the redemption
amount is 500, and on a wallet that holds the coupon's pending entry taken in at 500 the
wallet update of the redemption flow succeeds with `currentBalance` lowered by 1000 and
`totalRedeemed` raised by 1000, because `Wallet.redeemCoupon` and the `coupon_redeemed`
transaction each apply the amount. -/
theorem redemption_applies_amount_twice :
    healthWallet.currentBalance = 1000 ∧ healthWallet.totalRedeemed = 0 ∧
    healthWallet.coupons =
      [{ coupon := "c500", receivedAt := 1, redeemedAt := none, redeemedAmount := some 500,
         status := .pending }] ∧
    computeRedemptionAmount health500 none = .ok (some 500) ∧
    (redeemCouponWalletUpdate healthWallet health500 500 "u1" 2).1 = .ok () ∧
    (redeemCouponWalletUpdate healthWallet health500 500 "u1" 2).2.currentBalance = 0 ∧
    (redeemCouponWalletUpdate healthWallet health500 500 "u1" 2).2.totalRedeemed = 1000 := by
  have hw := healthWallet_eq
  have hf : healthWallet.coupons.find? (fun c => c.coupon == health500.id) =
      some (CouponEntry.mk "c500" 1 none (some 500) .pending) := by
    rw [hw]; rfl
  have hfix := redeemCouponWalletUpdate_fixed healthWallet health500 500 "u1" 2 _ hf rfl
    (by norm_num) (by rw [hw]; norm_num) (by norm_num)
  refine ⟨by rw [hw], by rw [hw], by rw [hw], ?_, hfix.1, ?_, ?_⟩
  · simp [computeRedemptionAmount, health500, health500Coupon, getCouponMonetaryValue,
      CouponValue.isPercentageBased, JsValue.truthy, JsValue.asNumber]
  · rw [hfix.2.1, hw]; norm_num
  · rw [hfix.2.2, hw]; norm_num

/-- C7: for an existing wallet, `settleWallet` answers 400 `Insufficient balance` and
leaves the stored wallet as it was when `amount > currentBalance`; otherwise it answers
200, and the stored wallet has exactly one more transaction, the settlement, at the end
of the log, `totalSettled` raised by `amount`, `currentBalance` lowered by `amount` and
not negative, and `totalReceived`, `totalRedeemed` and the tracking entries unchanged. -/
theorem settleWallet_spec (w : Wallet) (amount : ℚ) (transactionId : Option String)
    (userId : String) (now : Nat) :
    (amount > w.currentBalance →
      settleWallet (some w) amount transactionId userId now =
        ({ status := 400, success := false, message := "Insufficient balance" }, some w)) ∧
    (¬ amount > w.currentBalance →
      ∃ w2,
        settleWallet (some w) amount transactionId userId now =
          ({ status := 200, success := true, message := "Payment settled successfully" },
            some w2) ∧
        w2.transactions = w.transactions ++
          [{ type := .settlement, amount := amount, coupon := none,
             description := some "Payment settlement", transactionId := transactionId,
             processedBy := some userId, status := some .completed }] ∧
        w2.totalSettled = w.totalSettled + amount ∧
        w2.currentBalance = w.currentBalance - amount ∧
        0 ≤ w2.currentBalance ∧
        w2.totalReceived = w.totalReceived ∧
        w2.totalRedeemed = w.totalRedeemed ∧
        w2.coupons = w.coupons) := by
  constructor
  · intro h
    have h2 : w.currentBalance < amount := h
    simp [settleWallet, h2]
  · intro h
    have h2 : ¬ w.currentBalance < amount := h
    have h3 : ¬ w.currentBalance - amount < 0 := by
      intro h4
      exact h (by linarith)
    simp [settleWallet, h2, Wallet.addTransaction, Wallet.save, h3]
    linarith

theorem settleWallet_spec_witness :
    (settleWallet (some fixedIntakeWallet) 150 (some "TXN1") "admin" 9).1.status = 400 ∧
    (settleWallet (some fixedIntakeWallet) 150 (some "TXN1") "admin" 9).2 =
      some fixedIntakeWallet ∧
    ∃ w2, (settleWallet (some fixedIntakeWallet) 60 (some "TXN1") "admin" 9).2 = some w2 ∧
      w2.totalSettled = 60 ∧ w2.currentBalance = 40 := by
  have h1 := (settleWallet_spec fixedIntakeWallet 150 (some "TXN1") "admin" 9).1
    (by norm_num [fixedIntakeWallet])
  obtain ⟨w2, h2, -, h3, h4, -⟩ :=
    (settleWallet_spec fixedIntakeWallet 60 (some "TXN1") "admin" 9).2
      (by norm_num [fixedIntakeWallet])
  refine ⟨by rw [h1], by rw [h1], w2, by rw [h2], ?_, ?_⟩
  · rw [h3]; norm_num [fixedIntakeWallet]
  · rw [h4]; norm_num [fixedIntakeWallet]

/-- C10: `getCouponMonetaryValue` returns 0 for a missing coupon or a missing `value`;
0 whenever `isPercentage` is set or `percentage` is a non-zero number, whatever `amount`
holds; otherwise `value.amount` when it is a number; otherwise (an amount that is not a
number, such as a description) 0. -/
theorem getCouponMonetaryValue_spec :
    getCouponMonetaryValue none = 0 ∧
    (∀ c : Coupon, c.value = none → getCouponMonetaryValue (some c) = 0) ∧
    (∀ (c : Coupon) (v : CouponValue), c.value = some v →
      (v.isPercentage = true ∨ ∃ p, v.percentage = some p ∧ p ≠ 0) →
      getCouponMonetaryValue (some c) = 0) ∧
    (∀ (c : Coupon) (v : CouponValue) (n : ℚ), c.value = some v →
      v.isPercentage = false → (v.percentage = none ∨ v.percentage = some 0) →
      v.amount = .number n → getCouponMonetaryValue (some c) = n) ∧
    (∀ (c : Coupon) (v : CouponValue), c.value = some v →
      v.isPercentage = false → (v.percentage = none ∨ v.percentage = some 0) →
      (∀ n, v.amount ≠ .number n) → getCouponMonetaryValue (some c) = 0) := by
  refine ⟨rfl, ?_, ?_, ?_, ?_⟩
  · intro c h
    simp [getCouponMonetaryValue, h]
  · intro c v h hp
    rcases hp with hp | ⟨p, hp, hne⟩
    · simp [getCouponMonetaryValue, h, CouponValue.isPercentageBased, hp]
    · simp [getCouponMonetaryValue, h, CouponValue.isPercentageBased, hp, hne]
  · intro c v n h hi hp ha
    have hb : v.isPercentageBased = false := by
      rcases hp with hp | hp <;> simp [CouponValue.isPercentageBased, hi, hp]
    by_cases hn : n = 0
    · simp [getCouponMonetaryValue, h, hb, ha, JsValue.truthy, JsValue.asNumber, hn]
    · simp [getCouponMonetaryValue, h, hb, ha, JsValue.truthy, JsValue.asNumber, hn]
  · intro c v h hi hp ha
    have hb : v.isPercentageBased = false := by
      rcases hp with hp | hp <;> simp [CouponValue.isPercentageBased, hi, hp]
    cases hv : v.amount with
    | number n => exact absurd hv (ha n)
    | undefined => simp [getCouponMonetaryValue, h, hb, hv, JsValue.truthy]
    | null => simp [getCouponMonetaryValue, h, hb, hv, JsValue.truthy]
    | bool b => simp [getCouponMonetaryValue, h, hb, hv, JsValue.asNumber]
    | string s => simp [getCouponMonetaryValue, h, hb, hv, JsValue.asNumber]

theorem getCouponMonetaryValue_spec_witness :
    getCouponMonetaryValue (some health500) = 500 ∧
    getCouponMonetaryValue (some percentAndAmountCoupon) = 0 ∧
    getCouponMonetaryValue (some freeItemCoupon) = 0 :=
  ⟨getCouponMonetaryValue_spec.2.2.2.1 health500 _ 500 rfl rfl (Or.inl rfl) rfl,
   getCouponMonetaryValue_spec.2.2.1 percentAndAmountCoupon _ rfl
     (Or.inr ⟨10, rfl, by norm_num⟩),
   getCouponMonetaryValue_spec.2.2.2.2 freeItemCoupon _ rfl rfl (Or.inl rfl)
     (fun n h => JsValue.noConfusion h)⟩

/-! ### Purchase -/

/-- After `n` rounds of the purchase loop: `n` coupons were created, the store grew by
exactly them, and the `k`-th one is the payload built for sequence index `k` against
the store as it was after the first `k` rounds. -/
theorem purchaseFold_spec [Host] (m : CouponModel) (store : List CouponDoc) (pkg : CouponPackage)
    (donorId : String) (partnerId : Option String) (beneficiary : Beneficiary)
    (assign : Bool) (transactionId : Option String) (now : Nat) (n : Nat) :
    ((List.range n).foldl
        (purchaseStep m pkg donorId partnerId beneficiary assign transactionId now)
        (store, [])).2.length = n ∧
    ((List.range n).foldl
        (purchaseStep m pkg donorId partnerId beneficiary assign transactionId now)
        (store, [])).1 =
      store ++ ((List.range n).foldl
        (purchaseStep m pkg donorId partnerId beneficiary assign transactionId now)
        (store, [])).2 ∧
    ∀ k, k < n →
      ((List.range n).foldl
        (purchaseStep m pkg donorId partnerId beneficiary assign transactionId now)
        (store, [])).2[k]? =
      some { buildCouponPayloadFromPackage m
              (store ++ ((List.range n).foldl
                (purchaseStep m pkg donorId partnerId beneficiary assign transactionId now)
                (store, [])).2.take k)
              pkg donorId partnerId beneficiary assign transactionId k now with
             id := m.newId
              (store ++ ((List.range n).foldl
                (purchaseStep m pkg donorId partnerId beneficiary assign transactionId now)
                (store, [])).2.take k) } := by
  induction n with
  | zero => simp
  | succ n ih =>
    obtain ⟨h1, h2, h3⟩ := ih
    rw [List.range_succ, List.foldl_append]
    generalize (List.range n).foldl
      (purchaseStep m pkg donorId partnerId beneficiary assign transactionId now)
      (store, []) = r at h1 h2 h3
    simp only [List.foldl_cons, List.foldl_nil, purchaseStep]
    refine ⟨by simp [h1], by simp [h2], ?_⟩
    intro k hk
    rcases Nat.lt_succ_iff_lt_or_eq.1 hk with hlt | heq
    · have hk1 : k < r.2.length := by omega
      rw [List.getElem?_append_left hk1, h3 k hlt,
        List.take_append_of_le_length (by omega)]
    · subst heq
      rw [← h1, List.getElem?_append_right (le_refl _)]
      simp [h2]

theorem digitChar_facts (d : Nat) (h : d < 10) :
    (digitChar d).toNat - 48 = d ∧ isDecimalDigit (digitChar d) = true ∧
    isJsWhiteSpace (digitChar d) = false ∧ digitChar d ≠ '-' ∧ digitChar d ≠ '+' := by
  interval_cases d <;> exact ⟨rfl, rfl, rfl, by decide, by decide⟩

theorem foldl_digitChar (L : List Nat) (hL : ∀ d ∈ L, d < 10) (a : Nat) :
    (L.map digitChar).foldl (fun acc c => 10 * acc + (c.toNat - 48)) a =
      L.foldl (fun acc d => 10 * acc + d) a := by
  induction L generalizing a with
  | nil => rfl
  | cons d L ih =>
    simp only [List.map_cons, List.foldl_cons]
    rw [(digitChar_facts d (hL d (List.mem_cons_self _ _))).1]
    exact ih (fun x hx => hL x (List.mem_cons_of_mem _ hx)) _

theorem foldl_reverse_ofDigits (L : List Nat) :
    L.reverse.foldl (fun acc d => 10 * acc + d) 0 = Nat.ofDigits 10 L := by
  induction L with
  | nil => rfl
  | cons d L ih =>
    rw [List.reverse_cons, List.foldl_append, ih, Nat.ofDigits_cons]
    simp [List.foldl]
    ring

/-- The decimal digits of a number are digits throughout, write the number, and are not
empty. -/
theorem decimalDigits_spec (n : Nat) :
    (decimalDigits n).takeWhile isDecimalDigit = decimalDigits n ∧
    digitsValue (decimalDigits n) = n ∧
    ∃ d cs, d < 10 ∧ decimalDigits n = digitChar d :: cs := by
  unfold decimalDigits
  by_cases h0 : n = 0
  · subst h0
    exact ⟨rfl, rfl, 0, [], by norm_num, rfl⟩
  · rw [if_neg h0]
    have hlt : ∀ d ∈ (Nat.digits 10 n).reverse, d < 10 := fun d hd =>
      Nat.digits_lt_base (by norm_num) (List.mem_reverse.1 hd)
    refine ⟨?_, ?_, ?_⟩
    · rw [List.takeWhile_eq_self_iff]
      intro c hc
      obtain ⟨d, hd, rfl⟩ := List.mem_map.1 hc
      exact (digitChar_facts d (hlt d hd)).2.1
    · unfold digitsValue
      rw [foldl_digitChar _ hlt, foldl_reverse_ofDigits, Nat.ofDigits_digits]
    · have hne : (Nat.digits 10 n).reverse ≠ [] := by
        simpa using (Nat.digits_ne_nil_iff_ne_zero.2 h0)
      cases hL : (Nat.digits 10 n).reverse with
      | nil => exact absurd hL hne
      | cons d L =>
        exact ⟨d, L.map digitChar, hlt d (by rw [hL]; exact List.mem_cons_self _ _), rfl⟩

theorem parseUnsigned_decimalDigits (n : Nat) :
    parseUnsigned (decimalDigits n) = some (n : ℤ) := by
  obtain ⟨h1, h2, d, cs, -, h3⟩ := decimalDigits_spec n
  unfold parseUnsigned
  rw [h1]
  rw [h3] at h2 ⊢
  simp only [h2]

/-- `parseInt` reads an integer back from its decimal text. -/
theorem parseInt10_decimalText (n : ℤ) : parseInt10 (decimalText n) = some n := by
  unfold parseInt10 decimalText
  by_cases hn : n < 0
  · simp only [hn, if_true]
    have hd : List.dropWhile isJsWhiteSpace ('-' :: decimalDigits n.natAbs) =
        '-' :: decimalDigits n.natAbs := rfl
    rw [hd]
    simp only [parseUnsigned_decimalDigits, Option.map_some']
    congr 1
    omega
  · simp only [hn, if_false]
    obtain ⟨-, -, d, cs, hd, h3⟩ := decimalDigits_spec n.natAbs
    obtain ⟨-, -, f3, f4, f5⟩ := digitChar_facts d hd
    have hp := parseUnsigned_decimalDigits n.natAbs
    rw [h3] at hp ⊢
    have hdrop : List.dropWhile isJsWhiteSpace (digitChar d :: cs) = digitChar d :: cs := by
      rw [List.dropWhile_cons_of_neg (by simp [f3])]
    rw [hdrop]
    split
    · rename_i heq
      exact absurd (List.cons.inj heq).1 f4
    · rename_i heq
      exact absurd (List.cons.inj heq).1 f5
    · rw [hp]
      congr 1
      omega

theorem parsedQuantity_le (q : QuantityInput) : parsedQuantity q ≤ 50 := by
  unfold parsedQuantity
  exact Int.toNat_le.2 (min_le_right _ _)

/-- The catalog lookup fails exactly for ids that no catalog package carries. -/
theorem getCouponPackageById_eq_none (id : Option String) :
    getCouponPackageById id = none ↔ ∀ pkg ∈ couponPackages, id ≠ some pkg.id := by
  unfold getCouponPackageById nonEmpty
  cases id with
  | none => simp
  | some i =>
    by_cases h0 : i = ""
    · subst h0
      simp [couponPackages, food100Package, health500Package]
    · simp only [h0, if_false, List.find?_eq_none]
      constructor
      · intro h pkg hp heq
        have := h pkg hp
        simp only [Option.some.injEq] at heq
        simp [heq] at this
      · intro h pkg hp hb
        have := h pkg hp
        simp only [beq_iff_eq] at hb
        simp [hb] at this

theorem getCouponPackageById_mem (id : Option String) (pkg : CouponPackage)
    (h : getCouponPackageById id = some pkg) : pkg ∈ couponPackages := by
  unfold getCouponPackageById at h
  cases hn : nonEmpty id with
  | none => simp [hn] at h
  | some i =>
    simp only [hn] at h
    exact List.mem_of_find?_eq_some h

/-- What `purchaseCoupons` returns for a catalog package and an authenticated donor. -/
theorem purchaseCoupons_of_valid [Host] (m : CouponModel) (store : List CouponDoc) (u : User)
    (body : PurchaseBody) (now : Nat) (pkg : CouponPackage)
    (hpkg : getCouponPackageById body.packageId = some pkg) (hid : u.id ≠ "") :
    ∃ beneficiary assign,
      (purchaseCoupons m store (some u) body now).response.status = 201 ∧
      (purchaseCoupons m store (some u) body now).store =
        ((List.range (parsedQuantity body.quantity)).foldl
          (purchaseStep m pkg u.id body.partnerId beneficiary assign body.transactionId now)
          (store, [])).1 ∧
      (purchaseCoupons m store (some u) body now).created =
        ((List.range (parsedQuantity body.quantity)).foldl
          (purchaseStep m pkg u.id body.partnerId beneficiary assign body.transactionId now)
          (store, [])).2 := by
  simp only [purchaseCoupons, hpkg, Option.map_some', Option.some_bind, nonEmpty, hid,
    if_false]
  exact ⟨_, _, trivial, rfl, rfl⟩

/-- C18 (as stated, refuted): a purchase of `FOOD_100` with `quantity: 1e21`, a quantity
above 50, creates one coupon, not 50: `parseInt` reads the text `1e+21` of the number up
to the `e`. Likewise the quantity `5e-7`, which is below 1, gives 5, not 1. -/
theorem exponent_quantity_read_by_leading_digit :
    parseInt10 "1e+21" = some 1 ∧
    parsedQuantity (.text "1e+21") = 1 ∧
    (purchaseCoupons exampleModel [] (some donorUser) hugeQuantityPurchase 1000).response.status
      = 201 ∧
    (purchaseCoupons exampleModel [] (some donorUser) hugeQuantityPurchase 1000).created.length
      = 1 ∧
    parsedQuantity (.text "5e-7") = 5 := by
  have hq : parsedQuantity (.text "1e+21") = 1 := by decide
  obtain ⟨b, a, h1, -, h3⟩ := purchaseCoupons_of_valid exampleModel [] donorUser
    hugeQuantityPurchase 1000 food100Package (by decide) (by decide)
  obtain ⟨k1, -, -⟩ := purchaseFold_spec exampleModel [] food100Package donorUser.id
    hugeQuantityPurchase.partnerId b a hugeQuantityPurchase.transactionId 1000
    (parsedQuantity hugeQuantityPurchase.quantity)
  refine ⟨by decide, hq, h1, ?_, by decide⟩
  rw [h3, k1]
  exact hq

/-- C18 (amended): when `packageId` is not the id of a catalog package, `purchaseCoupons`
answers 400 and creates no coupon, whoever calls (the check comes before the
authentication check); for a catalog package and no authenticated user it answers 401 and
creates no coupon; for a catalog package and an authenticated donor it answers 201 having
created exactly `n` coupons, all added to the store, where `n` is the integer
`parseInt(quantity, 10)` reads from the text of the quantity, clamped to 1..50 (0 counts
as 1): `n` is 1 for a quantity that is missing or unparseable; for a quantity whose text
is the decimal digits of an integer (a whole Number of magnitude below 1e21, a string of
digits) `n` is that integer from 1 to 50, 1 below 1 and 50 above 50. -/
theorem purchaseCoupons_spec [Host] (m : CouponModel) (store : List CouponDoc)
    (user : Option User) (body : PurchaseBody) (now : Nat) :
    ((∀ pkg ∈ couponPackages, body.packageId ≠ some pkg.id) →
      (purchaseCoupons m store user body now).response.status = 400 ∧
      (purchaseCoupons m store user body now).created = [] ∧
      (purchaseCoupons m store user body now).store = store) ∧
    ((∃ pkg ∈ couponPackages, body.packageId = some pkg.id) → user = none →
      (purchaseCoupons m store user body now).response.status = 401 ∧
      (purchaseCoupons m store user body now).created = [] ∧
      (purchaseCoupons m store user body now).store = store) ∧
    ((∃ pkg ∈ couponPackages, body.packageId = some pkg.id) →
      (∃ u, user = some u ∧ u.id ≠ "") →
      (purchaseCoupons m store user body now).response.status = 201 ∧
      (purchaseCoupons m store user body now).created.length =
        parsedQuantity body.quantity ∧
      (purchaseCoupons m store user body now).store =
        store ++ (purchaseCoupons m store user body now).created) ∧
    parsedQuantity .missing = 1 ∧
    (∀ s, parseInt10 s = none → parsedQuantity (.text s) = 1) ∧
    (∀ n : ℤ, 1 ≤ n → n ≤ 50 → (parsedQuantity (.text (decimalText n)) : ℤ) = n) ∧
    (∀ n : ℤ, n < 1 → parsedQuantity (.text (decimalText n)) = 1) ∧
    (∀ n : ℤ, 50 < n → parsedQuantity (.text (decimalText n)) = 50) ∧
    (∀ s (n : ℤ), parseInt10 s = some n →
      (parsedQuantity (.text s) : ℤ) = min (max (if n = 0 then 1 else n) 1) 50) := by
  refine ⟨?_, ?_, ?_, rfl, ?_, ?_, ?_, ?_, ?_⟩
  · intro h
    have hn := (getCouponPackageById_eq_none body.packageId).2 h
    simp [purchaseCoupons, hn]
  · rintro ⟨pkg, hp, hid⟩ hu
    cases hf : getCouponPackageById body.packageId with
    | none => exact absurd hid ((getCouponPackageById_eq_none body.packageId).1 hf pkg hp)
    | some p => subst hu; simp [purchaseCoupons, hf]
  · rintro ⟨pkg, hp, hid⟩ ⟨u, hu, hne⟩
    cases hf : getCouponPackageById body.packageId with
    | none => exact absurd hid ((getCouponPackageById_eq_none body.packageId).1 hf pkg hp)
    | some p =>
      subst hu
      obtain ⟨b, a, h1, h2, h3⟩ := purchaseCoupons_of_valid m store u body now p hf hne
      obtain ⟨k1, k2, -⟩ := purchaseFold_spec m store p u.id body.partnerId b a
        body.transactionId now (parsedQuantity body.quantity)
      exact ⟨h1, by rw [h3, k1], by rw [h2, h3, k2]⟩
  · intro s hs
    simp [parsedQuantity, parseIntQuantity, hs]
  · intro n h1 h2
    simp only [parsedQuantity, parseIntQuantity, parseInt10_decimalText]
    split <;> omega
  · intro n h1
    simp only [parsedQuantity, parseIntQuantity, parseInt10_decimalText]
    split <;> omega
  · intro n h1
    simp only [parsedQuantity, parseIntQuantity, parseInt10_decimalText]
    split <;> omega
  · intro s n hs
    simp only [parsedQuantity, parseIntQuantity, hs]
    split <;> omega

theorem purchaseCoupons_spec_witness :
    (purchaseCoupons exampleModel [] (some donorUser) foodPurchase 1000).response.status =
      201 ∧
    (purchaseCoupons exampleModel [] (some donorUser) foodPurchase 1000).created.length =
      parsedQuantity (.text "5") ∧
    parsedQuantity (.text "5") = 5 :=
  have h := (purchaseCoupons_spec exampleModel [] (some donorUser) foodPurchase 1000).2.2.1
    ⟨food100Package, by simp [couponPackages], rfl⟩ ⟨donorUser, rfl, by decide⟩
  ⟨h.1, h.2.1, by decide⟩

/-- C19: for every catalog package, the payload `buildCouponPayloadFromPackage` builds
has `value.amount = pkg.amount`, `value.currency = pkg.currency`, a validity that starts
now, is active and ends exactly `pkg.validityDays` days later (30 days for `FOOD_100`,
60 days for `HEALTH_500`), `usage.maxUses = pkg.maxUses = 1`, `usage.usedCount = 0`,
stage `CREATED` and status `active`. -/
theorem buildCouponPayload_fields [Host] (m : CouponModel) (store : List CouponDoc)
    (pkg : CouponPackage) (hpkg : pkg ∈ couponPackages) (donorId : String)
    (partnerId : Option String) (beneficiary : Beneficiary) (assign : Bool)
    (transactionId : Option String) (i now : Nat) (p : CouponDoc)
    (hp : p = buildCouponPayloadFromPackage m store pkg donorId partnerId beneficiary assign
      transactionId i now) :
    p.value = some { amount := .number pkg.amount, currency := some pkg.currency,
                     percentage := none, isPercentage := false } ∧
    p.startDate = now ∧
    p.endDate = p.startDate + pkg.validityDays * MS_PER_DAY ∧
    (pkg.id = "FOOD_100" → p.endDate = p.startDate + 30 * (24 * 60 * 60 * 1000)) ∧
    (pkg.id = "HEALTH_500" → p.endDate = p.startDate + 60 * (24 * 60 * 60 * 1000)) ∧
    p.isActive = true ∧
    p.maxUses = pkg.maxUses ∧ p.maxUses = 1 ∧
    p.usedCount = 0 ∧
    p.stage = .CREATED ∧
    p.status = "active" := by
  subst hp
  simp only [couponPackages, List.mem_cons, List.mem_singleton, List.not_mem_nil,
    or_false] at hpkg
  rcases hpkg with rfl | rfl
  · simp [buildCouponPayloadFromPackage, food100Package, orDefault, orDefaultString,
      MS_PER_DAY]
  · simp [buildCouponPayloadFromPackage, health500Package, orDefault, orDefaultString,
      MS_PER_DAY]

theorem buildCouponPayload_fields_witness :
    health500Package ∈ couponPackages ∧
    (buildCouponPayloadFromPackage exampleModel [] health500Package "u1" none
      ⟨none, none, none⟩ false none 0 1000).value =
      some { amount := .number 500, currency := some "INR", percentage := none,
             isPercentage := false } ∧
    (buildCouponPayloadFromPackage exampleModel [] health500Package "u1" none
      ⟨none, none, none⟩ false none 0 1000).stage = .CREATED ∧
    (buildCouponPayloadFromPackage exampleModel [] health500Package "u1" none
      ⟨none, none, none⟩ false none 0 1000).usedCount = 0 :=
  have hm : health500Package ∈ couponPackages := by simp [couponPackages]
  have h := buildCouponPayload_fields exampleModel [] health500Package hm "u1" none
    ⟨none, none, none⟩ false none 0 1000 _ rfl
  ⟨hm, h.1, h.2.2.2.2.2.2.2.2.2.1, h.2.2.2.2.2.2.2.2.1⟩

/-- Two lists that end in the same separator followed by separator-free tails have the
same tail. -/
theorem tail_eq_of_append_cons {α : Type} (a : α) (s1 s2 l1 l2 : List α)
    (h1 : a ∉ s1) (h2 : a ∉ s2) (h : l1 ++ a :: s1 = l2 ++ a :: s2) : s1 = s2 := by
  have key : ∀ (x1 x2 z1 z2 : List α), a ∉ x1 → a ∉ x2 →
      x1 ++ a :: z1 = x2 ++ a :: z2 → x1 = x2 := by
    intro x1
    induction x1 with
    | nil =>
      intro x2 z1 z2 _ hx2 he
      cases x2 with
      | nil => rfl
      | cons b x2 =>
        simp only [List.nil_append, List.cons_append, List.cons.injEq] at he
        exact absurd (by simp [he.1]) hx2
    | cons c x1 ih =>
      intro x2 z1 z2 hx1 hx2 he
      cases x2 with
      | nil =>
        simp only [List.nil_append, List.cons_append, List.cons.injEq] at he
        exact absurd (by simp [he.1]) hx1
      | cons b x2 =>
        simp only [List.cons_append, List.cons.injEq] at he
        have hx1b : a ∉ x1 := fun hm => hx1 (List.mem_cons_of_mem _ hm)
        have hx2b : a ∉ x2 := fun hm => hx2 (List.mem_cons_of_mem _ hm)
        rw [he.1, ih x2 z1 z2 hx1b hx2b he.2]
  have hr := congrArg List.reverse h
  simp only [List.reverse_append, List.reverse_cons, List.append_assoc,
    List.singleton_append] at hr
  exact List.reverse_injective
    (key s1.reverse s2.reverse l1.reverse l2.reverse (by simpa using h1) (by simpa using h2) hr)

/-- Decimal numerals of 1 to 50 hold no dash. -/
theorem sequence_numeral_no_dash : ∀ i < 50, '-' ∉ (toString (i + 1)).data := by decide

/-- Decimal numerals of 1 to 50 are pairwise different. -/
theorem sequence_numeral_injective :
    ∀ i < 50, ∀ j < 50, toString (i + 1) = toString (j + 1) → i = j := by decide

/-- Transaction ids built for different sequence indexes differ, whatever the codes. -/
theorem transactionId_ne (base c1 c2 : String) (i j : Nat) (hi : i < 50) (hj : j < 50)
    (hij : i ≠ j) :
    base ++ "-" ++ c1 ++ "-" ++ toString (i + 1) ≠
      base ++ "-" ++ c2 ++ "-" ++ toString (j + 1) := by
  intro h
  have hd := congrArg String.data h
  simp only [String.data_append] at hd
  have hd2 : (base.data ++ "-".data ++ c1.data) ++ '-' :: (toString (i + 1)).data =
      (base.data ++ "-".data ++ c2.data) ++ '-' :: (toString (j + 1)).data := by
    simpa using hd
  have ht := tail_eq_of_append_cons '-' _ _ _ _ (sequence_numeral_no_dash i hi)
    (sequence_numeral_no_dash j hj) hd2
  exact hij (sequence_numeral_injective i hi j hj (String.ext ht))

theorem catalog_id_ne_empty (pkg : CouponPackage) (h : pkg ∈ couponPackages) :
    orDefaultString pkg.id "CUSTOM" = pkg.id := by
  simp only [couponPackages, List.mem_cons, List.mem_singleton, List.not_mem_nil,
    or_false] at h
  rcases h with rfl | rfl <;> simp [orDefaultString, food100Package, health500Package]

/-- C20: when `generateUniqueCode` always returns a code that no stored coupon holds, the
coupons created by one `purchaseCoupons` call have pairwise distinct codes, none of them
held by a coupon stored before the call, and pairwise distinct
`paymentReferences.transactionId` values, the `k`-th created coupon (counting from 0)
carrying `baseTxnId-code-(k+1)` where `baseTxnId` is the supplied transaction id or
`COUPON-<packageId>`. -/
theorem purchase_codes_and_transactionIds_distinct [Host] (m : CouponModel)
    (hgen : ∀ pre st, m.generateUniqueCode pre st ∉ st.map (fun c => c.code))
    (store : List CouponDoc) (u : User) (hid : u.id ≠ "") (body : PurchaseBody) (now : Nat)
    (pkg : CouponPackage) (hpkg : getCouponPackageById body.packageId = some pkg) :
    ((purchaseCoupons m store (some u) body now).created.map (fun c => c.code)).Nodup ∧
    (∀ c ∈ (purchaseCoupons m store (some u) body now).created,
      c.code ∉ store.map (fun c => c.code)) ∧
    ((purchaseCoupons m store (some u) body now).created.map
      (fun c => c.transactionId)).Nodup ∧
    ∀ k c, (purchaseCoupons m store (some u) body now).created[k]? = some c →
      c.transactionId =
        (nonEmpty body.transactionId).getD ("COUPON-" ++ pkg.id) ++ "-" ++ c.code ++ "-" ++
          toString (k + 1) := by
  obtain ⟨b, a, -, -, h3⟩ := purchaseCoupons_of_valid m store u body now pkg hpkg hid
  obtain ⟨k1, -, k3⟩ := purchaseFold_spec m store pkg u.id body.partnerId b a
    body.transactionId now (parsedQuantity body.quantity)
  have hn50 := parsedQuantity_le body.quantity
  have hcat := catalog_id_ne_empty pkg (getCouponPackageById_mem _ _ hpkg)
  rw [h3]
  generalize (List.range (parsedQuantity body.quantity)).foldl
    (purchaseStep m pkg u.id body.partnerId b a body.transactionId now) (store, []) = r
    at k1 k3
  generalize parsedQuantity body.quantity = n at k1 k3 hn50
  -- the code and the transaction id of the k-th created coupon
  have hk : ∀ k c, r.2[k]? = some c → k < n ∧
      c.code ∉ (store ++ r.2.take k).map (fun c => c.code) ∧
      c.transactionId =
        (nonEmpty body.transactionId).getD ("COUPON-" ++ pkg.id) ++ "-" ++ c.code ++ "-" ++
          toString (k + 1) := by
    intro k c hc
    have hlt : k < n := by
      rw [← k1]
      exact (List.getElem?_eq_some_iff.1 hc).1
    have hb := k3 k hlt
    rw [hc] at hb
    have hce := Option.some.inj hb
    refine ⟨hlt, ?_, ?_⟩
    · rw [hce]
      exact hgen _ _
    · rw [hce]
      simp [buildCouponPayloadFromPackage, hcat]
  have hmem : ∀ i j ci, i < j → r.2[i]? = some ci → ci ∈ r.2.take j := by
    intro i j ci hij hci
    have : (r.2.take j)[i]? = some ci := by
      rw [List.getElem?_take_of_lt hij]
      exact hci
    exact List.getElem?_mem this
  refine ⟨?_, ?_, ?_, fun k c hc => (hk k c hc).2.2⟩
  · rw [List.nodup_iff_getElem?_ne_getElem?]
    intro i j hij hj heq
    rw [List.length_map] at hj
    have hi : i < r.2.length := by omega
    rw [List.getElem?_map, List.getElem?_map, List.getElem?_eq_getElem hi,
      List.getElem?_eq_getElem hj] at heq
    simp only [Option.map_some', Option.some.injEq] at heq
    have hcj := (hk j r.2[j] (List.getElem?_eq_getElem hj)).2.1
    apply hcj
    rw [← heq]
    exact List.mem_map_of_mem _
      (List.mem_append_right _ (hmem i j _ hij (List.getElem?_eq_getElem hi)))
  · intro c hc
    obtain ⟨k, hk2⟩ := List.getElem?_of_mem hc
    have := (hk k c hk2).2.1
    intro hm
    apply this
    rw [List.map_append]
    exact List.mem_append_left _ hm
  · rw [List.nodup_iff_getElem?_ne_getElem?]
    intro i j hij hj heq
    rw [List.length_map] at hj
    have hi : i < r.2.length := by omega
    rw [List.getElem?_map, List.getElem?_map, List.getElem?_eq_getElem hi,
      List.getElem?_eq_getElem hj] at heq
    simp only [Option.map_some', Option.some.injEq] at heq
    have hti := (hk i r.2[i] (List.getElem?_eq_getElem hi)).2.2
    have htj := (hk j r.2[j] (List.getElem?_eq_getElem hj)).2.2
    rw [hti, htj] at heq
    exact transactionId_ne _ _ _ i j (by omega) (by omega) (by omega) heq

theorem purchase_codes_and_transactionIds_distinct_witness :
    (∀ pre st, exampleModel.generateUniqueCode pre st ∉ st.map (fun c => c.code)) ∧
    donorUser.id ≠ "" ∧
    getCouponPackageById foodPurchase.packageId = some food100Package ∧
    ((purchaseCoupons exampleModel [] (some donorUser) foodPurchase 1000).created.map
      (fun c => c.code)).Nodup ∧
    ((purchaseCoupons exampleModel [] (some donorUser) foodPurchase 1000).created.map
      (fun c => c.transactionId)).Nodup := by
  have hgen : ∀ pre st, exampleModel.generateUniqueCode pre st ∉
      st.map (fun c => c.code) := by
    intro pre st hm
    obtain ⟨c, hc, hcode⟩ := List.mem_map.1 hm
    have hle : ∀ (l : List CouponDoc), ∀ x ∈ l,
        x.code.length ≤ (l.map (fun c => c.code.length)).foldr max 0 := by
      intro l
      induction l with
      | nil => intro x hx; simp at hx
      | cons y ys ih =>
        intro x hx
        rcases List.mem_cons.1 hx with rfl | hx
        · simp
        · exact le_trans (ih x hx) (by simp)
    have h1 := hle st c hc
    have h2 := congrArg String.length hcode
    simp only [exampleModel, String.length_append] at h2
    have h3 : (String.mk (List.replicate
        ((st.map (fun c => c.code.length)).foldr max 0 + 1) 'X')).length =
        (st.map (fun c => c.code.length)).foldr max 0 + 1 :=
      List.length_replicate _ _
    omega
  have hid : donorUser.id ≠ "" := by decide
  have hpkg : getCouponPackageById foodPurchase.packageId = some food100Package := by
    decide
  have h := purchase_codes_and_transactionIds_distinct exampleModel hgen []
    donorUser hid foodPurchase 1000 food100Package hpkg
  exact ⟨hgen, hid, hpkg, h.1, h.2.2.1⟩

/-! ### Coupon lifecycle -/

/-- C11: in `redeemCoupon`, for a percentage-based coupon with percentage `p` the
redemption amount is `purchaseAmount * p / 100` when a `purchaseAmount > 0` is supplied,
and 0 when none or a non-positive one is supplied; for a coupon that is not
percentage-based it is `getCouponMonetaryValue(coupon)` whatever `purchaseAmount` is. -/
theorem computeRedemptionAmount_spec (coupon : Coupon) (v : CouponValue)
    (hv : coupon.value = some v) :
    (∀ p a, v.isPercentageBased = true → v.percentage = some p → 0 < a →
      computeRedemptionAmount coupon (some a) = .ok (some (a * p / 100))) ∧
    (v.isPercentageBased = true → computeRedemptionAmount coupon none = .ok (some 0)) ∧
    (∀ a, v.isPercentageBased = true → a ≤ 0 →
      computeRedemptionAmount coupon (some a) = .ok (some 0)) ∧
    (∀ pa, v.isPercentageBased = false →
      computeRedemptionAmount coupon pa = .ok (some (getCouponMonetaryValue (some coupon)))) := by
  refine ⟨?_, ?_, ?_, ?_⟩
  · intro p a hb hp ha
    simp [computeRedemptionAmount, hv, hb, hp, ha]
  · intro hb
    simp [computeRedemptionAmount, hv, hb]
  · intro a hb ha
    have : ¬ 0 < a := not_lt.2 ha
    simp [computeRedemptionAmount, hv, hb, this]
  · intro pa hb
    simp [computeRedemptionAmount, hv, hb]

theorem computeRedemptionAmount_spec_witness :
    percentAndAmountCoupon.value =
      some { amount := .number 250, currency := some "INR", percentage := some 10,
             isPercentage := false } ∧
    computeRedemptionAmount percentAndAmountCoupon (some 200) = .ok (some (200 * 10 / 100)) ∧
    computeRedemptionAmount percentAndAmountCoupon none = .ok (some 0) :=
  have h := computeRedemptionAmount_spec percentAndAmountCoupon _ rfl
  have hb : CouponValue.isPercentageBased
      { amount := .number 250, currency := some "INR", percentage := some 10,
        isPercentage := false } = true := by
    simp [CouponValue.isPercentageBased]
  ⟨rfl, h.1 10 200 hb rfl (by norm_num), h.2.1 hb⟩

theorem nonEmpty_some (x : String) (h : x ≠ "") : nonEmpty (some x) = some x := by
  simp [nonEmpty, h]

/-- C15: `assignCoupon` on an existing coupon answers 200 exactly when the stage is
`CREATED` or `ASSIGNED` and the caller is an admin or the issuer; it answers 400 for any
other stage and 403 when the stage is allowed but the caller is neither, leaving the
coupon unchanged in both cases; on success the stage is `ASSIGNED` and each supplied
beneficiary name, phone and email is stored trimmed, the email lower-cased. -/
theorem assignCoupon_spec [Host] (c : CouponDoc) (user : User) (body : AssignBody) (now : Nat) :
    ((assignCoupon (some c) user body now).1.status = 200 ↔
      (c.stage = .CREATED ∨ c.stage = .ASSIGNED) ∧
        (user.role = "admin" ∨ c.issuer = user.id)) ∧
    (¬ (c.stage = .CREATED ∨ c.stage = .ASSIGNED) →
      (assignCoupon (some c) user body now).1.status = 400 ∧
      (assignCoupon (some c) user body now).2 = some c) ∧
    ((c.stage = .CREATED ∨ c.stage = .ASSIGNED) →
      ¬ (user.role = "admin" ∨ c.issuer = user.id) →
      (assignCoupon (some c) user body now).1.status = 403 ∧
      (assignCoupon (some c) user body now).2 = some c) ∧
    ((c.stage = .CREATED ∨ c.stage = .ASSIGNED) →
      (user.role = "admin" ∨ c.issuer = user.id) →
      ∃ c2, (assignCoupon (some c) user body now).2 = some c2 ∧
        c2.stage = .ASSIGNED ∧
        (∀ n, body.beneficiaryName = some n → n ≠ "" →
          c2.beneficiaryName = some (jsTrim n) ∧
          c2.beneficiary.bind (fun b => b.name) = some (jsTrim n)) ∧
        (∀ p, body.beneficiaryPhone = some p → p ≠ "" →
          c2.beneficiaryPhone = some (jsTrim p) ∧
          c2.beneficiary.bind (fun b => b.phone) = some (jsTrim p)) ∧
        (∀ e, body.beneficiaryEmail = some e → e ≠ "" →
          c2.beneficiary.bind (fun b => b.email) = some (jsTrim (jsToLowerCase e)))) := by
  by_cases hs : c.stage = .CREATED ∨ c.stage = .ASSIGNED
  · by_cases hu : user.role = "admin" ∨ c.issuer = user.id
    · have hu2 : ¬ (user.role ≠ "admin" ∧ c.issuer ≠ user.id) := by
        rcases hu with h | h <;> simp [h]
      refine ⟨by simp [assignCoupon, hs, hu, hu2], fun h => absurd hs h,
        fun _ h => absurd hu h, fun _ _ => ?_⟩
      have hres : (assignCoupon (some c) user body now).2 =
          some ((applyAssignment c user body now).recordStageChange .ASSIGNED user.id
            "Assigned to beneficiary" now) := by
        simp only [assignCoupon, hs, hu2, not_true_eq_false, if_false]
      refine ⟨_, hres, rfl, ?_, ?_, ?_⟩
      · intro n hn hne
        simp only [applyAssignment, hn, nonEmpty_some n hne, CouponDoc.recordStageChange]
        cases nonEmpty body.beneficiaryPhone <;> cases nonEmpty body.beneficiaryEmail <;>
          cases nonEmpty body.partnerId <;> simp
      · intro p hp hne
        simp only [applyAssignment, hp, nonEmpty_some p hne, CouponDoc.recordStageChange]
        cases nonEmpty body.beneficiaryName <;> cases nonEmpty body.beneficiaryEmail <;>
          cases nonEmpty body.partnerId <;> simp
      · intro e he hne
        simp only [applyAssignment, he, nonEmpty_some e hne, CouponDoc.recordStageChange]
        cases nonEmpty body.beneficiaryName <;> cases nonEmpty body.beneficiaryPhone <;>
          cases nonEmpty body.partnerId <;> simp
    · have hu2 : user.role ≠ "admin" ∧ c.issuer ≠ user.id := by
        constructor
        · exact fun h => hu (Or.inl h)
        · exact fun h => hu (Or.inr h)
      refine ⟨by simp [assignCoupon, hs, hu, hu2], fun h => absurd hs h, fun _ _ => ?_,
        fun _ h => absurd h hu⟩
      simp [assignCoupon, hs, hu2]
  · refine ⟨by simp [assignCoupon, hs], fun _ => ?_, fun h => absurd h hs,
      fun h => absurd h hs⟩
    simp [assignCoupon, hs]

theorem assignCoupon_spec_witness :
    (createdHealthCoupon.stage = .CREATED ∨ createdHealthCoupon.stage = .ASSIGNED) ∧
    (adminUser.role = "admin" ∨ createdHealthCoupon.issuer = adminUser.id) ∧
    (assignCoupon (some createdHealthCoupon) adminUser
      ⟨some " Asha ", none, some "Asha@Example.org", none⟩ 2000).1.status = 200 :=
  ⟨Or.inl rfl, Or.inl rfl,
    (assignCoupon_spec createdHealthCoupon adminUser
      ⟨some " Asha ", none, some "Asha@Example.org", none⟩ 2000).1.2
      ⟨Or.inl rfl, Or.inl rfl⟩⟩

/-- C16: `settleCoupon` on an existing coupon answers 400 and leaves the coupon
unchanged unless its stage is `REDEEMED_PENDING_SETTLEMENT`; otherwise it answers 200,
`settlement.payableAmount` is the supplied amount when one is supplied (0 included) and
else the amount of the last entry of `redemptions`, `settlement.approvedBy` is the
caller and the stage is `SETTLED`. -/
theorem settleCoupon_spec (c : CouponDoc) (user : User) (body : SettleBody) (now : Nat) :
    (c.stage ≠ .REDEEMED_PENDING_SETTLEMENT →
      (settleCoupon (some c) user body now).1.status = 400 ∧
      (settleCoupon (some c) user body now).2 = some c) ∧
    (c.stage = .REDEEMED_PENDING_SETTLEMENT →
      ∃ c2 s, (settleCoupon (some c) user body now).1.status = 200 ∧
        (settleCoupon (some c) user body now).2 = some c2 ∧
        c2.settlement = some s ∧
        c2.stage = .SETTLED ∧
        s.approvedBy = user.id ∧
        (∀ a, body.amount = some a → s.payableAmount = a) ∧
        (∀ r, body.amount = none → c.redemptions.getLast? = some r →
          s.payableAmount = r.amount)) := by
  constructor
  · intro h
    simp [settleCoupon, h]
  · intro h
    have hres : (settleCoupon (some c) user body now).2 =
        some (applySettlement c user body now) := by
      simp [settleCoupon, h]
    refine ⟨_, _, by simp [settleCoupon, h], hres, rfl, rfl, rfl, ?_, ?_⟩
    · intro a ha
      simp [ha]
    · intro r ha hr
      simp [ha, hr]

theorem settleCoupon_spec_witness :
    (settleCoupon (some createdHealthCoupon) adminUser ⟨some 0, none, none⟩ 3000).1.status =
      400 ∧
    (settleCoupon (some createdHealthCoupon) adminUser ⟨some 0, none, none⟩ 3000).2 =
      some createdHealthCoupon :=
  (settleCoupon_spec createdHealthCoupon adminUser ⟨some 0, none, none⟩ 3000).1
    (by simp [createdHealthCoupon, buildCouponPayloadFromPackage])

/-- C17: `rejectCoupon` on an existing coupon answers 400 exactly when the stage is
`SETTLED`, leaving the coupon unchanged; otherwise it answers 200, sets status
`cancelled`, stores the reason, and sets the stage to `CANCELLED` when `markAs` is
`'CANCELLED'` and to `REJECTED` for every other `markAs`; the rejected coupon is not
redeemable at any time, so every later `redeemCoupon` request on it answers 400 and
changes nothing. -/
theorem rejectCoupon_spec [Host] (c : CouponDoc) (user : User) (body : RejectBody) (now : Nat) :
    ((rejectCoupon (some c) user body now).1.status = 400 ↔ c.stage = .SETTLED) ∧
    (c.stage = .SETTLED → (rejectCoupon (some c) user body now).2 = some c) ∧
    (c.stage ≠ .SETTLED →
      ∃ c2, (rejectCoupon (some c) user body now).1.status = 200 ∧
        (rejectCoupon (some c) user body now).2 = some c2 ∧
        c2.status = "cancelled" ∧
        (∀ r, body.reason = some r → r ≠ "" → c2.rejectionReason = some r) ∧
        (body.markAs = some "CANCELLED" → c2.stage = .CANCELLED) ∧
        (body.markAs ≠ some "CANCELLED" → c2.stage = .REJECTED) ∧
        (∀ t, c2.isRedeemable t = false) ∧
        (∀ partners wallets caller request t,
          (redeemCoupon (some c2) partners wallets caller request t).response.status = 400 ∧
          (redeemCoupon (some c2) partners wallets caller request t).coupon = some c2 ∧
          (redeemCoupon (some c2) partners wallets caller request t).partners = partners ∧
          (redeemCoupon (some c2) partners wallets caller request t).wallets = wallets)) := by
  by_cases hs : c.stage = .SETTLED
  · refine ⟨by simp [rejectCoupon, hs], fun _ => by simp [rejectCoupon, hs],
      fun h => absurd hs h⟩
  · refine ⟨by simp [rejectCoupon, hs], fun h => absurd h hs, fun _ => ?_⟩
    have hres : (rejectCoupon (some c) user body now).2 =
        some (applyRejection c user body now) := by
      simp [rejectCoupon, hs]
    have hred : ∀ t, (applyRejection c user body now).isRedeemable t = false := by
      intro t
      simp [CouponDoc.isRedeemable, applyRejection, CouponDoc.recordStageChange]
    refine ⟨_, by simp [rejectCoupon, hs], hres, rfl, ?_, ?_, ?_, hred, ?_⟩
    · intro r hr hne
      simp [applyRejection, CouponDoc.recordStageChange, hr, nonEmpty_some r hne]
    · intro hm
      simp [applyRejection, CouponDoc.recordStageChange, hm]
    · intro hm
      have : ¬ body.markAs.getD "REJECTED" = "CANCELLED" := by
        cases hb : body.markAs with
        | none => simp
        | some x =>
          rw [hb] at hm
          simpa using hm
      simp [applyRejection, CouponDoc.recordStageChange, this]
    · intro partners wallets caller request t
      simp [redeemCoupon, hred t]

theorem rejectCoupon_spec_witness :
    createdHealthCoupon.stage ≠ .SETTLED ∧
    ¬ (rejectCoupon (some createdHealthCoupon) adminUser ⟨some "fraud", some "CANCELLED"⟩
      5000).1.status = 400 :=
  have h0 : createdHealthCoupon.stage ≠ .SETTLED := by decide
  ⟨h0, fun h => h0 ((rejectCoupon_spec createdHealthCoupon adminUser
    ⟨some "fraud", some "CANCELLED"⟩ 5000).1.1 h)⟩

/-! ### Redemption handler -/

/-- The two ways a redeem request on an existing coupon can go: refused with the coupon
untouched, or past every check with the redemption recorded by `redeem`. -/
theorem redeemCoupon_cases [Host] (c : CouponDoc) (partners : List Partner) (wallets : List Wallet)
    (user : User) (body : RedeemBody) (now : Nat) :
    ((redeemCoupon (some c) partners wallets user body now).coupon = some c ∧
      (redeemCoupon (some c) partners wallets user body now).response.status ≠ 200 ∧
      (redeemCoupon (some c) partners wallets user body now).partners = partners ∧
      (redeemCoupon (some c) partners wallets user body now).wallets = wallets) ∨
    (c.isRedeemable now = true ∧ partnerCheckFails c partners user = false ∧
      todayRedemptions c now < c.maxRedemptionsPerDay ∧
      ∃ a, computeRedemptionAmount c.toCoupon body.purchaseAmount = .ok (some a) ∧
        (redeemCoupon (some c) partners wallets user body now).coupon =
          some (c.redeem (redemptionData c partners user body now a))) := by
  by_cases h1 : c.isRedeemable now = true
  · by_cases h2 : partnerCheckFails c partners user = true
    · left
      simp [redeemCoupon, h1, h2]
    · by_cases h3 : todayRedemptions c now ≥ c.maxRedemptionsPerDay
      · left
        simp [redeemCoupon, h1, h2, h3]
      · cases h4 : computeRedemptionAmount c.toCoupon body.purchaseAmount with
        | error e =>
          left
          simp [redeemCoupon, h1, h2, h3, h4, redeemFailure]
        | ok r =>
          cases r with
          | none =>
            left
            simp [redeemCoupon, h1, h2, h3, h4, redeemFailure]
          | some a =>
            right
            have h2f : partnerCheckFails c partners user = false := by simpa using h2
            refine ⟨h1, h2f, by omega, a, rfl, ?_⟩
            simp only [redeemCoupon, h1, h2f, h3, h4, not_true_eq_false, if_false,
              Bool.false_eq_true]
            repeat' split
            all_goals rfl
  · left
    simp [redeemCoupon, h1]

theorem applyAssignment_frame [Host] (c : CouponDoc) (user : User) (body : AssignBody) (now : Nat) :
    (applyAssignment c user body now).isUnlimited = c.isUnlimited ∧
    (applyAssignment c user body now).usedCount = c.usedCount ∧
    (applyAssignment c user body now).maxUses = c.maxUses ∧
    (applyAssignment c user body now).stage = c.stage ∧
    (applyAssignment c user body now).stageHistory = c.stageHistory := by
  unfold applyAssignment
  cases nonEmpty body.beneficiaryName <;> cases nonEmpty body.beneficiaryPhone <;>
    cases nonEmpty body.beneficiaryEmail <;> cases nonEmpty body.partnerId <;>
    exact ⟨rfl, rfl, rfl, rfl, rfl⟩

/-- An assign request leaves the coupon as it was, or, from stage `CREATED` or
`ASSIGNED`, stores the assigned coupon. -/
theorem assignCoupon_result [Host] (c : CouponDoc) (user : User) (body : AssignBody) (now : Nat) :
    (assignCoupon (some c) user body now).2 = some c ∨
    ((c.stage = .CREATED ∨ c.stage = .ASSIGNED) ∧
      (assignCoupon (some c) user body now).2 =
        some ((applyAssignment c user body now).recordStageChange .ASSIGNED user.id
          "Assigned to beneficiary" now)) := by
  by_cases hs : c.stage = .CREATED ∨ c.stage = .ASSIGNED
  · by_cases hu : user.role ≠ "admin" ∧ c.issuer ≠ user.id
    · left
      simp [assignCoupon, hs, hu]
    · right
      exact ⟨hs, by simp only [assignCoupon, hs, hu, not_true_eq_false, if_false]⟩
  · left
    simp [assignCoupon, hs]

/-- A settle request leaves the coupon as it was, or, from stage
`REDEEMED_PENDING_SETTLEMENT`, stores the settled coupon. -/
theorem settleCoupon_result (c : CouponDoc) (user : User) (body : SettleBody) (now : Nat) :
    (settleCoupon (some c) user body now).2 = some c ∨
    (c.stage = .REDEEMED_PENDING_SETTLEMENT ∧
      (settleCoupon (some c) user body now).2 = some (applySettlement c user body now)) := by
  by_cases hs : c.stage = .REDEEMED_PENDING_SETTLEMENT
  · right
    exact ⟨hs, by simp [settleCoupon, hs]⟩
  · left
    simp [settleCoupon, hs]

/-- A reject request leaves the coupon as it was, or, from a stage other than
`SETTLED`, stores the rejected coupon. -/
theorem rejectCoupon_result (c : CouponDoc) (user : User) (body : RejectBody) (now : Nat) :
    (rejectCoupon (some c) user body now).2 = some c ∨
    (c.stage ≠ .SETTLED ∧
      (rejectCoupon (some c) user body now).2 = some (applyRejection c user body now)) := by
  by_cases hs : c.stage = .SETTLED
  · left
    simp [rejectCoupon, hs]
  · right
    exact ⟨hs, by simp [rejectCoupon, hs]⟩

/-- Every coupon a purchase creates is a payload of `buildCouponPayloadFromPackage` with
an id from the store. -/
theorem purchaseCoupons_created_built [Host] (m : CouponModel) (store : List CouponDoc)
    (user : Option User) (body : PurchaseBody) (now : Nat) :
    ∀ c ∈ (purchaseCoupons m store user body now).created,
      ∃ st pkg donorId partnerId beneficiary assign transactionId i,
        c = { buildCouponPayloadFromPackage m st pkg donorId partnerId beneficiary assign
                transactionId i now with id := m.newId st } := by
  intro c hc
  cases hpk : getCouponPackageById body.packageId with
  | none => simp [purchaseCoupons, hpk] at hc
  | some pkg =>
    cases user with
    | none => simp [purchaseCoupons, hpk] at hc
    | some u =>
      by_cases hid : u.id = ""
      · simp [purchaseCoupons, hpk, nonEmpty, hid] at hc
      · obtain ⟨b, a, -, -, h3⟩ := purchaseCoupons_of_valid m store u body now pkg hpk hid
        obtain ⟨k1, -, k3⟩ := purchaseFold_spec m store pkg u.id body.partnerId b a
          body.transactionId now (parsedQuantity body.quantity)
        rw [h3] at hc
        obtain ⟨k, hk⟩ := List.getElem?_of_mem hc
        have hlt : k < parsedQuantity body.quantity := by
          rw [← k1]
          exact (List.getElem?_eq_some_iff.1 hk).1
        have hb := k3 k hlt
        rw [hk] at hb
        exact ⟨_, _, _, _, _, _, _, _, Option.some.inj hb⟩

/-- The refusals of a redeem request on an existing coupon, in the order of the
checks. -/
theorem redeemCoupon_refusals [Host] (c : CouponDoc) (partners : List Partner)
    (wallets : List Wallet) (user : User) (body : RedeemBody) (now : Nat) :
    (c.isRedeemable now = false →
      (redeemCoupon (some c) partners wallets user body now).response =
        { status := 400, success := false, message := "Coupon is not valid or has expired" } ∧
      (redeemCoupon (some c) partners wallets user body now).coupon = some c) ∧
    (c.isRedeemable now = true → partnerCheckFails c partners user = true →
      (redeemCoupon (some c) partners wallets user body now).response =
        { status := 403, success := false,
          message := "You are not authorized to redeem this coupon" } ∧
      (redeemCoupon (some c) partners wallets user body now).coupon = some c) ∧
    (c.isRedeemable now = true → partnerCheckFails c partners user = false →
      todayRedemptions c now ≥ c.maxRedemptionsPerDay →
      (redeemCoupon (some c) partners wallets user body now).response =
        { status := 400, success := false,
          message := "Daily redemption limit reached for this coupon" } ∧
      (redeemCoupon (some c) partners wallets user body now).coupon = some c) := by
  refine ⟨?_, ?_, ?_⟩
  · intro h
    simp [redeemCoupon, h]
  · intro h1 h2
    simp [redeemCoupon, h1, h2]
  · intro h1 h2 h3
    simp [redeemCoupon, h1, h2, h3]

/-- A redeem request answered with 200 has recorded the redemption through `redeem`. -/
theorem redeemCoupon_success [Host] (c : CouponDoc) (partners : List Partner)
    (wallets : List Wallet) (user : User) (body : RedeemBody) (now : Nat)
    (h : (redeemCoupon (some c) partners wallets user body now).response.status = 200) :
    ∃ a, computeRedemptionAmount c.toCoupon body.purchaseAmount = .ok (some a) ∧
      (redeemCoupon (some c) partners wallets user body now).coupon =
        some (c.redeem (redemptionData c partners user body now a)) := by
  rcases redeemCoupon_cases c partners wallets user body now with
    ⟨-, h2, -⟩ | ⟨-, -, -, a, h4, h5⟩
  · exact absurd h h2
  · exact ⟨a, h4, h5⟩

/-- A redeem request that passes every check on a coupon with no partner to book on
answers 200 and stores the redeemed coupon. -/
theorem redeemCoupon_no_partner [Host] (c : CouponDoc) (partners : List Partner)
    (wallets : List Wallet) (user : User) (body : RedeemBody) (now : Nat) (a : ℚ)
    (hr : c.isRedeemable now = true) (hp : partnerCheckFails c partners user = false)
    (ht : todayRedemptions c now < c.maxRedemptionsPerDay)
    (ha : computeRedemptionAmount c.toCoupon body.purchaseAmount = .ok (some a))
    (hf : finalPartnerId c partners body = none) :
    redeemCoupon (some c) partners wallets user body now =
      { response := { status := 200, success := true,
                      message := "Coupon redeemed successfully" },
        coupon := some (c.redeem (redemptionData c partners user body now a)),
        partners := partners, wallets := wallets } := by
  have ht2 : ¬ todayRedemptions c now ≥ c.maxRedemptionsPerDay := by omega
  simp only [redeemCoupon, hr, hp, ht2, ha, hf, not_true_eq_false, if_false,
    Bool.false_eq_true, Option.none_bind]

theorem healthCoupon_amount (c : CouponDoc)
    (h : c.value = some { amount := .number 500, currency := some "INR",
                          percentage := none, isPercentage := false }) (pa : Option ℚ) :
    computeRedemptionAmount c.toCoupon pa = .ok (some 500) := by
  simp [computeRedemptionAmount, h, getCouponMonetaryValue, CouponValue.isPercentageBased,
    JsValue.truthy, JsValue.asNumber]

theorem createdHealthCoupon_redeem :
    redeemCoupon (some createdHealthCoupon) [] [] donorUser plainRedeem 2000 =
      { response := { status := 200, success := true,
                      message := "Coupon redeemed successfully" },
        coupon := some (createdHealthCoupon.redeem
          (redemptionData createdHealthCoupon [] donorUser plainRedeem 2000 500)),
        partners := [], wallets := [] } := by
  apply redeemCoupon_no_partner
  · simp [CouponDoc.isRedeemable, createdHealthCoupon, buildCouponPayloadFromPackage,
      health500Package, orDefault, MS_PER_DAY]
  · simp [partnerCheckFails, donorUser]
  · simp [todayRedemptions, createdHealthCoupon, buildCouponPayloadFromPackage,
      health500Package, orDefault]
  · exact healthCoupon_amount _ rfl _
  · simp [finalPartnerId, plainRedeem, nonEmpty]

theorem twoUseCoupon_redeem :
    redeemCoupon (some twoUseCoupon) [] [] donorUser plainRedeem 2000 =
      { response := { status := 200, success := true,
                      message := "Coupon redeemed successfully" },
        coupon := some (twoUseCoupon.redeem
          (redemptionData twoUseCoupon [] donorUser plainRedeem 2000 500)),
        partners := [], wallets := [] } := by
  apply redeemCoupon_no_partner
  · simp [CouponDoc.isRedeemable, twoUseCoupon, createdHealthCoupon,
      buildCouponPayloadFromPackage, health500Package, orDefault, MS_PER_DAY]
  · simp [partnerCheckFails, donorUser]
  · simp [todayRedemptions, twoUseCoupon, createdHealthCoupon,
      buildCouponPayloadFromPackage, health500Package, orDefault]
  · exact healthCoupon_amount _ rfl _
  · simp [finalPartnerId, plainRedeem, nonEmpty]

theorem settledTwoUseCoupon_redeem :
    redeemCoupon (some settledTwoUseCoupon) [] [] donorUser plainRedeem (2000 + MS_PER_DAY) =
      { response := { status := 200, success := true,
                      message := "Coupon redeemed successfully" },
        coupon := some (settledTwoUseCoupon.redeem
          (redemptionData settledTwoUseCoupon [] donorUser plainRedeem
            (2000 + MS_PER_DAY) 500)),
        partners := [], wallets := [] } := by
  apply redeemCoupon_no_partner
  · simp [CouponDoc.isRedeemable, settledTwoUseCoupon, applySettlement, CouponDoc.redeem,
      CouponDoc.recordStageChange, twoUseCoupon, createdHealthCoupon,
      buildCouponPayloadFromPackage, health500Package, orDefault, MS_PER_DAY]
  · simp [partnerCheckFails, donorUser]
  · simp [todayRedemptions, settledTwoUseCoupon, applySettlement, CouponDoc.redeem,
      CouponDoc.recordStageChange, twoUseCoupon, createdHealthCoupon,
      buildCouponPayloadFromPackage, health500Package, orDefault, redemptionData,
      startOfDay, Host.localMidnight, MS_PER_DAY]
  · exact healthCoupon_amount _ rfl _
  · simp [finalPartnerId, plainRedeem, nonEmpty]

/-- C12: `usedCount <= maxUses` unless `isUnlimited` holds for every coupon created by
`purchaseCoupons`, and every lifecycle request (`assignCoupon`, `redeemCoupon`,
`settleCoupon`, `rejectCoupon`) on a coupon that satisfies it leaves a coupon that
satisfies it; `redeemCoupon` either leaves the coupon as it was or raises `usedCount`
by exactly one, and does the latter only when `isRedeemable` held. -/
theorem usage_invariant [Host] :
    (∀ (m : CouponModel) (store : List CouponDoc) (user : Option User) (body : PurchaseBody)
      (now : Nat), ∀ c ∈ (purchaseCoupons m store user body now).created,
        c.usageWithinLimit) ∧
    (∀ c : CouponDoc, c.usageWithinLimit →
      (∀ user body now c2, (assignCoupon (some c) user body now).2 = some c2 →
        c2.usageWithinLimit) ∧
      (∀ user body now c2, (settleCoupon (some c) user body now).2 = some c2 →
        c2.usageWithinLimit) ∧
      (∀ user body now c2, (rejectCoupon (some c) user body now).2 = some c2 →
        c2.usageWithinLimit) ∧
      (∀ partners wallets user body now c2,
        (redeemCoupon (some c) partners wallets user body now).coupon = some c2 →
        c2.usageWithinLimit ∧
          (c2 = c ∨ (c.isRedeemable now = true ∧ c2.usedCount = c.usedCount + 1)))) := by
  constructor
  · intro m store user body now c hc
    obtain ⟨st, pkg, d, p, b, a, t, i, rfl⟩ :=
      purchaseCoupons_created_built m store user body now c hc
    exact Or.inr (Nat.zero_le _)
  · intro c hc
    refine ⟨?_, ?_, ?_, ?_⟩
    · intro user body now c2 h
      rcases assignCoupon_result c user body now with h1 | ⟨-, h1⟩
      · rw [h1] at h
        exact Option.some.inj h ▸ hc
      · rw [h1] at h
        obtain ⟨f1, f2, f3, -, -⟩ := applyAssignment_frame c user body now
        rw [← Option.some.inj h]
        show (applyAssignment c user body now).isUnlimited = true ∨
          (applyAssignment c user body now).usedCount ≤ (applyAssignment c user body now).maxUses
        rw [f1, f2, f3]
        exact hc
    · intro user body now c2 h
      rcases settleCoupon_result c user body now with h1 | ⟨-, h1⟩
      · rw [h1] at h
        exact Option.some.inj h ▸ hc
      · rw [h1] at h
        rw [← Option.some.inj h]
        exact hc
    · intro user body now c2 h
      rcases rejectCoupon_result c user body now with h1 | ⟨-, h1⟩
      · rw [h1] at h
        exact Option.some.inj h ▸ hc
      · rw [h1] at h
        rw [← Option.some.inj h]
        exact hc
    · intro partners wallets user body now c2 h
      rcases redeemCoupon_cases c partners wallets user body now with
        ⟨h1, -⟩ | ⟨h1, -, -, a, -, h5⟩
      · rw [h1] at h
        rw [← Option.some.inj h]
        exact ⟨hc, Or.inl rfl⟩
      · rw [h5] at h
        rw [← Option.some.inj h]
        refine ⟨?_, Or.inr ⟨h1, rfl⟩⟩
        simp only [CouponDoc.isRedeemable, Bool.and_eq_true, Bool.or_eq_true,
          decide_eq_true_eq] at h1
        rcases h1.2 with hu | hlt
        · exact Or.inl hu
        · right
          show c.usedCount + 1 ≤ c.maxUses
          omega

theorem usage_invariant_witness :
    createdHealthCoupon.usageWithinLimit ∧
    (createdHealthCoupon.redeem
      (redemptionData createdHealthCoupon [] donorUser plainRedeem 2000 500)).usageWithinLimit :=
  have h0 : createdHealthCoupon.usageWithinLimit := Or.inr (by decide)
  have h : (redeemCoupon (some createdHealthCoupon) [] [] donorUser plainRedeem 2000).coupon =
      some (createdHealthCoupon.redeem
        (redemptionData createdHealthCoupon [] donorUser plainRedeem 2000 500)) := by
    rw [createdHealthCoupon_redeem]
  ⟨h0, ((usage_invariant.2 createdHealthCoupon h0).2.2.2 [] [] donorUser plainRedeem 2000 _
    h).1⟩

/-- C13 (as stated, refuted): a coupon fresh from a purchase (stage `CREATED`) is moved
by a successful `redeemCoupon` straight to `REDEEMED_PENDING_SETTLEMENT`, which is no
edge of the graph; and a two-use coupon that was redeemed and settled (stage `SETTLED`)
is moved by a successful `redeemCoupon` on the next day back to
`REDEEMED_PENDING_SETTLEMENT`. -/
theorem redeem_leaves_stage_graph :
    createdHealthCoupon.stage = .CREATED ∧
    (redeemCoupon (some createdHealthCoupon) [] [] donorUser plainRedeem 2000).response.status
      = 200 ∧
    (redeemCoupon (some createdHealthCoupon) [] [] donorUser plainRedeem 2000).coupon.map
      (fun c => c.stage) = some .REDEEMED_PENDING_SETTLEMENT ∧
    specStageEdge .CREATED .REDEEMED_PENDING_SETTLEMENT = false ∧
    (settleCoupon (redeemCoupon (some twoUseCoupon) [] [] donorUser plainRedeem 2000).coupon
      adminUser ⟨none, none, none⟩ 3000).2 = some settledTwoUseCoupon ∧
    settledTwoUseCoupon.stage = .SETTLED ∧
    (redeemCoupon (some settledTwoUseCoupon) [] [] donorUser plainRedeem
      (2000 + MS_PER_DAY)).response.status = 200 ∧
    (redeemCoupon (some settledTwoUseCoupon) [] [] donorUser plainRedeem
      (2000 + MS_PER_DAY)).coupon.map (fun c => c.stage) =
        some .REDEEMED_PENDING_SETTLEMENT ∧
    specStageEdge .SETTLED .REDEEMED_PENDING_SETTLEMENT = false := by
  refine ⟨rfl, ?_, ?_, rfl, ?_, rfl, ?_, ?_, rfl⟩
  · rw [createdHealthCoupon_redeem]
  · rw [createdHealthCoupon_redeem]; rfl
  · rw [twoUseCoupon_redeem]
    simp [settleCoupon, settledTwoUseCoupon, CouponDoc.redeem, CouponDoc.recordStageChange]
  · rw [settledTwoUseCoupon_redeem]
  · rw [settledTwoUseCoupon_redeem]; rfl

/-- C13 (amended): for every coupon and every lifecycle request, the stored coupon is
either unchanged or has exactly one more `stageHistory` entry, naming its new stage;
`assignCoupon` changes only coupons in stage `CREATED` or `ASSIGNED` and leaves them
`ASSIGNED`, `settleCoupon` changes only coupons in stage `REDEEMED_PENDING_SETTLEMENT`
and leaves them `SETTLED`, `rejectCoupon` changes only coupons not in stage `SETTLED` and
leaves them `REJECTED` or `CANCELLED`, and `redeemCoupon` leaves a coupon in stage
`CREATED`, `ASSIGNED` or `REDEEMED_PENDING_SETTLEMENT` that it changes in stage
`REDEEMED_PENDING_SETTLEMENT`. So every change of stage made by `assignCoupon`,
`settleCoupon` or `rejectCoupon`, or by `redeemCoupon` from one of these three stages,
follows an edge of `CREATED -> ASSIGNED -> REDEEMED_PENDING_SETTLEMENT -> SETTLED`,
`CREATED -> REDEEMED_PENDING_SETTLEMENT`, or `X -> REJECTED / CANCELLED` for `X` other
than `SETTLED`. -/
theorem lifecycle_stage_steps [Host] (c : CouponDoc) :
    (∀ user body now c2, (assignCoupon (some c) user body now).2 = some c2 →
      c2 = c ∨ ((c.stage = .CREATED ∨ c.stage = .ASSIGNED) ∧ c2.stage = .ASSIGNED ∧
        ∃ e, c2.stageHistory = c.stageHistory ++ [e] ∧ e.stage = c2.stage)) ∧
    (∀ user body now c2, (settleCoupon (some c) user body now).2 = some c2 →
      c2 = c ∨ (c.stage = .REDEEMED_PENDING_SETTLEMENT ∧ c2.stage = .SETTLED ∧
        ∃ e, c2.stageHistory = c.stageHistory ++ [e] ∧ e.stage = c2.stage)) ∧
    (∀ user body now c2, (rejectCoupon (some c) user body now).2 = some c2 →
      c2 = c ∨ (c.stage ≠ .SETTLED ∧ (c2.stage = .REJECTED ∨ c2.stage = .CANCELLED) ∧
        ∃ e, c2.stageHistory = c.stageHistory ++ [e] ∧ e.stage = c2.stage)) ∧
    (∀ partners wallets user body now c2,
      (redeemCoupon (some c) partners wallets user body now).coupon = some c2 →
      c2 = c ∨
        ((c.stage = .CREATED ∨ c.stage = .ASSIGNED ∨ c.stage = .REDEEMED_PENDING_SETTLEMENT →
          c2.stage = .REDEEMED_PENDING_SETTLEMENT) ∧
        ∃ e, c2.stageHistory = c.stageHistory ++ [e] ∧ e.stage = c2.stage)) := by
  refine ⟨?_, ?_, ?_, ?_⟩
  · intro user body now c2 h
    rcases assignCoupon_result c user body now with h1 | ⟨hs, h1⟩
    · rw [h1] at h
      exact Or.inl (Option.some.inj h).symm
    · rw [h1] at h
      obtain ⟨-, -, -, -, f5⟩ := applyAssignment_frame c user body now
      rw [← Option.some.inj h]
      refine Or.inr ⟨hs, rfl,
        ⟨⟨.ASSIGNED, now, user.id, "Assigned to beneficiary"⟩, ?_, rfl⟩⟩
      show (applyAssignment c user body now).stageHistory ++ _ = _
      rw [f5]
  · intro user body now c2 h
    rcases settleCoupon_result c user body now with h1 | ⟨hs, h1⟩
    · rw [h1] at h
      exact Or.inl (Option.some.inj h).symm
    · rw [h1] at h
      rw [← Option.some.inj h]
      exact Or.inr ⟨hs, rfl, ⟨_, rfl, rfl⟩⟩
  · intro user body now c2 h
    rcases rejectCoupon_result c user body now with h1 | ⟨hs, h1⟩
    · rw [h1] at h
      exact Or.inl (Option.some.inj h).symm
    · rw [h1] at h
      rw [← Option.some.inj h]
      refine Or.inr ⟨hs, ?_, ⟨_, rfl, rfl⟩⟩
      by_cases hm : body.markAs.getD "REJECTED" = "CANCELLED"
      · right
        simp [applyRejection, CouponDoc.recordStageChange, hm]
      · left
        simp [applyRejection, CouponDoc.recordStageChange, hm]
  · intro partners wallets user body now c2 h
    rcases redeemCoupon_cases c partners wallets user body now with
      ⟨h1, -⟩ | ⟨-, -, -, a, -, h5⟩
    · rw [h1] at h
      exact Or.inl (Option.some.inj h).symm
    · rw [h5] at h
      rw [← Option.some.inj h]
      exact Or.inr ⟨fun _ => rfl, ⟨_, rfl, rfl⟩⟩

theorem lifecycle_stage_steps_witness :
    (redeemCoupon (some createdHealthCoupon) [] [] donorUser plainRedeem 2000).coupon =
      some (createdHealthCoupon.redeem
        (redemptionData createdHealthCoupon [] donorUser plainRedeem 2000 500)) ∧
    (createdHealthCoupon.redeem
        (redemptionData createdHealthCoupon [] donorUser plainRedeem 2000 500) =
      createdHealthCoupon ∨
      ((createdHealthCoupon.stage = .CREATED ∨ createdHealthCoupon.stage = .ASSIGNED ∨
          createdHealthCoupon.stage = .REDEEMED_PENDING_SETTLEMENT →
        (createdHealthCoupon.redeem
          (redemptionData createdHealthCoupon [] donorUser plainRedeem 2000 500)).stage =
          .REDEEMED_PENDING_SETTLEMENT) ∧
      ∃ e, (createdHealthCoupon.redeem
          (redemptionData createdHealthCoupon [] donorUser plainRedeem 2000 500)).stageHistory =
          createdHealthCoupon.stageHistory ++ [e] ∧
        e.stage = (createdHealthCoupon.redeem
          (redemptionData createdHealthCoupon [] donorUser plainRedeem 2000 500)).stage)) :=
  have h : (redeemCoupon (some createdHealthCoupon) [] [] donorUser plainRedeem 2000).coupon =
      some (createdHealthCoupon.redeem
        (redemptionData createdHealthCoupon [] donorUser plainRedeem 2000 500)) := by
    rw [createdHealthCoupon_redeem]
  ⟨h, (lifecycle_stage_steps createdHealthCoupon).2.2.2 [] [] donorUser plainRedeem 2000 _ h⟩

/-- The redemption a successful request records counts for its own day. -/
theorem todayRedemptions_after_redeem [Host] (c : CouponDoc) (r : Redemption) (t : Nat)
    (h : startOfDay t = startOfDay r.redeemedAt) :
    1 ≤ todayRedemptions (c.redeem r) t := by
  simp [todayRedemptions, CouponDoc.redeem, CouponDoc.recordStageChange, List.filter_append,
    h]

/-- C14 (as stated, refuted): on a server in UTC a `HEALTH_500` coupon
(`maxRedemptionsPerDay = 1`, `maxUses = 1`) redeemed successfully at time 2000 refuses a
second request at time 2001 of the same day with `Coupon is not valid or has expired`, not with the daily-limit
error, although one redemption record of that day exists. -/
theorem second_redemption_not_daily_limit :
    createdHealthCoupon.maxRedemptionsPerDay = 1 ∧
    (redeemCoupon (some createdHealthCoupon) [] [] donorUser plainRedeem 2000).response.status
      = 200 ∧
    startOfDay 2001 = startOfDay 2000 ∧
    (redeemCoupon
      (redeemCoupon (some createdHealthCoupon) [] [] donorUser plainRedeem 2000).coupon
      [] [] donorUser plainRedeem 2001).response =
      { status := 400, success := false, message := "Coupon is not valid or has expired" } ∧
    (redeemCoupon
      (redeemCoupon (some createdHealthCoupon) [] [] donorUser plainRedeem 2000).coupon
      [] [] donorUser plainRedeem 2001).response.message ≠
      "Daily redemption limit reached for this coupon" := by
  have h2 : (redeemCoupon
      (redeemCoupon (some createdHealthCoupon) [] [] donorUser plainRedeem 2000).coupon
      [] [] donorUser plainRedeem 2001).response =
      { status := 400, success := false,
        message := "Coupon is not valid or has expired" } := by
    rw [createdHealthCoupon_redeem]
    refine ((redeemCoupon_refusals _ [] [] donorUser plainRedeem 2001).1 ?_).1
    simp [CouponDoc.isRedeemable, CouponDoc.redeem, CouponDoc.recordStageChange,
      createdHealthCoupon, buildCouponPayloadFromPackage, health500Package, orDefault]
  refine ⟨by simp [createdHealthCoupon, buildCouponPayloadFromPackage, health500Package,
    orDefault], by rw [createdHealthCoupon_redeem], by decide, h2, ?_⟩
  rw [h2]
  decide

/-- C14 (amended): on every host, `redeemCoupon` answers with the daily-limit error
(HTTP 400, `Daily redemption limit reached for this coupon`), leaving the coupon
unchanged, whenever the coupon is redeemable, the partner check passes and the number of
redemption records of today is at least `maxRedemptionsPerDay`; days are those of the
time zone of the server. For a coupon with `maxRedemptionsPerDay = 1` that was redeemed
successfully once, every second request on the same calendar day of the server fails and
leaves the coupon unchanged: with 400
`Coupon is not valid or has expired` when the coupon is no longer redeemable, with 403
when the partner check fails, and with the daily-limit error otherwise. -/
theorem daily_limit_spec [Host] (c : CouponDoc) (partners : List Partner) (wallets : List Wallet)
    (user : User) (body : RedeemBody) (now : Nat) :
    (c.isRedeemable now = true → partnerCheckFails c partners user = false →
      todayRedemptions c now ≥ c.maxRedemptionsPerDay →
      (redeemCoupon (some c) partners wallets user body now).response =
        { status := 400, success := false,
          message := "Daily redemption limit reached for this coupon" } ∧
      (redeemCoupon (some c) partners wallets user body now).coupon = some c) ∧
    (c.maxRedemptionsPerDay = 1 →
      (redeemCoupon (some c) partners wallets user body now).response.status = 200 →
      ∃ c1, (redeemCoupon (some c) partners wallets user body now).coupon = some c1 ∧
        ∀ partners2 wallets2 user2 body2 t, startOfDay t = startOfDay now →
          (redeemCoupon (some c1) partners2 wallets2 user2 body2 t).coupon = some c1 ∧
          (c1.isRedeemable t = false →
            (redeemCoupon (some c1) partners2 wallets2 user2 body2 t).response =
              { status := 400, success := false,
                message := "Coupon is not valid or has expired" }) ∧
          (c1.isRedeemable t = true → partnerCheckFails c1 partners2 user2 = true →
            (redeemCoupon (some c1) partners2 wallets2 user2 body2 t).response =
              { status := 403, success := false,
                message := "You are not authorized to redeem this coupon" }) ∧
          (c1.isRedeemable t = true → partnerCheckFails c1 partners2 user2 = false →
            (redeemCoupon (some c1) partners2 wallets2 user2 body2 t).response =
              { status := 400, success := false,
                message := "Daily redemption limit reached for this coupon" })) := by
  refine ⟨(redeemCoupon_refusals c partners wallets user body now).2.2, ?_⟩
  intro hmax hok
  obtain ⟨a, -, h5⟩ := redeemCoupon_success c partners wallets user body now hok
  refine ⟨_, h5, ?_⟩
  intro partners2 wallets2 user2 body2 t ht
  have hcount : todayRedemptions
      (c.redeem (redemptionData c partners user body now a)) t ≥
      (c.redeem (redemptionData c partners user body now a)).maxRedemptionsPerDay := by
    have h1 := todayRedemptions_after_redeem c (redemptionData c partners user body now a) t ht
    have h2 : (c.redeem (redemptionData c partners user body now a)).maxRedemptionsPerDay =
        c.maxRedemptionsPerDay := rfl
    omega
  have hr := redeemCoupon_refusals (c.redeem (redemptionData c partners user body now a))
    partners2 wallets2 user2 body2 t
  refine ⟨?_, fun h => (hr.1 h).1, fun h1 h2 => (hr.2.1 h1 h2).1,
    fun h1 h2 => (hr.2.2 h1 h2 hcount).1⟩
  cases h1 : (c.redeem (redemptionData c partners user body now a)).isRedeemable t with
  | false => exact (hr.1 h1).2
  | true =>
    cases h2 : partnerCheckFails (c.redeem (redemptionData c partners user body now a))
        partners2 user2 with
    | true => exact (hr.2.1 h1 h2).2
    | false => exact (hr.2.2 h1 h2 hcount).2

/-- The instants 86399999 and 86400000 lie on one day in Asia/Kolkata and on two days in
UTC. -/
theorem kolkata_same_day :
    @startOfDay kolkataHost 86399999 = @startOfDay kolkataHost 86400000 ∧
    @startOfDay exampleHost 86399999 ≠ @startOfDay exampleHost 86400000 := by
  decide

/-- Witness for C14 (amended): on a server in Asia/Kolkata the two-use coupon redeemed at
86399999 is still redeemable at 86400000, the same local day, and the second request is
answered with the daily-limit error. -/
theorem daily_limit_spec_witness :
    (twoUseCoupon.redeem
      (redemptionData twoUseCoupon [] donorUser plainRedeem 86399999 500)).isRedeemable
        86400000 = true ∧
    (@redeemCoupon kolkataHost (some (twoUseCoupon.redeem
      (redemptionData twoUseCoupon [] donorUser plainRedeem 86399999 500)))
      [] [] donorUser plainRedeem 86400000).response =
      { status := 400, success := false,
        message := "Daily redemption limit reached for this coupon" } := by
  have h1 : (twoUseCoupon.redeem
      (redemptionData twoUseCoupon [] donorUser plainRedeem 86399999 500)).isRedeemable
        86400000 = true := by
    simp [CouponDoc.isRedeemable, CouponDoc.redeem, CouponDoc.recordStageChange, twoUseCoupon,
      createdHealthCoupon, buildCouponPayloadFromPackage, health500Package, orDefault,
      MS_PER_DAY]
  have h2 : partnerCheckFails (twoUseCoupon.redeem
      (redemptionData twoUseCoupon [] donorUser plainRedeem 86399999 500)) [] donorUser =
      false := by
    simp [partnerCheckFails, donorUser]
  have h3 : @todayRedemptions kolkataHost (twoUseCoupon.redeem
      (redemptionData twoUseCoupon [] donorUser plainRedeem 86399999 500)) 86400000 ≥
      (twoUseCoupon.redeem
        (redemptionData twoUseCoupon [] donorUser plainRedeem 86399999
          500)).maxRedemptionsPerDay := by
    have := @todayRedemptions_after_redeem kolkataHost twoUseCoupon
      (redemptionData twoUseCoupon [] donorUser plainRedeem 86399999 500) 86400000
      kolkata_same_day.1.symm
    have hm : (twoUseCoupon.redeem
        (redemptionData twoUseCoupon [] donorUser plainRedeem 86399999
          500)).maxRedemptionsPerDay = 1 := by
      simp [CouponDoc.redeem, CouponDoc.recordStageChange, twoUseCoupon, createdHealthCoupon,
        buildCouponPayloadFromPackage, health500Package, orDefault]
    omega
  exact ⟨h1, ((@daily_limit_spec kolkataHost _ [] [] donorUser plainRedeem 86400000).1
    h1 h2 h3).1⟩

/-! ### Redemption handler: wallet path -/

/-- A redeem request that passes every check and finds the partner's wallet ends as the
wallet update ends. -/
theorem redeemCoupon_wallet_path [Host] (c : CouponDoc) (partners : List Partner)
    (wallets : List Wallet) (user : User) (body : RedeemBody) (now : Nat) (a : ℚ)
    (partner : Partner) (vendor : String) (wallet : Wallet)
    (hr : c.isRedeemable now = true) (hp : partnerCheckFails c partners user = false)
    (ht : todayRedemptions c now < c.maxRedemptionsPerDay)
    (ha : computeRedemptionAmount c.toCoupon body.purchaseAmount = .ok (some a))
    (hf : (finalPartnerId c partners body).bind
      (fun pid => partners.find? (fun p => p.id == pid)) = some partner)
    (hv : nonEmpty partner.user = some vendor)
    (hw : wallets.find? (fun w => w.vendor == vendor) = some wallet) :
    redeemCoupon (some c) partners wallets user body now =
      match redeemCouponWalletUpdate wallet c.toCoupon a user.id now with
      | (.error e, stored) =>
        { response := redeemFailure e,
          coupon := some (c.redeem (redemptionData c partners user body now a)),
          partners := partners,
          wallets := updateFirst (fun w => w.vendor == vendor) (fun _ => stored) wallets }
      | (.ok _, stored) =>
        { response := { status := 200, success := true,
                        message := "Coupon redeemed successfully" },
          coupon := some (c.redeem (redemptionData c partners user body now a)),
          partners := updateFirst (fun p => p.id == partner.id)
            (fun _ => { partner with
              totalRedemptions := partner.totalRedemptions + 1
              totalRevenue := partner.totalRevenue + a }) partners,
          wallets := updateFirst (fun w => w.vendor == vendor) (fun _ => stored) wallets } := by
  have ht2 : ¬ todayRedemptions c now ≥ c.maxRedemptionsPerDay := by omega
  simp only [redeemCoupon, hr, hp, ht2, ha, hf, hv, hw, not_true_eq_false, if_false,
    Bool.false_eq_true]

/-- When the first tracking entry for the coupon is pending at a positive intake value
and the balance covers the amount once but not twice, the wallet update of the
redemption flow fails at the save of the `coupon_redeemed` transaction, after
`Wallet.redeemCoupon` has been stored. -/
theorem redeemCouponWalletUpdate_second_save_fails (w : Wallet) (coupon : Coupon)
    (amount : ℚ) (userId : String) (now : Nat) (e : CouponEntry)
    (h1 : w.coupons.find? (fun c => c.coupon == coupon.id) = some e)
    (h2 : e.status = .pending) (h3 : 0 < e.redeemedAmount.getD 0)
    (h4 : amount ≤ w.currentBalance) (h5 : w.currentBalance < 2 * amount) :
    (redeemCouponWalletUpdate w coupon amount userId now).1 =
      .error "Wallet validation failed" ∧
    (redeemCouponWalletUpdate w coupon amount userId now).2.currentBalance =
      w.currentBalance - amount ∧
    (redeemCouponWalletUpdate w coupon amount userId now).2.totalRedeemed =
      w.totalRedeemed + amount := by
  have hf := find_isPendingFor_of_first w.coupons coupon.id e h1 h2
  have hb1 : ¬ (w.currentBalance - amount < 0) := by linarith
  have hb2 : w.currentBalance - amount - amount < 0 := by linarith
  simp [redeemCouponWalletUpdate, h1, h2, Wallet.redeemCoupon, hf, h3, Wallet.save,
    Wallet.addTransaction, hb1, hb2]

/-- C21 (code evaluated at the failing input): a `HEALTH_500` coupon of partner `p1` is
redeemed while the partner's wallet holds only the intake credit of 500. `coupon.redeem`
is stored (`usedCount` 1, stage `REDEEMED_PENDING_SETTLEMENT`), the save of the
`coupon_redeemed` wallet transaction is rejected, and the request answers 400 with the
error message instead of 200; the partner analytics are not updated. -/
theorem wallet_failure_is_propagated :
    (redeemCoupon (some createdHealthCoupon) [partnerP1] [healthIntakeWallet] donorUser
      plainRedeem 2000).response =
      { status := 400, success := false, message := "Wallet validation failed" } ∧
    (redeemCoupon (some createdHealthCoupon) [partnerP1] [healthIntakeWallet] donorUser
      plainRedeem 2000).coupon.map (fun c => c.usedCount) = some 1 ∧
    (redeemCoupon (some createdHealthCoupon) [partnerP1] [healthIntakeWallet] donorUser
      plainRedeem 2000).coupon.map (fun c => c.stage) = some .REDEEMED_PENDING_SETTLEMENT ∧
    (redeemCoupon (some createdHealthCoupon) [partnerP1] [healthIntakeWallet] donorUser
      plainRedeem 2000).partners = [partnerP1] := by
  have hr : createdHealthCoupon.isRedeemable 2000 = true := by
    simp [CouponDoc.isRedeemable, createdHealthCoupon, buildCouponPayloadFromPackage,
      health500Package, orDefault, MS_PER_DAY]
  have hp : partnerCheckFails createdHealthCoupon [partnerP1] donorUser = false := by
    simp [partnerCheckFails, donorUser]
  have ht : todayRedemptions createdHealthCoupon 2000 <
      createdHealthCoupon.maxRedemptionsPerDay := by
    simp [todayRedemptions, createdHealthCoupon, buildCouponPayloadFromPackage,
      health500Package, orDefault]
  have ha : computeRedemptionAmount createdHealthCoupon.toCoupon plainRedeem.purchaseAmount =
      .ok (some 500) := healthCoupon_amount _ rfl _
  have hf : (finalPartnerId createdHealthCoupon [partnerP1] plainRedeem).bind
      (fun pid => [partnerP1].find? (fun p => p.id == pid)) = some partnerP1 := by
    simp [finalPartnerId, plainRedeem, nonEmpty, createdHealthCoupon,
      buildCouponPayloadFromPackage, partnerP1]
  have hv : nonEmpty partnerP1.user = some "v1" := by simp [nonEmpty, partnerP1]
  have hw : [healthIntakeWallet].find? (fun w => w.vendor == "v1") =
      some healthIntakeWallet := by
    simp [healthIntakeWallet]
  have h := redeemCoupon_wallet_path createdHealthCoupon [partnerP1] [healthIntakeWallet]
    donorUser plainRedeem 2000 500 partnerP1 "v1" healthIntakeWallet hr hp ht ha hf hv hw
  have hu := redeemCouponWalletUpdate_second_save_fails healthIntakeWallet
    createdHealthCoupon.toCoupon 500 donorUser.id 2000
    (CouponEntry.mk "c500" 1 none (some 500) .pending) rfl rfl (by norm_num)
    (by norm_num [healthIntakeWallet]) (by norm_num [healthIntakeWallet])
  rw [h]
  cases hx : redeemCouponWalletUpdate healthIntakeWallet createdHealthCoupon.toCoupon 500
      donorUser.id 2000 with
  | mk o st =>
    rw [hx] at hu
    obtain ⟨ho, -, -⟩ := hu
    simp only at ho
    subst ho
    exact ⟨rfl, rfl, rfl, rfl⟩

/-- A failing `save()` reports the schema validation error. -/
theorem save_error (w : Wallet) (e : String) (h : w.save = .error e) :
    e = "Wallet validation failed" := by
  unfold Wallet.save at h
  split_ifs at h
  simpa using h.symm

/-- Method `addTransaction` can only fail at its `save()`. -/
theorem addTransaction_error (w : Wallet) (t : Transaction) (e : String)
    (h : (w.addTransaction t).1 = .error e) : e = "Wallet validation failed" :=
  save_error _ e h

/-- Method `redeemCoupon` with a pending entry at hand can only fail at its `save()`. -/
theorem redeemCoupon_error_of_find (w : Wallet) (c : String) (a : ℚ) (now : Nat)
    (e0 : CouponEntry) (e : String) (hf : w.coupons.find? (isPendingFor c) = some e0)
    (h : (w.redeemCoupon c a now).1 = .error e) : e = "Wallet validation failed" := by
  unfold Wallet.redeemCoupon at h
  rw [hf] at h
  exact save_error _ e h

/-- The wallet update of the redemption flow can only fail at a save: the guard of the
handler keeps `Wallet.redeemCoupon` from throwing. -/
theorem redeemCouponWalletUpdate_error (w : Wallet) (coupon : Coupon) (a : ℚ)
    (userId : String) (now : Nat) (e : String)
    (h : (redeemCouponWalletUpdate w coupon a userId now).1 = .error e) :
    e = "Wallet validation failed" := by
  unfold redeemCouponWalletUpdate at h
  cases h1 : w.coupons.find? (fun c => c.coupon == coupon.id) with
  | none => simp [h1] at h
  | some e0 =>
    by_cases h2 : e0.status = .pending
    · have hf := find_isPendingFor_of_first w.coupons coupon.id e0 h1 h2
      simp only [h1, h2, if_true] at h
      cases hr : w.redeemCoupon coupon.id a now with
      | mk o w1 =>
        have hre := redeemCoupon_error_of_find w coupon.id a now e0
        rw [hr] at h hre
        cases o with
        | error e1 =>
          simp only at h
          have he := hre e1 hf rfl
          cases h
          exact he
        | ok u =>
          simp only at h
          cases ht : w1.addTransaction
            { type := .coupon_redeemed, amount := a, coupon := some coupon.id,
              description := some ("Coupon " ++ coupon.code ++ " redeemed"),
              transactionId := none, processedBy := some userId,
              status := some .completed } with
          | mk o2 w2 =>
            have hte := addTransaction_error w1
              { type := .coupon_redeemed, amount := a, coupon := some coupon.id,
                description := some ("Coupon " ++ coupon.code ++ " redeemed"),
                transactionId := none, processedBy := some userId,
                status := some .completed }
            rw [ht] at h hte
            cases o2 with
            | error e2 =>
              simp only at h
              have he := hte e2 rfl
              cases h
              exact he
            | ok u2 => simp at h
    · simp [h1, h2] at h

/-- The answers of a redeem request on an existing coupon: a refusal that leaves the
coupon, the partners and the wallets as they were, the success response, or the error of
a wallet save. -/
theorem redeemCoupon_responses [Host] (c : CouponDoc) (partners : List Partner)
    (wallets : List Wallet) (user : User) (body : RedeemBody) (now : Nat) :
    ((redeemCoupon (some c) partners wallets user body now).coupon = some c ∧
      (redeemCoupon (some c) partners wallets user body now).partners = partners ∧
      (redeemCoupon (some c) partners wallets user body now).wallets = wallets) ∨
    (redeemCoupon (some c) partners wallets user body now).response =
      { status := 200, success := true, message := "Coupon redeemed successfully" } ∨
    (redeemCoupon (some c) partners wallets user body now).response =
      redeemFailure "Wallet validation failed" := by
  rcases redeemCoupon_cases c partners wallets user body now with
    ⟨h1, -, h3, h4⟩ | ⟨h1, h2, h3, a, h4, -⟩
  · exact Or.inl ⟨h1, h3, h4⟩
  · right
    have h3n : ¬ todayRedemptions c now ≥ c.maxRedemptionsPerDay := by omega
    simp only [redeemCoupon, h1, h2, h3n, h4, not_true_eq_false, if_false,
      Bool.false_eq_true]
    repeat' split
    all_goals first
      | exact Or.inl rfl
      | (rename_i e stored heq
         right
         have he := redeemCouponWalletUpdate_error _ _ _ _ _ e (by rw [heq])
         rw [he])

/-- C24: the domain checks of handler `redeemCoupon` run in the order coupon exists,
`isRedeemable`, partner ownership, daily limit, and all of them run before any mutation:
a request answered with 404, with 403, with "Coupon is not valid or has expired" or with
"Daily redemption limit reached for this coupon" leaves the coupon document (hence its
`usedCount`, `redemptions`, `stage` and `stageHistory`), the partners with their analytics
and the wallets exactly as they were. -/
theorem redeemCoupon_checks_before_mutation [Host] (found : Option CouponDoc)
    (partners : List Partner) (wallets : List Wallet) (user : User) (body : RedeemBody)
    (now : Nat) :
    (((redeemCoupon found partners wallets user body now).response.status = 404 ∨
      (redeemCoupon found partners wallets user body now).response.status = 403 ∨
      (redeemCoupon found partners wallets user body now).response.message =
        "Coupon is not valid or has expired" ∨
      (redeemCoupon found partners wallets user body now).response.message =
        "Daily redemption limit reached for this coupon") →
      (redeemCoupon found partners wallets user body now).coupon = found ∧
      (redeemCoupon found partners wallets user body now).partners = partners ∧
      (redeemCoupon found partners wallets user body now).wallets = wallets) ∧
    (found = none →
      (redeemCoupon found partners wallets user body now).response =
        { status := 404, success := false, message := "Coupon not found" }) ∧
    (∀ c, found = some c → c.isRedeemable now = false →
      (redeemCoupon found partners wallets user body now).response =
        { status := 400, success := false,
          message := "Coupon is not valid or has expired" }) ∧
    (∀ c, found = some c → c.isRedeemable now = true →
      partnerCheckFails c partners user = true →
      (redeemCoupon found partners wallets user body now).response =
        { status := 403, success := false,
          message := "You are not authorized to redeem this coupon" }) ∧
    (∀ c, found = some c → c.isRedeemable now = true →
      partnerCheckFails c partners user = false →
      todayRedemptions c now ≥ c.maxRedemptionsPerDay →
      (redeemCoupon found partners wallets user body now).response =
        { status := 400, success := false,
          message := "Daily redemption limit reached for this coupon" }) := by
  refine ⟨?_, ?_, ?_, ?_, ?_⟩
  · intro h
    cases found with
    | none => exact ⟨rfl, rfl, rfl⟩
    | some c =>
      rcases redeemCoupon_responses c partners wallets user body now with hA | hB | hC
      · exact hA
      · rw [hB] at h
        simp at h
      · rw [hC] at h
        simp [redeemFailure] at h
  · intro h
    subst h
    rfl
  · intro c h h1
    subst h
    exact ((redeemCoupon_refusals c partners wallets user body now).1 h1).1
  · intro c h h1 h2
    subst h
    exact ((redeemCoupon_refusals c partners wallets user body now).2.1 h1 h2).1
  · intro c h h1 h2 h3
    subst h
    exact ((redeemCoupon_refusals c partners wallets user body now).2.2 h1 h2 h3).1

theorem usedHealthCoupon_not_redeemable : usedHealthCoupon.isRedeemable 2000 = false := by
  simp [CouponDoc.isRedeemable, usedHealthCoupon, createdHealthCoupon,
    buildCouponPayloadFromPackage, health500Package, orDefault]

theorem usedHealthCoupon_refused :
    (redeemCoupon (some usedHealthCoupon) [partnerP1] [healthIntakeWallet] donorUser
      plainRedeem 2000).response =
      { status := 400, success := false, message := "Coupon is not valid or has expired" } :=
  ((redeemCoupon_refusals usedHealthCoupon [partnerP1] [healthIntakeWallet] donorUser
    plainRedeem 2000).1 usedHealthCoupon_not_redeemable).1

/-- Witness for C24: the used-up coupon `usedHealthCoupon` is refused as not redeemable,
and the coupon, the partner and the wallet stay as they were. -/
theorem redeemCoupon_checks_before_mutation_witness :
    (redeemCoupon (some usedHealthCoupon) [partnerP1] [healthIntakeWallet] donorUser
      plainRedeem 2000).response.message = "Coupon is not valid or has expired" ∧
    (redeemCoupon (some usedHealthCoupon) [partnerP1] [healthIntakeWallet] donorUser
      plainRedeem 2000).coupon = some usedHealthCoupon ∧
    (redeemCoupon (some usedHealthCoupon) [partnerP1] [healthIntakeWallet] donorUser
      plainRedeem 2000).partners = [partnerP1] ∧
    (redeemCoupon (some usedHealthCoupon) [partnerP1] [healthIntakeWallet] donorUser
      plainRedeem 2000).wallets = [healthIntakeWallet] :=
  ⟨by rw [usedHealthCoupon_refused],
    (redeemCoupon_checks_before_mutation (some usedHealthCoupon) [partnerP1]
      [healthIntakeWallet] donorUser plainRedeem 2000).1
      (Or.inr (Or.inr (Or.inl (by rw [usedHealthCoupon_refused]))))⟩

/-- C25: the ownership check of handler `redeemCoupon`. For a caller of role `partner`
the check is passed if and only if a Partner record exists for the caller (by e-mail) and
the coupon, as populated, has no partner or its partner has the id of that record; a
redeemable coupon failing the check is refused with 403; a caller of any other role
always passes the check. -/
theorem partner_ownership_check [Host] (c : CouponDoc) (partners : List Partner) (user : User) :
    (user.role = "partner" →
      (partnerCheckFails c partners user = false ↔
        ∃ p, partners.find? (fun q => q.email == user.email) = some p ∧
          (c.partner.bind (fun pid => partners.find? (fun q => q.id == pid)) = none ∨
            ∃ cp, c.partner.bind (fun pid => partners.find? (fun q => q.id == pid)) =
              some cp ∧ cp.id = p.id))) ∧
    (user.role ≠ "partner" → partnerCheckFails c partners user = false) ∧
    (∀ wallets body now, c.isRedeemable now = true →
      partnerCheckFails c partners user = true →
      (redeemCoupon (some c) partners wallets user body now).response =
        { status := 403, success := false,
          message := "You are not authorized to redeem this coupon" }) := by
  refine ⟨?_, ?_, ?_⟩
  · intro hrole
    unfold partnerCheckFails
    rw [if_pos hrole]
    cases h1 : partners.find? (fun q => q.email == user.email) with
    | none => simp
    | some p =>
      cases h2 : c.partner.bind (fun pid => partners.find? (fun q => q.id == pid)) with
      | none => simp
      | some cp => simp
  · intro hrole
    unfold partnerCheckFails
    rw [if_neg hrole]
  · intro wallets body now h1 h2
    exact ((redeemCoupon_refusals c partners wallets user body now).2.1 h1 h2).1

/-- Witness for C25: the partner user `v1` passes the check on the coupon of its own
partner record `p1`. -/
theorem partner_ownership_check_witness :
    partnerUser.role = "partner" ∧
    (partnerCheckFails createdHealthCoupon [partnerP1] partnerUser = false ↔
      ∃ p, [partnerP1].find? (fun q => q.email == partnerUser.email) = some p ∧
        (createdHealthCoupon.partner.bind
            (fun pid => [partnerP1].find? (fun q => q.id == pid)) = none ∨
          ∃ cp, createdHealthCoupon.partner.bind
            (fun pid => [partnerP1].find? (fun q => q.id == pid)) = some cp ∧
            cp.id = p.id)) :=
  ⟨rfl, (partner_ownership_check createdHealthCoupon [partnerP1] partnerUser).1 rfl⟩

/-- C28: the error branch of `Wallet.redeemCoupon` is unreachable from the redemption
flow. When the guard of the handler holds, that is the first tracking entry of the wallet
for the coupon exists and is pending, `wallet.redeemCoupon` finds a pending entry (that
very entry) and does not throw "Coupon not found or already redeemed"; and no wallet
update of the handler ends in that error. -/
theorem redeemCoupon_error_branch_unreachable (w : Wallet) (coupon : Coupon) (a : ℚ)
    (userId : String) (now : Nat) (e : CouponEntry)
    (h1 : w.coupons.find? (fun c => c.coupon == coupon.id) = some e)
    (h2 : e.status = .pending) :
    w.coupons.find? (isPendingFor coupon.id) = some e ∧
    (w.redeemCoupon coupon.id a now).1 ≠ .error "Coupon not found or already redeemed" ∧
    (redeemCouponWalletUpdate w coupon a userId now).1 ≠
      .error "Coupon not found or already redeemed" := by
  have hf := find_isPendingFor_of_first w.coupons coupon.id e h1 h2
  refine ⟨hf, ?_, ?_⟩
  · intro h
    have he := redeemCoupon_error_of_find w coupon.id a now e _ hf h
    exact absurd he (by decide)
  · intro h
    have he := redeemCouponWalletUpdate_error w coupon a userId now _ h
    exact absurd he (by decide)

/-- Witness for C28: the wallet `healthIntakeWallet`, whose only entry for `c500` is
pending. -/
theorem redeemCoupon_error_branch_unreachable_witness :
    healthIntakeWallet.coupons.find? (fun c => c.coupon == createdHealthCoupon.id) =
      some ⟨"c500", 1, none, some 500, .pending⟩ ∧
    healthIntakeWallet.coupons.find? (isPendingFor createdHealthCoupon.id) =
      some ⟨"c500", 1, none, some 500, .pending⟩ ∧
    (healthIntakeWallet.redeemCoupon createdHealthCoupon.id 500 2000).1 ≠
      .error "Coupon not found or already redeemed" ∧
    (redeemCouponWalletUpdate healthIntakeWallet createdHealthCoupon.toCoupon 500 "u1"
      2000).1 ≠ .error "Coupon not found or already redeemed" :=
  ⟨rfl, redeemCoupon_error_branch_unreachable healthIntakeWallet
    createdHealthCoupon.toCoupon 500 "u1" 2000 ⟨"c500", 1, none, some 500, .pending⟩ rfl rfl⟩

/-- The redemption of `createdHealthCoupon` by `donorUser` at time 2000, booked on
partner `p1`, goes through the wallet update of the wallet of vendor `v1`. -/
theorem createdHealthCoupon_wallet_path (wallet : Wallet) (hw : wallet.vendor = "v1") :
    redeemCoupon (some createdHealthCoupon) [partnerP1] [wallet] donorUser plainRedeem 2000 =
      match redeemCouponWalletUpdate wallet createdHealthCoupon.toCoupon 500 donorUser.id
          2000 with
      | (.error e, stored) =>
        { response := redeemFailure e,
          coupon := some (createdHealthCoupon.redeem
            (redemptionData createdHealthCoupon [partnerP1] donorUser plainRedeem 2000 500)),
          partners := [partnerP1],
          wallets := updateFirst (fun w => w.vendor == "v1") (fun _ => stored) [wallet] }
      | (.ok _, stored) =>
        { response := { status := 200, success := true,
                        message := "Coupon redeemed successfully" },
          coupon := some (createdHealthCoupon.redeem
            (redemptionData createdHealthCoupon [partnerP1] donorUser plainRedeem 2000 500)),
          partners := updateFirst (fun p => p.id == partnerP1.id)
            (fun _ => { partnerP1 with
              totalRedemptions := partnerP1.totalRedemptions + 1
              totalRevenue := partnerP1.totalRevenue + 500 }) [partnerP1],
          wallets := updateFirst (fun w => w.vendor == "v1") (fun _ => stored) [wallet] } := by
  have hr : createdHealthCoupon.isRedeemable 2000 = true := by
    simp [CouponDoc.isRedeemable, createdHealthCoupon, buildCouponPayloadFromPackage,
      health500Package, orDefault, MS_PER_DAY]
  have hp : partnerCheckFails createdHealthCoupon [partnerP1] donorUser = false := by
    simp [partnerCheckFails, donorUser]
  have ht : todayRedemptions createdHealthCoupon 2000 <
      createdHealthCoupon.maxRedemptionsPerDay := by
    simp [todayRedemptions, createdHealthCoupon, buildCouponPayloadFromPackage,
      health500Package, orDefault]
  have ha : computeRedemptionAmount createdHealthCoupon.toCoupon plainRedeem.purchaseAmount =
      .ok (some 500) := healthCoupon_amount _ rfl _
  have hf : (finalPartnerId createdHealthCoupon [partnerP1] plainRedeem).bind
      (fun pid => [partnerP1].find? (fun p => p.id == pid)) = some partnerP1 := by
    simp [finalPartnerId, plainRedeem, nonEmpty, createdHealthCoupon,
      buildCouponPayloadFromPackage, partnerP1]
  have hv : nonEmpty partnerP1.user = some "v1" := by simp [nonEmpty, partnerP1]
  have hw2 : [wallet].find? (fun w => w.vendor == "v1") = some wallet := by
    simp [hw]
  exact redeemCoupon_wallet_path createdHealthCoupon [partnerP1] [wallet]
    donorUser plainRedeem 2000 500 partnerP1 "v1" wallet hr hp ht ha hf hv hw2

/-- The guard of the handler looks at the first tracking entry for the coupon only: when
that entry is not pending the wallet is not touched. -/
theorem redeemCouponWalletUpdate_first_not_pending (w : Wallet) (coupon : Coupon) (a : ℚ)
    (userId : String) (now : Nat) (e : CouponEntry)
    (h1 : w.coupons.find? (fun c => c.coupon == coupon.id) = some e)
    (h2 : e.status ≠ .pending) :
    redeemCouponWalletUpdate w coupon a userId now = (.ok (), w) := by
  simp [redeemCouponWalletUpdate, h1, h2]

/-- C26 (code evaluated at the failing input): the wallet `reentryWallet` holds a pending
tracking entry for coupon `c500` behind an entry already redeemed. The redemption of
`c500` answers 200, yet the wallet is stored exactly as it was: the pending entry is not
marked and no `coupon_redeemed` transaction is appended. Method `Wallet.redeemCoupon` on
the same wallet finds the pending entry and marks it. -/
theorem pending_entry_behind_redeemed_is_skipped :
    (∃ e ∈ reentryWallet.coupons, e.coupon = createdHealthCoupon.id ∧ e.status = .pending) ∧
    (redeemCoupon (some createdHealthCoupon) [partnerP1] [reentryWallet] donorUser
      plainRedeem 2000).response =
      { status := 200, success := true, message := "Coupon redeemed successfully" } ∧
    (redeemCoupon (some createdHealthCoupon) [partnerP1] [reentryWallet] donorUser
      plainRedeem 2000).wallets = [reentryWallet] ∧
    (reentryWallet.redeemCoupon createdHealthCoupon.id 500 2000).2.coupons =
      [⟨"c500", 1, some 5, some 500, .redeemed⟩,
       ⟨"c500", 7, some 2000, some 500, .redeemed⟩] := by
  have hu := redeemCouponWalletUpdate_first_not_pending reentryWallet
    createdHealthCoupon.toCoupon 500 donorUser.id 2000
    (CouponEntry.mk "c500" 1 (some 5) (some 500) .redeemed) rfl (by decide)
  have h := createdHealthCoupon_wallet_path reentryWallet rfl
  rw [hu] at h
  refine ⟨⟨CouponEntry.mk "c500" 7 none (some 500) .pending, ?_, rfl, rfl⟩, ?_, ?_, ?_⟩
  · simp [reentryWallet]
  · rw [h]
  · rw [h]
    simp [updateFirst, reentryWallet]
  · have hfind : reentryWallet.coupons.find? (isPendingFor createdHealthCoupon.id) =
        some (CouponEntry.mk "c500" 7 none (some 500) .pending) := rfl
    simp only [Wallet.redeemCoupon, hfind]
    split_ifs <;> rfl

/-- In a list with no entry for the coupon, followed by a pending entry for it, the
search of `Wallet.redeemCoupon` finds that entry. -/
theorem find_isPendingFor_append_new (l : List CouponEntry) (c : String) (a : ℚ)
    (now : Nat) (hc : ∀ x ∈ l, x.coupon ≠ c) :
    (l ++ [CouponEntry.mk c now none (some a) .pending]).find? (isPendingFor c) =
      some (CouponEntry.mk c now none (some a) .pending) := by
  induction l with
  | nil => simp [isPendingFor]
  | cons x xs ih =>
    have hx : x.coupon ≠ c := hc x (List.mem_cons_self _ _)
    have hb : isPendingFor c x = false := by simp [isPendingFor, hx]
    rw [List.cons_append, List.find?_cons, hb]
    exact ih (fun y hy => hc y (List.mem_cons_of_mem _ hy))

/-- A wallet with a balance that is not negative passes `save()`. -/
theorem save_ok (w : Wallet) (h : 0 ≤ w.currentBalance) : w.save = .ok () := by
  simp [Wallet.save, not_lt.2 h]

/-! ### Wallet endpoints -/

/-- What a successful `topupWallet` stores. -/
theorem topupWallet_success (w : Wallet) (amount : ℚ) (description : Option String)
    (userId : String)
    (h : (topupWallet (some w) amount description userId).1.status = 200) :
    ∃ w1, (topupWallet (some w) amount description userId).2 = some w1 ∧
      w1.currentBalance = w.currentBalance + amount ∧
      w1.totalReceived = w.totalReceived + amount := by
  unfold topupWallet at h ⊢
  simp only [Wallet.addTransaction, Wallet.save, true_or, if_true] at h ⊢
  split_ifs at h ⊢ with h0
  · simp at h
  · exact ⟨_, rfl, rfl, rfl⟩

/-- What a successful `settleWallet` stores. -/
theorem settleWallet_success (w : Wallet) (amount : ℚ) (transactionId : Option String)
    (userId : String) (now : Nat)
    (h : (settleWallet (some w) amount transactionId userId now).1.status = 200) :
    ∃ w1, (settleWallet (some w) amount transactionId userId now).2 = some w1 ∧
      w1.currentBalance = w.currentBalance - amount ∧
      w1.totalSettled = w.totalSettled + amount := by
  unfold settleWallet at h ⊢
  simp only [Wallet.addTransaction, Wallet.save] at h ⊢
  by_cases hb : w.currentBalance < amount
  · simp [hb] at h
  · by_cases h0 : w.currentBalance - amount < 0
    · simp [hb, h0] at h
    · simp [hb, h0]

/-- C30 (counterexample): the endpoints do not check the sign of the amount. A top-up of
-50 on `fixedIntakeWallet` (balance 100, received 100) succeeds and lowers the balance
and `totalReceived` to 50; a settlement of -50 succeeds, raises the balance to 150 and
lowers `totalSettled` to -50. -/
theorem negative_amount_not_monotone :
    (topupWallet (some fixedIntakeWallet) (-50) none "a1").1.status = 200 ∧
    (topupWallet (some fixedIntakeWallet) (-50) none "a1").2.map
      (fun w => (w.currentBalance, w.totalReceived)) = some (50, 50) ∧
    (settleWallet (some fixedIntakeWallet) (-50) none "a1" 9).1.status = 200 ∧
    (settleWallet (some fixedIntakeWallet) (-50) none "a1" 9).2.map
      (fun w => (w.currentBalance, w.totalSettled)) = some (150, -50) ∧
    fixedIntakeWallet.currentBalance = 100 ∧ fixedIntakeWallet.totalReceived = 100 ∧
    fixedIntakeWallet.totalSettled = 0 := by
  have ht : (topupWallet (some fixedIntakeWallet) (-50) none "a1").1.status = 200 := by
    simp [topupWallet, Wallet.addTransaction, Wallet.save, fixedIntakeWallet]
    norm_num
  have hs : (settleWallet (some fixedIntakeWallet) (-50) none "a1" 9).1.status = 200 := by
    simp [settleWallet, Wallet.addTransaction, Wallet.save, fixedIntakeWallet]
    norm_num
  obtain ⟨w1, h1, h2, h3⟩ := topupWallet_success _ _ _ _ ht
  obtain ⟨w2, h4, h5, h6⟩ := settleWallet_success _ _ _ _ _ hs
  refine ⟨ht, ?_, hs, ?_, rfl, rfl, rfl⟩
  · rw [h1]
    simp [h2, h3, fixedIntakeWallet]
    norm_num
  · rw [h4]
    simp [h5, h6, fixedIntakeWallet]
    norm_num

/-- C30 (amended): for every amount that is not negative, a successful `topupWallet`
never decreases `currentBalance` or `totalReceived`, and a successful `settleWallet`
never increases `currentBalance` and never decreases `totalSettled`. -/
theorem topup_settle_monotone (w : Wallet) (amount : ℚ) (description : Option String)
    (transactionId : Option String) (userId : String) (now : Nat) (h : 0 ≤ amount) :
    ((topupWallet (some w) amount description userId).1.status = 200 →
      ∃ w1, (topupWallet (some w) amount description userId).2 = some w1 ∧
        w.currentBalance ≤ w1.currentBalance ∧ w.totalReceived ≤ w1.totalReceived) ∧
    ((settleWallet (some w) amount transactionId userId now).1.status = 200 →
      ∃ w1, (settleWallet (some w) amount transactionId userId now).2 = some w1 ∧
        w1.currentBalance ≤ w.currentBalance ∧ w.totalSettled ≤ w1.totalSettled) := by
  constructor
  · intro hs
    obtain ⟨w1, h1, h2, h3⟩ := topupWallet_success w amount description userId hs
    exact ⟨w1, h1, by rw [h2]; linarith, by rw [h3]; linarith⟩
  · intro hs
    obtain ⟨w1, h1, h2, h3⟩ := settleWallet_success w amount transactionId userId now hs
    exact ⟨w1, h1, by rw [h2]; linarith, by rw [h3]; linarith⟩

/-- Witness for C30 (amended): a top-up of 50 and a settlement of 50 on
`fixedIntakeWallet`. -/
theorem topup_settle_monotone_witness :
    (0 : ℚ) ≤ 50 ∧
    (topupWallet (some fixedIntakeWallet) 50 none "a1").1.status = 200 ∧
    (∃ w1, (topupWallet (some fixedIntakeWallet) 50 none "a1").2 = some w1 ∧
      fixedIntakeWallet.currentBalance ≤ w1.currentBalance ∧
      fixedIntakeWallet.totalReceived ≤ w1.totalReceived) :=
  have hs : (topupWallet (some fixedIntakeWallet) 50 none "a1").1.status = 200 := by
    simp [topupWallet, Wallet.addTransaction, Wallet.save, fixedIntakeWallet]
    norm_num
  ⟨by norm_num, hs,
    (topup_settle_monotone fixedIntakeWallet 50 none none "a1" 0 (by norm_num)).1 hs⟩

/-! ### Coupon lookup and validation -/

theorem jsTrim_blank : jsTrim " " = "" := by decide

theorem jsTrim_noBreakSpace : jsTrim (String.mk [Char.ofNat 0xA0]) = "" := by decide

theorem jsTrim_A : jsTrim "A" = "A" := by decide

theorem jsTrim_a : jsTrim "a" = "a" := by decide

theorem jsToUpperCase_a : jsToUpperCase "a" = "A" := by decide

/-- The answer of `getCouponByCode` for a code that finds a coupon the caller may see. -/
theorem getCouponByCode_visible [Host] (store : List CouponDoc) (isPublic : CouponDoc → Bool)
    (code : String) (user : Option User) (now : Nat) (c : CouponDoc)
    (h0 : code ≠ "") (h1 : jsTrim code ≠ "")
    (hfind : store.find? (fun x => x.code == jsTrim (jsToUpperCase code)) = some c)
    (hvis : isPublic c = true ∨ ∃ u, user = some u ∧ (u.id = c.issuer ∨ u.role = "admin")) :
    getCouponByCode store isPublic code user now =
      if c.isRedeemable now = true then
        { status := 200, success := true, message := "Coupon is valid",
          isRedeemable := some true }
      else
        { status := 400, success := false, message := notRedeemableReason c now,
          isRedeemable := none } := by
  unfold getCouponByCode
  rw [if_neg (by simp [h0, h1])]
  simp only [hfind]
  rcases hvis with hp | ⟨u, rfl, hu⟩
  · by_cases hr : c.isRedeemable now = true <;> simp [hp, hr]
  · have hh : decide (u.id ≠ c.issuer ∧ u.role ≠ "admin") = false := by
      simp only [decide_eq_false_iff_not]
      tauto
    by_cases hr : c.isRedeemable now = true <;> simp [hh, hr]

/-- C22: for an existing coupon the caller may see, `getCouponByCode` answers 200 with
`isRedeemable = true` when the coupon is redeemable, and otherwise 400 with the reason
chosen in priority order: "Coupon is not yet active" if `now < startDate`; else "Coupon
has expired" if `now > endDate`; else "Coupon is <status>" if the status is not
`active`; else "Coupon usage limit reached" if the coupon is not unlimited and
`usedCount >= maxUses`; else "Coupon is not valid". -/
theorem getCouponByCode_reason_priority [Host] (store : List CouponDoc)
    (isPublic : CouponDoc → Bool) (code : String) (user : Option User) (now : Nat)
    (c : CouponDoc) (h0 : code ≠ "") (h1 : jsTrim code ≠ "")
    (hfind : store.find? (fun x => x.code == jsTrim (jsToUpperCase code)) = some c)
    (hvis : isPublic c = true ∨ ∃ u, user = some u ∧ (u.id = c.issuer ∨ u.role = "admin")) :
    (c.isRedeemable now = true →
      getCouponByCode store isPublic code user now =
        { status := 200, success := true, message := "Coupon is valid",
          isRedeemable := some true }) ∧
    (c.isRedeemable now = false →
      (getCouponByCode store isPublic code user now).status = 400 ∧
      (getCouponByCode store isPublic code user now).success = false ∧
      (now < c.startDate →
        (getCouponByCode store isPublic code user now).message =
          "Coupon is not yet active") ∧
      (c.startDate ≤ now → c.endDate < now →
        (getCouponByCode store isPublic code user now).message = "Coupon has expired") ∧
      (c.startDate ≤ now → now ≤ c.endDate → c.status ≠ "active" →
        (getCouponByCode store isPublic code user now).message =
          "Coupon is " ++ c.status) ∧
      (c.startDate ≤ now → now ≤ c.endDate → c.status = "active" →
        c.isUnlimited = false → c.maxUses ≤ c.usedCount →
        (getCouponByCode store isPublic code user now).message =
          "Coupon usage limit reached") ∧
      (c.startDate ≤ now → now ≤ c.endDate → c.status = "active" →
        (c.isUnlimited = true ∨ c.usedCount < c.maxUses) →
        (getCouponByCode store isPublic code user now).message =
          "Coupon is not valid")) := by
  have h := getCouponByCode_visible store isPublic code user now c h0 h1 hfind hvis
  constructor
  · intro hr
    rw [h, if_pos hr]
  · intro hr
    have hr2 : ¬ c.isRedeemable now = true := by simp [hr]
    rw [h, if_neg hr2]
    refine ⟨rfl, rfl, ?_, ?_, ?_, ?_, ?_⟩
    · intro a1
      simp [notRedeemableReason, a1]
    · intro a1 a2
      simp [notRedeemableReason, Nat.not_lt.2 a1, a2]
    · intro a1 a2 a3
      simp [notRedeemableReason, Nat.not_lt.2 a1, Nat.not_lt.2 a2, a3]
    · intro a1 a2 a3 a4 a5
      simp [notRedeemableReason, Nat.not_lt.2 a1, Nat.not_lt.2 a2, a3, a4, a5]
    · intro a1 a2 a3 a4
      have a5 : ¬ (¬ c.isUnlimited = true ∧ c.usedCount ≥ c.maxUses) := by
        rintro ⟨b1, b2⟩
        rcases a4 with a4 | a4
        · exact b1 a4
        · omega
      simp only [notRedeemableReason, Nat.not_lt.2 a1, Nat.not_lt.2 a2, a3, a5, if_false,
        gt_iff_lt, ne_eq, not_true_eq_false]

theorem shortCodeCoupon_found :
    [shortCodeCoupon].find? (fun x => x.code == jsTrim (jsToUpperCase "a")) =
      some shortCodeCoupon := by
  rw [jsToUpperCase_a, jsTrim_A]
  rfl

/-- Witness for C22: the used-up public coupon `A`, looked up as `a` at time 2000, is
answered with 400 and "Coupon usage limit reached". -/
theorem getCouponByCode_reason_priority_witness :
    shortCodeCoupon.isRedeemable 2000 = false ∧
    (getCouponByCode [shortCodeCoupon] (fun _ => true) "a" none 2000).status = 400 ∧
    (getCouponByCode [shortCodeCoupon] (fun _ => true) "a" none 2000).message =
      "Coupon usage limit reached" :=
  have hr : shortCodeCoupon.isRedeemable 2000 = false := by
    simp [CouponDoc.isRedeemable, shortCodeCoupon, usedHealthCoupon, createdHealthCoupon,
      buildCouponPayloadFromPackage, health500Package, orDefault]
  have h := (getCouponByCode_reason_priority [shortCodeCoupon] (fun _ => true) "a" none
    2000 shortCodeCoupon (by decide) (by rw [jsTrim_a]; decide) shortCodeCoupon_found
    (Or.inl rfl)).2 hr
  ⟨hr, h.1, h.2.2.2.2.2.1
    (by simp [shortCodeCoupon, usedHealthCoupon, createdHealthCoupon,
      buildCouponPayloadFromPackage])
    (by simp [shortCodeCoupon, usedHealthCoupon, createdHealthCoupon,
      buildCouponPayloadFromPackage, health500Package, orDefault, MS_PER_DAY])
    (by simp [shortCodeCoupon, usedHealthCoupon, createdHealthCoupon,
      buildCouponPayloadFromPackage])
    (by simp [shortCodeCoupon, usedHealthCoupon, createdHealthCoupon,
      buildCouponPayloadFromPackage, health500Package])
    (by simp [shortCodeCoupon, usedHealthCoupon, createdHealthCoupon,
      buildCouponPayloadFromPackage, health500Package, orDefault])⟩

/-- C23 (counterexample): a code made of one space, or of one no-break space (U+00A0),
matches no stored coupon, and `getCouponByCode` answers it with 400 "Coupon code is
required", not with 404. -/
theorem blank_code_is_rejected_not_missing :
    (∀ c ∈ [shortCodeCoupon], c.code ≠ " " ∧ c.code ≠ String.mk [Char.ofNat 0xA0]) ∧
    getCouponByCode [shortCodeCoupon] (fun _ => true) " " none 2000 =
      { status := 400, success := false, message := "Coupon code is required",
        isRedeemable := none } ∧
    getCouponByCode [shortCodeCoupon] (fun _ => true) (String.mk [Char.ofNat 0xA0]) none
      2000 =
      { status := 400, success := false, message := "Coupon code is required",
        isRedeemable := none } := by
  refine ⟨?_, ?_, ?_⟩
  · intro c hc
    rw [List.mem_singleton] at hc
    subst hc
    decide
  · unfold getCouponByCode
    rw [if_pos (Or.inr jsTrim_blank)]
  · unfold getCouponByCode
    rw [if_pos (Or.inr jsTrim_noBreakSpace)]

/-- C23 (amended): on every host, a code that is not blank (not empty once its white
space is trimmed) and whose upper-cased, trimmed form matches no stored coupon is
answered by `getCouponByCode` with 404, a blank code with 400; `validateCoupon` answers
every code string whose upper-cased form matches no stored coupon with 404 and
`valid = false`, and every code that matches a coupon with
`valid = coupon.isRedeemable()` and a `data` object if and only if `valid` is true. -/
theorem lookup_unmatched_code [Host] (store : List CouponDoc) (isPublic : CouponDoc → Bool)
    (code : String) (user : Option User) (now : Nat) :
    (code ≠ "" → jsTrim code ≠ "" →
      store.find? (fun x => x.code == jsTrim (jsToUpperCase code)) = none →
      getCouponByCode store isPublic code user now =
        { status := 404, success := false,
          message := "Invalid coupon code. Please check the code and try again.",
          isRedeemable := none }) ∧
    ((code = "" ∨ jsTrim code = "") →
      getCouponByCode store isPublic code user now =
        { status := 400, success := false, message := "Coupon code is required",
          isRedeemable := none }) ∧
    (store.find? (fun x => x.code == jsToUpperCase code) = none →
      validateCoupon store (some code) now =
        { status := 404, valid := some false, data := none,
          message := "Invalid coupon code" }) ∧
    (∀ c, store.find? (fun x => x.code == jsToUpperCase code) = some c →
      (validateCoupon store (some code) now).status = 200 ∧
      (validateCoupon store (some code) now).valid = some (c.isRedeemable now) ∧
      ((validateCoupon store (some code) now).data.isSome = true ↔
        (validateCoupon store (some code) now).valid = some true)) := by
  refine ⟨?_, ?_, ?_, ?_⟩
  · intro h0 h1 hf
    unfold getCouponByCode
    rw [if_neg (by simp [h0, h1])]
    simp only [hf]
  · intro h
    unfold getCouponByCode
    rw [if_pos h]
  · intro hf
    simp only [validateCoupon, hf]
  · intro c hf
    simp only [validateCoupon, hf]
    cases c.isRedeemable now <;> simp

theorem shortCodeCoupon_not_found :
    [shortCodeCoupon].find? (fun x => x.code == jsTrim (jsToUpperCase "b")) = none ∧
    [shortCodeCoupon].find? (fun x => x.code == jsToUpperCase "b") = none := by
  constructor <;> rfl

/-- Witness for C23 (amended): the code `b` on a store holding the coupon `A`. -/
theorem lookup_unmatched_code_witness :
    "b" ≠ "" ∧ jsTrim "b" ≠ "" ∧
    getCouponByCode [shortCodeCoupon] (fun _ => true) "b" none 0 =
      { status := 404, success := false,
        message := "Invalid coupon code. Please check the code and try again.",
        isRedeemable := none } ∧
    validateCoupon [shortCodeCoupon] (some "b") 0 =
      { status := 404, valid := some false, data := none,
        message := "Invalid coupon code" } :=
  ⟨by decide, by decide,
    (lookup_unmatched_code [shortCodeCoupon] (fun _ => true) "b" none 0).1 (by decide)
      (by decide) shortCodeCoupon_not_found.1,
    (lookup_unmatched_code [shortCodeCoupon] (fun _ => true) "b" none 0).2.2.1
      shortCodeCoupon_not_found.2⟩

/-! ### Coupon update -/

/-- C27 (code evaluated at the failing input): on the used coupon `usedHealthCoupon`
(`usedCount` 1) an admin sends `value: null`, `type: ''`, `category: 0` and a title. The
guard deletes a field only when its value is truthy, so the body handed to the store is
the request body as sent, the three keys included; the same request with truthy values
has them removed. -/
theorem falsy_restricted_fields_are_forwarded :
    usedHealthCoupon.usedCount > 0 ∧
    updateCoupon (some usedHealthCoupon) adminUser falsyUpdate = .ok falsyUpdate ∧
    (bodyGet falsyUpdate "value" = some (.scalar .null) ∧
      bodyGet falsyUpdate "type" = some (.scalar (.string "")) ∧
      bodyGet falsyUpdate "category" = some (.scalar (.number 0))) ∧
    updateCoupon (some usedHealthCoupon) adminUser truthyUpdate =
      .ok [("title", .scalar (.string "Renamed"))] := by
  have hu : usedHealthCoupon.usedCount > 0 := by
    simp [usedHealthCoupon]
  refine ⟨hu, ?_, ⟨rfl, rfl, rfl⟩, ?_⟩
  · simp [updateCoupon, adminUser, hu, stripRestricted, restrictedFields, bodyGet,
      falsyUpdate, RequestValue.truthy, JsValue.truthy]
  · simp [updateCoupon, adminUser, hu, stripRestricted, restrictedFields, bodyGet,
      truthyUpdate, RequestValue.truthy, JsValue.truthy]

/-! ### Wallet arithmetic in doubles -/

theorem roundHalfEven_intCast (n : ℤ) : roundHalfEven (n : ℚ) = n := by
  simp [roundHalfEven]

/-- A value halfway between an odd integer and the next one is rounded up, to the even
one. -/
theorem roundHalfEven_tie_odd (x : ℚ) (f : ℤ) (hx : x = f + 1 / 2) (hodd : f % 2 = 1) :
    roundHalfEven x = f + 1 := by
  have hfl : ⌊x⌋ = f := by
    rw [Int.floor_eq_iff, hx]
    constructor <;> linarith
  unfold roundHalfEven
  rw [hfl, hx]
  have h1 : ¬ ((f : ℚ) + 1 / 2 - f < 1 / 2) := by
    have : (f : ℚ) + 1 / 2 - f = 1 / 2 := by ring
    rw [this]
    exact lt_irrefl _
  have h2 : ¬ ((1 : ℚ) / 2 < (f : ℚ) + 1 / 2 - f) := by
    have : (f : ℚ) + 1 / 2 - f = 1 / 2 := by ring
    rw [this]
    exact lt_irrefl _
  have h3 : ¬ (f % 2 = 0) := by omega
  rw [if_neg h1, if_neg h2, if_neg h3]

/-- The last place of the doubles in the binade of `2 ^ k`. -/
theorem ulpExponent_of_binade (q : ℚ) (k : ℤ) (h1 : (2 : ℚ) ^ k ≤ |q|)
    (h2 : |q| < (2 : ℚ) ^ (k + 1)) (hk : -1022 ≤ k) : ulpExponent q = k - 52 := by
  have hpos : 0 < |q| := lt_of_lt_of_le (by positivity) h1
  have hlog : Int.log 2 |q| = k := by
    apply le_antisymm
    · have := (Int.lt_zpow_iff_log_lt (by norm_num : 1 < 2) hpos).1 (by exact_mod_cast h2)
      omega
    · exact (Int.zpow_le_iff_le_log (by norm_num : 1 < 2) hpos).1 (by exact_mod_cast h1)
  unfold ulpExponent
  rw [hlog]
  omega

/-- The double a result in the binade of `2 ^ k` is rounded to. -/
theorem roundDouble_of_binade (q : ℚ) (k : ℤ) (m : ℤ) (h1 : (2 : ℚ) ^ k ≤ |q|)
    (h2 : |q| < (2 : ℚ) ^ (k + 1)) (hk : -1022 ≤ k)
    (hm : roundHalfEven (q / 2 ^ (k - 52)) = m)
    (hfin : |(m : ℚ) * 2 ^ (k - 52)| < 2 ^ (1024 : ℕ)) :
    roundDouble q = some ((m : ℚ) * 2 ^ (k - 52)) := by
  unfold roundDouble
  simp only [ulpExponent_of_binade q k h1 h2 hk, hm]
  rw [if_pos hfin]

/-- A value with a 53-bit significand in the binade of `2 ^ k` is a double: rounding
leaves it as it is. -/
theorem roundDouble_of_significand (q : ℚ) (k : ℤ) (m : ℤ) (hq : q = (m : ℚ) * 2 ^ (k - 52))
    (h1 : (2 : ℚ) ^ k ≤ |q|) (h2 : |q| < (2 : ℚ) ^ (k + 1)) (hk : -1022 ≤ k)
    (hfin : |q| < 2 ^ (1024 : ℕ)) :
    roundDouble q = some q := by
  have hm : roundHalfEven (q / 2 ^ (k - 52)) = m := by
    have h2ne : ((2 : ℚ) ^ (k - 52)) ≠ 0 := by positivity
    rw [hq, mul_div_assoc, div_self h2ne, mul_one]
    exact roundHalfEven_intCast m
  rw [roundDouble_of_binade q k m h1 h2 hk hm (by rw [← hq]; exact hfin), ← hq]

theorem roundDouble_zero : roundDouble 0 = some 0 := by
  simp [roundDouble, roundHalfEven]

theorem double499_99_exact : roundDouble (0 + double499_99) = some double499_99 := by
  rw [zero_add]
  refine roundDouble_of_significand double499_99 8 8795917100347556 ?_ ?_ ?_ (by norm_num) ?_
  all_goals norm_num [double499_99, abs_of_pos]

/-- In doubles, 1000.10 + 499.99 is 1500.0900000000001: the exact sum lies halfway
between two doubles and goes to the one with the even significand. -/
theorem double_sum_rounds :
    roundDouble (double1000_10 + double499_99) = some (6597465590842000 / 2 ^ 42) := by
  have hm : roundHalfEven ((double1000_10 + double499_99) / 2 ^ ((10 : ℤ) - 52)) =
      6597465590841999 + 1 := by
    apply roundHalfEven_tie_odd
    · norm_num [double1000_10, double499_99]
    · decide
  have h := roundDouble_of_binade (double1000_10 + double499_99) 10 (6597465590841999 + 1)
    (by norm_num [double1000_10, double499_99, abs_of_pos])
    (by norm_num [double1000_10, double499_99, abs_of_pos])
    (by norm_num) hm (by norm_num [abs_of_pos])
  rw [h]
  norm_num

/-- In doubles, 1500.0900000000001 - 499.99 is 1000.1000000000001, exactly. -/
theorem double_difference_rounds :
    roundDouble (6597465590842000 / 2 ^ 42 - double499_99) =
      some (8796972631510222 / 2 ^ 43) := by
  have h := roundDouble_of_significand (6597465590842000 / 2 ^ 42 - double499_99) 9
    8796972631510222 (by norm_num [double499_99])
    (by norm_num [double499_99, abs_of_pos])
    (by norm_num [double499_99, abs_of_pos])
    (by norm_num) (by norm_num [double499_99, abs_of_pos])
  rw [h]
  norm_num [double499_99]

/-- What `addTransaction` of a `coupon_received` transaction stores in doubles. -/
theorem addTransaction64_received (w : Wallet) (t : Transaction) (b r : ℚ)
    (ht : t.type = .coupon_received)
    (h1 : roundDouble (w.currentBalance + t.amount) = some b)
    (h2 : roundDouble (w.totalReceived + t.amount) = some r) :
    ∃ p, w.addTransaction64 t = some p ∧ p.1 = p.2.save ∧ p.2.currentBalance = b ∧
      p.2.totalReceived = r ∧ p.2.totalRedeemed = w.totalRedeemed ∧
      p.2.totalSettled = w.totalSettled ∧ p.2.coupons = w.coupons := by
  cases h : w.addTransaction64 t with
  | none => simp [Wallet.addTransaction64, ht, h1, h2] at h
  | some p =>
    simp only [Wallet.addTransaction64, ht, or_true, if_true, h1, h2, Option.some_bind,
      Option.map_some', Option.some.injEq] at h
    subst h
    exact ⟨_, rfl, rfl, rfl, rfl, rfl, rfl, rfl⟩

/-- What `redeemCoupon` stores in doubles when the pending entry found was taken in at a
positive amount. -/
theorem redeemCoupon64_of_find (w : Wallet) (c : String) (a : ℚ) (now : Nat)
    (e : CouponEntry) (b r : ℚ) (hf : w.coupons.find? (isPendingFor c) = some e)
    (hpos : 0 < e.redeemedAmount.getD 0)
    (h1 : roundDouble (w.totalRedeemed + a) = some r)
    (h2 : roundDouble (w.currentBalance - a) = some b) :
    ∃ p, w.redeemCoupon64 c a now = some p ∧ p.1 = p.2.save ∧ p.2.currentBalance = b ∧
      p.2.totalRedeemed = r ∧ p.2.totalReceived = w.totalReceived ∧
      p.2.totalSettled = w.totalSettled := by
  cases h : w.redeemCoupon64 c a now with
  | none => simp [Wallet.redeemCoupon64, hf, h1, hpos, h2] at h
  | some p =>
    simp only [Wallet.redeemCoupon64, hf, h1, Option.some_bind, gt_iff_lt, hpos, if_true, h2,
      Option.map_some', Option.some.injEq] at h
    subst h
    exact ⟨_, rfl, rfl, rfl, rfl, rfl, rfl⟩

/-- Intake followed by redemption in doubles: the balance ends as the twice rounded
`(currentBalance + a) - a`, the totals as the rounded sums. -/
theorem intake_then_redeem_doubles (w : Wallet) (c : String) (a : ℚ) (t : Transaction)
    (now1 now2 : Nat) (s b r d : ℚ) (hc : ∀ x ∈ w.coupons, x.coupon ≠ c) (ha : 0 < a)
    (ht : t.type = .coupon_received) (hta : t.amount = a)
    (h1 : roundDouble (w.currentBalance + a) = some s)
    (h2 : roundDouble (w.totalReceived + a) = some r)
    (h3 : roundDouble (w.totalRedeemed + a) = some d)
    (h4 : roundDouble (s - a) = some b) :
    ∃ p2 p3, (w.addCoupon c a now1).2.addTransaction64 t = some p2 ∧
      p2.2.redeemCoupon64 c a now2 = some p3 ∧
      p3.1 = p3.2.save ∧ p3.2.currentBalance = b ∧ p3.2.totalReceived = r ∧
      p3.2.totalRedeemed = d ∧ p3.2.totalSettled = w.totalSettled := by
  obtain ⟨p2, e2, -, f1, f2, f3, f4, f5⟩ := addTransaction64_received (w.addCoupon c a now1).2
    t s r ht (by rw [hta]; exact h1) (by rw [hta]; exact h2)
  have hfind : p2.2.coupons.find? (isPendingFor c) =
      some (CouponEntry.mk c now1 none (some a) .pending) := by
    rw [f5]
    exact find_isPendingFor_append_new w.coupons c a now1 hc
  obtain ⟨p3, e3, g0, g1, g2, g3, g4⟩ := redeemCoupon64_of_find p2.2 c a now2 _ b d hfind
    (by simpa using ha) (by rw [f3]; exact h3) (by rw [f1]; exact h4)
  exact ⟨p2, p3, e2, e3, g0, g1, by rw [g3, f2], g2, by rw [g4, f4]; rfl⟩

/-- Whole numbers of magnitude below `2 ^ 53` are doubles. -/
theorem roundDouble_intCast (n : ℤ) (h : |n| < 2 ^ 53) : roundDouble (n : ℚ) = some (n : ℚ) := by
  by_cases h0 : n = 0
  · subst h0
    simpa using roundDouble_zero
  · have hpos : (0 : ℚ) < |(n : ℚ)| := abs_pos.2 (by exact_mod_cast h0)
    have hone : (1 : ℚ) ≤ |(n : ℚ)| := by
      have : (1 : ℤ) ≤ |n| := Int.one_le_abs h0
      exact_mod_cast this
    have hlt : |(n : ℚ)| < 2 ^ (53 : ℤ) := by
      have h53 : ((|n| : ℤ) : ℚ) < ((2 ^ 53 : ℤ) : ℚ) := by exact_mod_cast h
      rw [Int.cast_abs] at h53
      calc |(n : ℚ)| < ((2 ^ 53 : ℤ) : ℚ) := h53
        _ = 2 ^ (53 : ℤ) := by norm_num
    have hk0 : 0 ≤ Int.log 2 |(n : ℚ)| :=
      (Int.zpow_le_iff_le_log (by norm_num : 1 < 2) hpos).1 (by simpa using hone)
    have hk1 : Int.log 2 |(n : ℚ)| < 53 :=
      (Int.lt_zpow_iff_log_lt (by norm_num : 1 < 2) hpos).1 (by exact_mod_cast hlt)
    have hb1 := Int.zpow_log_le_self (by norm_num : 1 < 2) hpos
    have hb2 := Int.lt_zpow_succ_log_self (by norm_num : 1 < 2) |(n : ℚ)|
    obtain ⟨j, hj⟩ : ∃ j : ℕ, (j : ℤ) = 52 - Int.log 2 |(n : ℚ)| :=
      ⟨(52 - Int.log 2 |(n : ℚ)|).toNat, Int.toNat_of_nonneg (by omega)⟩
    refine roundDouble_of_significand (n : ℚ) (Int.log 2 |(n : ℚ)|) (n * 2 ^ j) ?_
      (by exact_mod_cast hb1) (by exact_mod_cast hb2) (by omega) ?_
    · have he : Int.log 2 |(n : ℚ)| - 52 = -(j : ℤ) := by omega
      rw [he, zpow_neg, zpow_natCast]
      push_cast
      field_simp
    · calc |(n : ℚ)| < 2 ^ (53 : ℤ) := hlt
        _ < 2 ^ (1024 : ℕ) := by norm_num

/-- C29 (as stated, refuted): in doubles, a wallet with balance 1000.10 that takes in
coupon `c1` at 499.99 (`addCoupon`, then the `coupon_received` transaction) and redeems
it at 499.99 ends with the balance 1000.1000000000001, one last place above the balance
it started from; all saves succeed. -/
theorem intake_then_redeem_rounding_drift :
    (((toppedUpWallet.addCoupon "c1" double499_99 1).2.addTransaction64
        (plainTransaction .coupon_received double499_99)).bind
      (fun p => p.2.redeemCoupon64 "c1" double499_99 2)).map
      (fun p => (p.1, p.2.currentBalance)) = some (.ok (), 8796972631510222 / 2 ^ 43) ∧
    toppedUpWallet.currentBalance = 8796972631510221 / 2 ^ 43 ∧
    (∀ x ∈ toppedUpWallet.coupons, x.coupon ≠ "c1") ∧ (0 : ℚ) < double499_99 := by
  have hc : ∀ x ∈ toppedUpWallet.coupons, x.coupon ≠ "c1" := by
    intro x hx
    simp [toppedUpWallet, Wallet.create] at hx
  have ha : (0 : ℚ) < double499_99 := by norm_num [double499_99]
  obtain ⟨p2, p3, e2, e3, g0, g1, -, -, -⟩ := intake_then_redeem_doubles toppedUpWallet "c1"
    double499_99 (plainTransaction .coupon_received double499_99) 1 2
    (6597465590842000 / 2 ^ 42) (8796972631510222 / 2 ^ 43) (6597465590842000 / 2 ^ 42)
    double499_99 hc ha rfl rfl double_sum_rounds double_sum_rounds double499_99_exact
    double_difference_rounds
  refine ⟨?_, rfl, hc, ha⟩
  rw [e2, Option.some_bind, e3, Option.map_some', g0, g1]
  have hs : p3.2.save = .ok () := save_ok _ (by rw [g1]; norm_num)
  rw [hs]

/-- C29 (amended): intake followed by redemption is balance-neutral at the wallet-model
level when no addition rounds. For every wallet `w` whose balance is a double, every
coupon `c` with no tracking entry in `w` and every amount `a > 0` such that
`currentBalance + a`, `totalReceived + a` and `totalRedeemed + a` are doubles (as they
are for whole numbers below `2 ^ 53`), `addCoupon(c, a)`, `addTransaction` of a
`coupon_received` transaction of amount `a` and `redeemCoupon(c, a)`, carried out in
doubles, leave the balance of `w`, `totalReceived` and `totalRedeemed` each larger by
exactly `a` and `totalSettled` unchanged; `redeemCoupon` does not throw, and its save
succeeds when the balance is not negative. -/
theorem intake_then_redeem_exact_sums (w : Wallet) (c : String) (a : ℚ) (t : Transaction)
    (now1 now2 : Nat) (hc : ∀ x ∈ w.coupons, x.coupon ≠ c) (ha : 0 < a)
    (ht : t.type = .coupon_received) (hta : t.amount = a)
    (hb : roundDouble w.currentBalance = some w.currentBalance)
    (h1 : roundDouble (w.currentBalance + a) = some (w.currentBalance + a))
    (h2 : roundDouble (w.totalReceived + a) = some (w.totalReceived + a))
    (h3 : roundDouble (w.totalRedeemed + a) = some (w.totalRedeemed + a)) :
    ∃ p2 p3, (w.addCoupon c a now1).2.addTransaction64 t = some p2 ∧
      p2.2.redeemCoupon64 c a now2 = some p3 ∧
      p3.2.currentBalance = w.currentBalance ∧
      p3.2.totalReceived = w.totalReceived + a ∧
      p3.2.totalRedeemed = w.totalRedeemed + a ∧
      p3.2.totalSettled = w.totalSettled ∧
      p3.1 ≠ .error "Coupon not found or already redeemed" ∧
      (0 ≤ w.currentBalance → p3.1 = .ok ()) := by
  have h4 : roundDouble (w.currentBalance + a - a) = some w.currentBalance := by
    rw [add_sub_cancel_right]
    exact hb
  obtain ⟨p2, p3, e2, e3, g0, g1, g2, g3, g4⟩ := intake_then_redeem_doubles w c a t now1 now2
    _ _ _ _ hc ha ht hta h1 h2 h3 h4
  refine ⟨p2, p3, e2, e3, g1, g2, g3, g4, ?_, ?_⟩
  · intro h
    rw [g0] at h
    exact absurd (save_error _ _ h) (by decide)
  · intro h0
    rw [g0]
    exact save_ok _ (by rw [g1]; exact h0)

/-- Witness for C29 (amended): a new wallet takes in coupon `c1` at 100 and redeems it
at 100. -/
theorem intake_then_redeem_exact_sums_witness :
    (0 : ℚ) < 100 ∧
    roundDouble ((Wallet.create "v1").currentBalance + 100) =
      some ((Wallet.create "v1").currentBalance + 100) ∧
    ∃ p2 p3, ((Wallet.create "v1").addCoupon "c1" 100 1).2.addTransaction64
        (plainTransaction .coupon_received 100) = some p2 ∧
      p2.2.redeemCoupon64 "c1" 100 2 = some p3 ∧
      p3.2.currentBalance = (Wallet.create "v1").currentBalance ∧
      p3.2.totalReceived = (Wallet.create "v1").totalReceived + 100 ∧
      p3.2.totalRedeemed = (Wallet.create "v1").totalRedeemed + 100 ∧
      p3.2.totalSettled = (Wallet.create "v1").totalSettled ∧
      p3.1 ≠ .error "Coupon not found or already redeemed" ∧
      (0 ≤ (Wallet.create "v1").currentBalance → p3.1 = .ok ()) :=
  have h100 : roundDouble ((0 : ℚ) + 100) = some ((0 : ℚ) + 100) := by
    have h := roundDouble_intCast 100 (by norm_num)
    rw [zero_add]
    exact_mod_cast h
  ⟨by norm_num, h100,
    intake_then_redeem_exact_sums (Wallet.create "v1") "c1" 100
      (plainTransaction .coupon_received 100) 1 2
      (by intro x hx; simp [Wallet.create] at hx) (by norm_num) rfl rfl roundDouble_zero
      h100 h100 h100⟩

end CareFoundation
